import Mathlib

/-!
Solar-Based Temporal Authentication: a shallow embedding of `scrypt.js`.

The development follows the source file top to bottom: the entropy harvester,
the decision lattice, the NOAA solar calculator and the `EnhancedSBTAModule`
operations.  Integers are `Nat` or `Int`.  The two places where the source
floors a product of doubles (`nextInteger` and `crystallize`) are computed with
`fl`, the rounding of a rational to the nearest double, so their results are
those of IEEE arithmetic.  Everything that goes through `Math.sin`,
`Math.sqrt` and friends is a real number and is read without rounding; `NaN`
and the infinities are not values of that reading, and the places where the
source can produce them are named at the definitions concerned.  Calls on the
browser (random bytes, the clock, GPS, camera, network time, the embedding
model) are explicit inputs.
-/

namespace SBTA

/-! ## Doubles -/

/-- Rounding of a rational to the nearest integer, a tie going to the even
neighbour. -/
def roundEven (t : ℚ) : ℤ :=
  if t - ⌊t⌋ < 1 / 2 then ⌊t⌋
  else if 1 / 2 < t - ⌊t⌋ then ⌊t⌋ + 1
  else if ⌊t⌋ % 2 = 0 then ⌊t⌋ else ⌊t⌋ + 1

/-- The double nearest to a rational (IEEE 754 binary64, round to nearest, ties
to even): with `2^e <= |x| < 2^(e+1)` the result is the multiple of `2^(e-52)`
nearest to `x`.  The exponent is not bounded, so there is no overflow to
`Infinity` and there are no subnormals.  In `nextInteger` the quotient
`v / 2^32` is 0 or at least `2^-32` and the product is below `max`, so both
stay in the normal range; in `crystallize` a quotient `p / 100` below the
normal range gives a product below 1 on any lattice, whose floor is 0 with or
without subnormals. -/
def fl (x : ℚ) : ℚ :=
  if x = 0 then 0
  else roundEven (x / 2 ^ (Int.log 2 |x| - 52)) * 2 ^ (Int.log 2 |x| - 52)

/-! ## 2. Core utilities: entropy and the lattice -/

/-- What one call of `harvestEntropy` reads from the browser:
`random i` is the byte `window.crypto.getRandomValues` writes at index `i`,
`tilt` is `Math.floor(alpha * beta * gamma * 1000)` when `_lastTiltData` is set,
`image` is `getROIImage().data` when the UI is present and returns a frame
(an exception from the camera is absorbed by the source and reads as `none`). -/
structure HarvestInput where
  random : Nat → Nat
  tilt : Option Int
  image : Option (List Nat)

/-- The supply of future harvest readings: `src 0` is read by the next harvest. -/
abbrev EntropySource := Nat → HarvestInput

/-- The state of `class EntropyHarvester`. -/
structure EntropyHarvester where
  entropyPool : List Nat
  poolCursor : Nat

namespace EntropyHarvester

/-- The `constructor()`: `new Uint8Array(4096)` and cursor 0. -/
def new : EntropyHarvester :=
  { entropyPool := List.replicate 4096 0, poolCursor := 0 }

/-- Step 2 of `harvestEntropy`: the low three bytes of `noise` are xor-ed into
pool bytes 0, 1 and 2. -/
def mixTilt (pool : List Nat) (noise : Int) : List Nat :=
  let p0 := pool.set 0 (Nat.xor (pool.getD 0 0) (noise % 256).toNat)
  let p1 := p0.set 1 (Nat.xor (p0.getD 1 0) ((noise / 256) % 256).toNat)
  p1.set 2 (Nat.xor (p1.getD 2 0) ((noise / 65536) % 256).toNat)

/-- Step 3 of `harvestEntropy`: 128 strided samples of the frame are xor-ed into
pool bytes 0..127 (`step = Math.floor(len / 128) || 1`). -/
def mixImage (pool : List Nat) (data : List Nat) : List Nat :=
  if data.length > 0 then
    let step := if data.length / 128 = 0 then 1 else data.length / 128
    (List.range 128).foldl
      (fun p i =>
        let pixelIdx := i * step
        if pixelIdx < data.length then
          p.set i (Nat.xor (p.getD i 0) (data.getD pixelIdx 0 % 256))
        else p)
      pool
  else pool

/-- The method `harvestEntropy()`: refill the whole pool, mix, reset the cursor. -/
def harvestEntropy (h : EntropyHarvester) (inp : HarvestInput) : EntropyHarvester :=
  let base := (List.range h.entropyPool.length).map (fun i => inp.random i % 256)
  let mixed := match inp.tilt with
    | some noise => mixTilt base noise
    | none => base
  let mixed2 := match inp.image with
    | some data => mixImage mixed data
    | none => mixed
  { entropyPool := mixed2, poolCursor := 0 }

/-- The refresh test of `nextInteger`: `poolCursor >= entropyPool.length - 4`. -/
def needsRefresh (h : EntropyHarvester) : Bool :=
  decide ((h.entropyPool.length : Int) - 4 ≤ (h.poolCursor : Int))

/-- The value `val32 >>> 0` assembled from four pool bytes. -/
def val32 (b1 b2 b3 b4 : Nat) : Nat :=
  ((b1 <<< 24) ||| (b2 <<< 16) ||| (b3 <<< 8) ||| b4) % 4294967296

/-- The method `nextInteger(max)`: returns the draw, the harvester after the
four reads and the remaining source.  The draw is
`Math.floor((val32 >>> 0) / 4294967296 * max)` in doubles: the quotient and the
product are each rounded by `fl`. -/
def nextInteger (h : EntropyHarvester) (src : EntropySource) (max : Nat) :
    Nat × EntropyHarvester × EntropySource :=
  let hs : EntropyHarvester × EntropySource :=
    if h.needsRefresh then (h.harvestEntropy (src 0), fun n => src (n + 1)) else (h, src)
  let h1 := hs.1
  let b1 := h1.entropyPool.getD h1.poolCursor 0
  let b2 := h1.entropyPool.getD (h1.poolCursor + 1) 0
  let b3 := h1.entropyPool.getD (h1.poolCursor + 2) 0
  let b4 := h1.entropyPool.getD (h1.poolCursor + 3) 0
  let v := val32 b1 b2 b3 b4
  (Int.toNat ⌊fl (fl ((v : ℚ) / 4294967296) * (max : ℚ))⌋,
   { h1 with poolCursor := h1.poolCursor + 4 }, hs.2)

/-- The harvester states a program can reach: the state built by the
constructor, and what `harvestEntropy` and `nextInteger` make of a reachable
state, for any browser readings and any `max`. -/
inductive Reachable : EntropyHarvester → Prop
  | fresh : Reachable EntropyHarvester.new
  | harvest (h : EntropyHarvester) (inp : HarvestInput) :
      Reachable h → Reachable (h.harvestEntropy inp)
  | next (h : EntropyHarvester) (src : EntropySource) (max : Nat) :
      Reachable h → Reachable (h.nextInteger src max).2.1

end EntropyHarvester

/-- The state of `class QuantumLattice`. -/
structure QuantumLattice where
  size : Nat
  matrix : List Nat
  rng : EntropyHarvester
  generatedAt : Nat

/-- The object returned by `crystallize`. -/
structure Crystal where
  activeNodes : Int
  timestamp : Nat
  deriving DecidableEq

namespace QuantumLattice

/-- The `constructor(size)`. -/
def new (size : Nat) : QuantumLattice :=
  { size := size, matrix := List.replicate size 0, rng := EntropyHarvester.new, generatedAt := 0 }

/-- The destructuring swap `[a[i], a[j]] = [a[j], a[i]]`. -/
def swap (a : List Nat) (i j : Nat) : List Nat :=
  match a[i]?, a[j]? with
  | some x, some y => (a.set i y).set j x
  | _, _ => a

/-- The Fisher-Yates loop `for (i = k; i > 0; i--)` started at `i = k`. -/
def shuffle : Nat → List Nat × EntropyHarvester × EntropySource →
    List Nat × EntropyHarvester × EntropySource
  | 0, s => s
  | i + 1, (indices, rng, src) =>
    let r := rng.nextInteger src (i + 2)
    shuffle i (swap indices (i + 1) r.1, r.2.1, r.2.2)

/-- The loop `for (i = 0; i < activeCount; i++) matrix[indices[i]] = 1`. -/
def activate (matrix indices : List Nat) (activeCount : Int) : List Nat :=
  (List.range activeCount.toNat).foldl
    (fun m i => match indices[i]? with
      | some k => m.set k 1
      | none => m)
    matrix

/-- The method `crystallize(probabilityPercent)`; `now` is `Date.now()` and
`probabilityPercent` is the double passed by the caller.  The count is
`Math.floor((probabilityPercent / 100) * this.size)` in doubles: the quotient
and the product are each rounded by `fl`. -/
def crystallize (q : QuantumLattice) (src : EntropySource) (now : Nat) (probabilityPercent : ℚ) :
    Crystal × QuantumLattice × EntropySource :=
  let rng0 := q.rng.harvestEntropy (src 0)
  let cleared := List.replicate q.matrix.length 0
  let activeCount : Int := ⌊fl (fl (probabilityPercent / 100) * (q.size : ℚ))⌋
  let s := shuffle (q.size - 1) (List.range q.size, rng0, fun n => src (n + 1))
  ({ activeNodes := activeCount, timestamp := now },
   { q with matrix := activate cleared s.1 activeCount, rng := s.2.1, generatedAt := now },
   s.2.2)

end QuantumLattice

/-! ## JavaScript arithmetic on real numbers

Conventions for the real-number reading of doubles.  `NaN` is made explicit only
in `analyzeLighting` (`Math.sqrt` of a negative variance).  A division whose
divisor can vanish on the real line is guarded where the source tests the
quotient (`calcHourAngle`).  Elsewhere the reading is total and departs from
the source on these inputs:

* `cosineSimilarity` (step 5 of `verifyEnhanced`): with an embedding of norm 0
  the source divides by 0 and yields `NaN` or an infinity, here `x / 0 = 0`;
  the same happens in doubles when the squares underflow;
* `haversineDistance`: where rounding puts `a` above 1 (points that are
  antipodal or nearly so) the source takes `Math.sqrt` of a negative number
  and returns `NaN`, here `a` is at most 1 for latitudes in [-90, 90];
* `heightCorrection`: below sea level the source takes `Math.sqrt` of a
  negative number, and the elevation and everything computed from it is `NaN`,
  here `Real.sqrt` of a negative number is 0.

Results about these functions say nothing about the source on such inputs. -/

noncomputable section

/-- Rounding toward zero, as done by `%` and by `new Date(number)`. -/
def jsTrunc (x : ℝ) : ℤ := if 0 ≤ x then ⌊x⌋ else ⌈x⌉

/-- The remainder operator `x % y` on numbers: the result has the sign of `x`. -/
def jsMod (x y : ℝ) : ℝ := x - y * (jsTrunc (x / y) : ℝ)

/-- Two-argument arctangent `Math.atan2(y, x)`. -/
def atan2 (y x : ℝ) : ℝ := Complex.arg ⟨x, y⟩

/-! ## NOAA solar calculator -/

/-- One `Date`: milliseconds since the Unix epoch (`date.getTime()`). -/
abbrev Date := ℤ

namespace NOAASolarCalculator

def JULIAN_EPOCH_2000 : ℝ := 2451545.0
def JULIAN_CENTURY : ℝ := 36525.0
def EARTH_RADIUS_KM : ℝ := 6371.0
def ASTRONOMICAL_UNIT_KM : ℝ := 149597870.7

def toRadians (degrees : ℝ) : ℝ := degrees * Real.pi / 180

def toDegrees (radians : ℝ) : ℝ := radians * 180 / Real.pi

def normalizeDegrees (degrees : ℝ) : ℝ := jsMod (jsMod degrees 360 + 360) 360

def toJulian (date : Date) : ℝ := (date : ℝ) / 86400000 + 2440587.5

def fromJulian (jd : ℝ) : Date := jsTrunc ((jd - 2440587.5) * 86400000)

def getJulianCentury (jd : ℝ) : ℝ := (jd - JULIAN_EPOCH_2000) / JULIAN_CENTURY

def calcGeomMeanLongSun (t : ℝ) : ℝ :=
  let l0 := 280.4664567 + t * (36000.76983 + t * 0.0003032)
  normalizeDegrees l0

def calcGeomMeanAnomalySun (t : ℝ) : ℝ :=
  357.52911 + t * (35999.05029 - 0.0001537 * t)

def calcEccentricityEarthOrbit (t : ℝ) : ℝ :=
  0.016708634 - t * (0.000042037 + 0.0000001267 * t)

def calcSunEqOfCenter (t m : ℝ) : ℝ :=
  let mRad := toRadians m
  let sinM := Real.sin mRad
  let sin2M := Real.sin (2 * mRad)
  let sin3M := Real.sin (3 * mRad)
  sinM * (1.914602 - t * (0.004817 + 0.000014 * t))
    + sin2M * (0.019993 - 0.000101 * t)
    + sin3M * 0.000289

def calcSunRadVector (e v : ℝ) : ℝ :=
  let vRad := toRadians v
  (1.000001018 * (1 - e * e)) / (1 + e * Real.cos vRad)

def calcMeanObliquityEcliptic (t : ℝ) : ℝ :=
  let seconds := 21.448 - t * (46.8150 + t * (0.00059 - t * 0.001813))
  23.0 + (26.0 + (seconds / 60.0)) / 60.0

def calcObliquityCorrection (t : ℝ) : ℝ :=
  let e0 := calcMeanObliquityEcliptic t
  let omega := 125.04 - 1934.136 * t
  e0 + 0.00256 * Real.cos (toRadians omega)

def calcEquationOfTime (t l0 e m : ℝ) : ℝ :=
  let epsilon := calcObliquityCorrection t
  let y := Real.tan (toRadians epsilon / 2.0)
  let y2 := y * y
  let sin2l0 := Real.sin (2 * toRadians l0)
  let sinm := Real.sin (toRadians m)
  let cos2l0 := Real.cos (2 * toRadians l0)
  let sin4l0 := Real.sin (4 * toRadians l0)
  let sin2m := Real.sin (2 * toRadians m)
  let etime := y2 * sin2l0
    - 2 * e * sinm
    + 4 * e * y2 * sinm * cos2l0
    - 0.5 * y2 * y2 * sin4l0
    - 1.25 * e * e * sin2m
  toDegrees etime * 4.0

def calcSolarDeclination (appLong obliquityCorr : ℝ) : ℝ :=
  let lambdaRad := toRadians appLong
  let epsilonRad := toRadians obliquityCorr
  toDegrees (Real.arcsin (Real.sin epsilonRad * Real.sin lambdaRad))

def calcSolarRightAscension (appLong obliquityCorr : ℝ) : ℝ :=
  let lambdaRad := toRadians appLong
  let epsilonRad := toRadians obliquityCorr
  let ra := atan2 (Real.cos epsilonRad * Real.sin lambdaRad) (Real.cos lambdaRad)
  normalizeDegrees (toDegrees ra)

/-- The function `calcHourAngle(lat, declination, zenith)`; `none` is `null`.
At a pole the divisor is 0 on the real line; the source then sees an infinite
quotient and returns `null`, which is what the guard gives. -/
def calcHourAngle (lat declination zenith : ℝ) : Option ℝ :=
  let latRad := toRadians lat
  let decRad := toRadians declination
  let zenithRad := toRadians zenith
  let num := Real.cos zenithRad - Real.sin latRad * Real.sin decRad
  let den := Real.cos latRad * Real.cos decRad
  if den = 0 then none
  else
    let cosH := num / den
    if cosH > 1 then none
    else if cosH < -1 then none
    else some (toDegrees (Real.arccos cosH))

/-- The object returned by `calcSunriseSunset`. -/
structure SunTimes where
  sunrise : Option Date
  sunset : Option Date
  solarNoon : Option Date
  daylightMinutes : ℝ

def calcSunriseSunset (lat lon : ℝ) (date : Date) : SunTimes :=
  let jd := toJulian date
  let t := getJulianCentury jd
  let l0 := calcGeomMeanLongSun t
  let m := calcGeomMeanAnomalySun t
  let e := calcEccentricityEarthOrbit t
  let c := calcSunEqOfCenter t m
  let trueLong := l0 + c
  let omega := 125.04 - 1934.136 * t
  let apparentLong := trueLong - 0.00569 - 0.00478 * Real.sin (toRadians omega)
  let obliquityCorr := calcObliquityCorrection t
  let dec := calcSolarDeclination apparentLong obliquityCorr
  let eqTime := calcEquationOfTime t l0 e m
  let solarNoonFraction := (720 - 4 * lon - eqTime) / 1440
  let solarNoonJD := jd + solarNoonFraction
  match calcHourAngle lat dec 90.833 with
  | none =>
    { sunrise := none, sunset := none, solarNoon := none,
      daylightMinutes := if lat > 0 then 1440 else 0 }
  | some ha =>
    let sunriseFraction := solarNoonFraction - ha * 4 / 1440
    let sunsetFraction := solarNoonFraction + ha * 4 / 1440
    { sunrise := some (fromJulian (jd + sunriseFraction)),
      sunset := some (fromJulian (jd + sunsetFraction)),
      solarNoon := some (fromJulian solarNoonJD),
      daylightMinutes := (sunsetFraction - sunriseFraction) * 1440 }

def calcSolarNoon (lon : ℝ) (date : Date) : Date :=
  let jd := toJulian date
  let t := getJulianCentury jd
  let l0 := calcGeomMeanLongSun t
  let m := calcGeomMeanAnomalySun t
  let e := calcEccentricityEarthOrbit t
  let eqTime := calcEquationOfTime t l0 e m
  let solarNoonFraction := (720 - 4 * lon - eqTime) / 1440
  fromJulian (jd + solarNoonFraction)

/-- The object returned by `calcSolarElevation` (the constant `accuracy` text is left out). -/
structure SolarPosition where
  elevation : ℝ
  azimuth : ℝ
  declination : ℝ
  rightAscension : ℝ
  equationOfTime : ℝ
  hourAngle : ℝ
  distanceAU : ℝ
  sunrise : Option Date
  sunset : Option Date
  solarNoon : Date
  isDaylight : Bool

/-- The local `apparentLong` of `calcSolarElevation`, from the Julian century `t`. -/
def apparentLongitude (t : ℝ) : ℝ :=
  let l0 := calcGeomMeanLongSun t
  let m := calcGeomMeanAnomalySun t
  let c := calcSunEqOfCenter t m
  let trueLong := l0 + c
  let omega := 125.04 - 1934.136 * t
  trueLong - 0.00569 - 0.00478 * Real.sin (toRadians omega)

/-- The local `ha` of `calcSolarElevation`: `lmst - ra` with the two wrap steps. -/
def hourAngle (lmst ra : ℝ) : ℝ :=
  let ha := lmst - ra
  let ha1 := if ha < -180 then ha + 360 else ha
  if ha1 > 180 then ha1 - 360 else ha1

/-- The local `elGeocentric`: the clamped `sinEl` sent through `Math.asin`. -/
def elGeocentric (lat dec ha : ℝ) : ℝ :=
  let latRad := toRadians lat
  let decRad := toRadians dec
  let haRad := toRadians ha
  let sinEl := Real.sin latRad * Real.sin decRad
    + Real.cos latRad * Real.cos decRad * Real.cos haRad
  let sinEl1 := max (-1) (min 1 sinEl)
  toDegrees (Real.arcsin sinEl1)

/-- The local `refraction` (Saemundsson), applied above -0.575 degrees. -/
def refraction (elGeo : ℝ) : ℝ :=
  if elGeo > -0.575 then
    let tanTerm := Real.tan (toRadians (elGeo + 10.3 / (elGeo + 5.11)))
    let refraction := (1.02 / (tanTerm + 0.0019279)) / 60.0
    let temp : ℝ := 10
    let pressure : ℝ := 1010
    refraction * ((pressure / 1010) * (283 / (273 + temp)))
  else 0

/-- The local `parallax`. -/
def parallax (elGeo refr : ℝ) : ℝ :=
  8.794 / (ASTRONOMICAL_UNIT_KM * 1000) / Real.sin (toRadians (elGeo + refr))

/-- The local `heightCorrection` (observer height, metres over kilometres as
written).  For a negative `elevationM` the source has `NaN`, this reading 0. -/
def heightCorrection (elevationM : ℝ) : ℝ :=
  Real.sqrt (2 * elevationM / EARTH_RADIUS_KM) * 180 / Real.pi

/-- The local `azimuth` before normalisation. -/
def azimuthRaw (lat dec ha : ℝ) : ℝ :=
  let latRad := toRadians lat
  let decRad := toRadians dec
  let haRad := toRadians ha
  let azimuth := atan2 (Real.sin haRad)
    (Real.cos haRad * Real.sin latRad - Real.tan decRad * Real.cos latRad)
  toDegrees azimuth + 180

/-- The function `calcSolarElevation(lat, lon, date, elevationM)`. -/
def calcSolarElevation (lat lon : ℝ) (date : Date) (elevationM : ℝ) : SolarPosition :=
  let jd := toJulian date
  let t := getJulianCentury jd
  let l0 := calcGeomMeanLongSun t
  let m := calcGeomMeanAnomalySun t
  let e := calcEccentricityEarthOrbit t
  let c := calcSunEqOfCenter t m
  let trueAnomaly := m + c
  let apparentLong := apparentLongitude t
  let obliquityCorr := calcObliquityCorrection t
  let ra := calcSolarRightAscension apparentLong obliquityCorr
  let dec := calcSolarDeclination apparentLong obliquityCorr
  let eqTime := calcEquationOfTime t l0 e m
  let jd2000 := jd - JULIAN_EPOCH_2000
  let gmst := 18.697374558 + 24.06570982441908 * jd2000
  let lmst := normalizeDegrees (gmst * 15 + lon)
  let ha := hourAngle lmst ra
  let elGeo := elGeocentric lat dec ha
  let refr := refraction elGeo
  let elevation := elGeo + refr - parallax elGeo refr + heightCorrection elevationM
  { elevation := elevation
    azimuth := normalizeDegrees (azimuthRaw lat dec ha)
    declination := dec
    rightAscension := ra
    equationOfTime := eqTime
    hourAngle := ha
    distanceAU := calcSunRadVector e trueAnomaly
    sunrise := (calcSunriseSunset lat lon date).sunrise
    sunset := (calcSunriseSunset lat lon date).sunset
    solarNoon := calcSolarNoon lon date
    isDaylight := decide (elevation > -0.833) }

end NOAASolarCalculator

/-! ## EnhancedSBTAModule: data -/

/-- One part of a template literal: literal text, an interpolated number, or a
number printed with `toFixed(digits)`. -/
inductive Piece where
  | text (s : String)
  | num (x : ℝ)
  | fixed (x : ℝ) (digits : Nat)

/-- A message: the parts of the template literal, in order. -/
abbrev Message := List Piece

/-- The message of the `TypeError` raised by reading a property of `undefined`. -/
def typeErrorMessage : Message := [Piece.text "TypeError: cannot read properties of undefined"]

/-- The merged `this.config` of the module. -/
structure Config where
  geoFenceRadius : ℝ
  maxTimeDrift : ℝ
  minLuminanceDay : ℝ
  maxLuminanceNight : ℝ
  elevationThreshold : ℝ
  requireVectorMatch : Bool
  calibrationSamples : Nat

/-- The defaults of the constructor, which are also what `Kernel` passes. -/
def Config.default : Config :=
  { geoFenceRadius := 0.1, maxTimeDrift := 300, minLuminanceDay := 50, maxLuminanceNight := 30,
    elevationThreshold := -0.833, requireVectorMatch := true, calibrationSamples := 3 }

/-- The fix resolved by `getPreciseGPS` (heading, speed and attempt count left out). -/
structure GeoFix where
  latitude : ℝ
  longitude : ℝ
  accuracy : ℝ
  altitude : ℝ
  timestamp : ℤ

structure ColorBalance where
  r : ℝ
  g : ℝ
  b : ℝ

/-- The object returned by `analyzeLighting`.  `stdDev = none` stands for `NaN`
(or the absent field of the no-image result); `colorBalance = none` is the
absent field of the no-image result. -/
structure LightingProfile where
  luminance : ℝ
  variance : ℝ
  stdDev : Option ℝ
  isUniform : Bool
  colorBalance : Option ColorBalance
  isArtificial : Bool
  confidence : Option ℝ

/-- The `solar` part of an anchor. -/
structure AnchorSolar where
  elevation : ℝ
  azimuth : ℝ
  isDaylight : Bool
  sunrise : Option Date
  sunset : Option Date

/-- The `lighting` part of an anchor. -/
structure AnchorLighting where
  luminance : ℝ
  variance : ℝ
  isArtificial : Bool
  colorBalance : Option ColorBalance

structure Metadata where
  device : String
  screenSize : String
  timezone : String
  createdAt : Nat
  version : String

/-- The anchor record built by `enrollEnhanced`. -/
structure Anchor where
  id : String
  gps : GeoFix
  solar : AnchorSolar
  lighting : AnchorLighting
  neuralVector : Option (List ℝ)
  metadata : Metadata
  quantumSeed : Crystal

/-- What a `biometrics` record carries: an SBTA anchor or a face embedding. -/
inductive TemplateData where
  | anchor (a : Anchor)
  | face (v : Option (List ℝ))

/-- One record of the `biometrics` store. -/
structure Template where
  mode : String
  data : TemplateData
  timestamp : Nat

/-- The `biometrics` object store, in key (insertion) order. -/
abbrev Storage := List Template

/-- `SecureStorage.saveTemplate(m, d)`; `now` is `Date.now()`. -/
def Storage.saveTemplate (st : Storage) (m : String) (d : TemplateData) (now : Nat) : Storage :=
  st ++ [{ mode := m, data := d, timestamp := now }]

/-- `SecureStorage.getTemplates(m)`. -/
def Storage.getTemplates (st : Storage) (m : String) : List Template :=
  st.filter (fun i => i.mode == m)

/-- `class NeuralEngine`: the loaded model is the function `infer`. -/
structure NeuralEngine where
  ready : Bool
  infer : List Nat → List ℝ

/-- `NeuralEngine.getEmbedding(img)`; `none` is `null`. -/
def NeuralEngine.getEmbedding (ai : NeuralEngine) (img : Option (List Nat)) : Option (List ℝ) :=
  match img with
  | some data => if ai.ready then some (ai.infer data) else none
  | none => none

/-! ## 3. Worker threads: MathLibrary -/

namespace MathLibrary

/-- The function `MathLibrary.cosineSimilarity(vectorA, vectorB)` of the worker
source: 0 for vectors of different lengths and when a sum of squares is 0
(`!normA || !normB`), the cosine otherwise. -/
def cosineSimilarity (vectorA vectorB : List ℝ) : ℝ :=
  if vectorA.length ≠ vectorB.length then 0
  else
    let dotProduct := (List.zipWith (fun a b => a * b) vectorA vectorB).sum
    let normA := (vectorA.map (fun a => a * a)).sum
    let normB := (vectorB.map (fun b => b * b)).sum
    if normA = 0 ∨ normB = 0 then 0 else dotProduct / (Real.sqrt normA * Real.sqrt normB)

end MathLibrary

/-! ## EnhancedSBTAModule: pure methods -/

namespace EnhancedSBTAModule

open NOAASolarCalculator

/-- The local `a` of `haversineDistance`. -/
def haversineA (lat1 lon1 lat2 lon2 : ℝ) : ℝ :=
  let φ1 := lat1 * Real.pi / 180
  let φ2 := lat2 * Real.pi / 180
  let Δφ := (lat2 - lat1) * Real.pi / 180
  let Δl := (lon2 - lon1) * Real.pi / 180
  Real.sin (Δφ / 2) * Real.sin (Δφ / 2) +
    Real.cos φ1 * Real.cos φ2 * Real.sin (Δl / 2) * Real.sin (Δl / 2)

/-- The method `haversineDistance(lat1, lon1, lat2, lon2)`, in kilometres, read
on the real line.  In doubles `a` can exceed 1 by a rounding error when the
points are antipodal or nearly so; the source then returns `NaN`. -/
def haversineDistance (lat1 lon1 lat2 lon2 : ℝ) : ℝ :=
  let R : ℝ := 6371.0
  let a := haversineA lat1 lon1 lat2 lon2
  let c := 2 * atan2 (Real.sqrt a) (Real.sqrt (1 - a))
  R * c

/-- The stride `step` of the luminance loop of `analyzeLighting`. -/
def sampleStep (data : List Nat) : Nat :=
  let pixelCount : ℚ := (data.length : ℚ) / 4
  let samples : ℚ := min pixelCount 10000
  Int.toNat (max 1 ⌊pixelCount / samples⌋)

/-- The indices `i` visited by `for (i = 0; i < data.length; i += step * 4)`. -/
def sampleIndices (data : List Nat) : List Nat :=
  (List.range data.length).filter (fun i => i % (sampleStep data * 4) = 0)

/-- The perceptual luminance of the pixel starting at index `i`. -/
def luminanceAt (data : List Nat) (i : Nat) : ℝ :=
  0.2126 * (data.getD i 0 : ℝ) + 0.7152 * (data.getD (i + 1) 0 : ℝ)
    + 0.0722 * (data.getD (i + 2) 0 : ℝ)

/-- The indices visited by `for (i = 0; i < Math.min(1000, data.length); i += 4)`. -/
def colorIndices (data : List Nat) : List Nat :=
  (List.range (min 1000 data.length)).filter (fun i => i % 4 = 0)

/-- The method `analyzeLighting(imageData)`; `none` is a missing frame or a
frame without `data`.  The frame is the byte array of an `ImageData`: its
length is a multiple of 4 and its values are 0..255.  On an array of another
length the source reads `undefined` past the end, where `getD` reads 0.  Sums
and quotients are read without rounding. -/
def analyzeLighting (imageData : Option (List Nat)) : LightingProfile :=
  match imageData with
  | none =>
    { luminance := 0, variance := 0, stdDev := none, isUniform := false,
      colorBalance := none, isArtificial := false, confidence := none }
  | some data =>
    let pixelCount : ℝ := (data.length : ℝ) / 4
    let samples : ℝ := min pixelCount 10000
    let sumLuminance := ((sampleIndices data).map (fun i => luminanceAt data i)).sum
    let sumSquared := ((sampleIndices data).map (fun i => luminanceAt data i * luminanceAt data i)).sum
    let meanLuminance := sumLuminance / samples
    let variance := (sumSquared / samples) - (meanLuminance * meanLuminance)
    let stdDev : Option ℝ := if 0 ≤ variance then some (Real.sqrt variance) else none
    let isUniform : Bool := match stdDev with
      | some sd => decide (sd < 10 ∧ meanLuminance > 100)
      | none => false
    let sumR := ((colorIndices data).map (fun i => (data.getD i 0 : ℝ))).sum
    let sumG := ((colorIndices data).map (fun i => (data.getD (i + 1) 0 : ℝ))).sum
    let sumB := ((colorIndices data).map (fun i => (data.getD (i + 2) 0 : ℝ))).sum
    let total := if sumR + sumG + sumB = 0 then 1 else sumR + sumG + sumB
    let colorBalance : ColorBalance := { r := sumR / total, g := sumG / total, b := sumB / total }
    let isArtificial : Bool := decide (colorBalance.b < 0.1 ∧ colorBalance.r > 0.4)
    { luminance := meanLuminance, variance := variance, stdDev := stdDev, isUniform := isUniform,
      colorBalance := some colorBalance, isArtificial := isArtificial,
      confidence := some (if isUniform then 0.3 else 0.9) }

/-- The object returned by `validateSystemTime`. -/
structure TimeValidation where
  timeDriftMs : Option ℝ
  isValid : Bool
  isSynchronized : Bool
  warning : Option String

/-- The method `validateSystemTime()`: `localTime` is `Date.now()`, `networkTime`
is what the loop over the time sources leaves (`none` is `null`; 0 is falsy). -/
def validateSystemTime (cfg : Config) (localTime : ℤ) (networkTime : Option ℝ) : TimeValidation :=
  match networkTime.filter (fun n => decide (n ≠ 0)) with
  | some n =>
    let timeDrift := |(localTime : ℝ) - n|
    { timeDriftMs := some timeDrift, isValid := decide (timeDrift < cfg.maxTimeDrift * 1000),
      isSynchronized := true,
      warning := if timeDrift > 5000 then some "Clock drift detected" else none }
  | none => { timeDriftMs := none, isValid := true, isSynchronized := false, warning := none }

/-- The method `calculateSolarScore(anchorSolar, currentSolar)`; `hours` and
`minutes` are `now.getHours()` and `now.getMinutes()` of its own `new Date()`. -/
def calculateSolarScore (anchorSolar : AnchorSolar) (currentSolar : SolarPosition)
    (hours : Fin 24) (minutes : Fin 60) : ℝ :=
  let elevationDiff := |anchorSolar.elevation - currentSolar.elevation|
  let elevationScore := max 0 (1 - (elevationDiff / 15))
  let daylightMatch : ℝ := if anchorSolar.isDaylight = currentSolar.isDaylight then 1.0 else 0.5
  let timeSinceNoon := |((hours : ℕ) : ℝ) * 60 + ((minutes : ℕ) : ℝ) - 720| / 720
  let timeScore := 1 - timeSinceNoon
  elevationScore * 0.6 + daylightMatch * 0.3 + timeScore * 0.1

/-- The method `calculateLightingScore(anchorLighting, currentLighting, currentSolar)`;
`none` is the `TypeError` of reading `colorBalance.r` when a colour balance is absent. -/
def calculateLightingScore (cfg : Config) (anchorLighting : AnchorLighting)
    (currentLighting : LightingProfile) (currentSolar : SolarPosition) : Option ℝ :=
  let score : ℝ := 1.0
  let expectedBright := currentSolar.isDaylight
  let actualBright : Bool := decide (currentLighting.luminance > cfg.minLuminanceDay)
  let score1 := if expectedBright ≠ actualBright then score * 0.7 else score
  let score2 := if currentLighting.isArtificial && currentSolar.isDaylight then score1 * 0.8 else score1
  let score3 := if currentLighting.isUniform && decide (currentLighting.luminance > 100)
    then score2 * 0.6 else score2
  match anchorLighting.colorBalance, currentLighting.colorBalance with
  | some ac, some cc =>
    let colorDiff := |ac.r - cc.r| + |ac.g - cc.g| + |ac.b - cc.b|
    some (min 1.0 (score3 * max 0.5 (1 - colorDiff)))
  | _, _ => none

/-- The object returned by `validateEnrollmentConditions`. -/
structure Validation where
  isValid : Bool
  issues : List Message
  reason : Message

/-- The method `validateEnrollmentConditions(gps, lighting, solar)`.  In the
source an elevation that is `NaN` passes the last guard, since
`Math.abs(NaN) > 90` is false; `NaN` is not a value of this reading. -/
def validateEnrollmentConditions (gps : GeoFix) (lighting : LightingProfile)
    (solar : SolarPosition) : Validation :=
  let i1 : List Message := if gps.accuracy > 50
    then [[Piece.text "GPS accuracy ", Piece.num gps.accuracy, Piece.text "m > 50m"]] else []
  let i2 : List Message := if lighting.isUniform && decide (lighting.luminance > 150)
    then [[Piece.text "Suspicious uniform lighting (possible screen)"]] else []
  let i3 : List Message := if lighting.isArtificial && solar.isDaylight
    then [[Piece.text "Artificial lighting during daytime"]] else []
  let i4 : List Message := if |solar.elevation| > 90
    then [[Piece.text "Invalid solar elevation"]] else []
  let issues := i1 ++ i2 ++ i3 ++ i4
  { isValid := issues.length == 0, issues := issues,
    reason := List.intercalate [Piece.text ", "] issues }

/-- The `scores` object of `verifyEnhanced`. -/
structure Scores where
  location : ℝ
  solar : ℝ
  lighting : ℝ
  neural : ℝ
  time : ℝ

/-- `Object.values(scores)`. -/
def Scores.values (s : Scores) : List ℝ := [s.location, s.solar, s.lighting, s.neural, s.time]

/-- The method `generateWarnings(scores, solar, lighting, time)`. -/
def generateWarnings (scores : Scores) (solar : SolarPosition) (lighting : LightingProfile)
    (time : TimeValidation) : List String :=
  (if scores.location < 0.7 then ["Location accuracy low"] else [])
  ++ (if scores.solar < 0.6 then ["Solar position mismatch"] else [])
  ++ (if scores.lighting < 0.5 then ["Lighting conditions suspicious"] else [])
  ++ (if lighting.isArtificial && solar.isDaylight then ["Artificial lighting during daytime"] else [])
  ++ (match time.timeDriftMs with
      | some d => if d ≠ 0 ∧ d > 10000 then ["System clock significantly drifted"] else []
      | none => [])

/-- The method `calculateOptimalTime(anchor, currentSolar)`, given the two local hours. -/
def calculateOptimalTime (anchorHour currentHour : Fin 24) : Message :=
  let diff := |((anchorHour : ℕ) : ℤ) - ((currentHour : ℕ) : ℤ)|
  if diff > 2 then [Piece.num ((anchorHour : ℕ) : ℝ), Piece.text ":00 ±1 hour"]
  else [Piece.text "current time is optimal"]

/-- The method `generateRecommendations(scores, anchor, currentSolar)`. -/
def generateRecommendations (scores : Scores) (anchorHour currentHour : Fin 24) : List Message :=
  (if scores.location < 0.9 then [[Piece.text "Move to original enrollment location"]] else [])
  ++ (if scores.solar < 0.8
      then [Piece.text "Try verification around " :: calculateOptimalTime anchorHour currentHour]
      else [])
  ++ (if scores.lighting < 0.7 then [[Piece.text "Use natural lighting if possible"]] else [])

/-- The local `dot` of step 5 of `verifyEnhanced`.  When the anchor vector is
the shorter one the source multiplies by `undefined` and has `NaN`; this
reading stops at the shorter length. -/
def cosineDot (currentVector anchorVector : List ℝ) : ℝ :=
  (List.zipWith (fun val other => val * other) currentVector anchorVector).sum

/-- The locals `normA` and `normB` of step 5 of `verifyEnhanced`. -/
def cosineNorm (vector : List ℝ) : ℝ :=
  Real.sqrt ((vector.map (fun val => val * val)).sum)

/-- The cosine similarity computed in step 5 of `verifyEnhanced`:
`dot / (normA * normB)` with no guard.  When a norm is 0 the source has `NaN`
(or an infinity when `dot` is not 0, which doubles allow through underflow of
the squares); this reading has `x / 0 = 0`. -/
def cosineSimilarity (currentVector anchorVector : List ℝ) : ℝ :=
  cosineDot currentVector anchorVector / (cosineNorm currentVector * cosineNorm anchorVector)

/-- The object returned by `generateQuantumDecision`. -/
structure QuantumDecision where
  lattice : List ℝ
  coherence : ℝ
  activeNodes : Nat
  distribution : List ℝ
  confidence : ℝ
  decisionThreshold : ℝ

/-- The local `weightedLattice` of `generateQuantumDecision`. -/
def weightedLattice (lattice : List Nat) (factors : List ℝ) : List ℝ :=
  lattice.enum.map (fun e => (e.2 : ℝ) * factors.getD (e.1 % factors.length) 0)

/-- The method `generateQuantumDecision(factors)` on the module's lattice.
`Math.max(...weightedLattice)` is only used when an entry is positive, where it
equals the fold below. -/
def generateQuantumDecision (q : QuantumLattice) (src : EntropySource) (now : Nat)
    (factors : List ℝ) : QuantumDecision × QuantumLattice × EntropySource :=
  let cr := q.crystallize src now 15
  let lattice := cr.2.1.matrix
  let weighted := weightedLattice lattice factors
  let activeNodes := (weighted.filter (fun v => decide (v > 0))).length
  let coherence : ℝ := (activeNodes : ℝ) / (lattice.length : ℝ)
  let distribution := (weighted.filter (fun v => decide (v > 0))).map
    (fun v => v / weighted.foldr max 0)
  ({ lattice := weighted, coherence := coherence, activeNodes := activeNodes,
     distribution := distribution, confidence := min 0.95 (coherence * 1.5),
     decisionThreshold := 0.7 + (coherence * 0.2) },
   cr.2.1, cr.2.2)

/-! ## EnhancedSBTAModule: state and operations -/

/-- The key returned by `getLocationHash`: `"unknown"`, or the two numbers
`Math.round(x * 1000)` whose thousandths the source prints. -/
inductive LocationKey where
  | unknown
  | cell (lat1000 lon1000 : ℤ)
  deriving DecidableEq

/-- One entry of `calibration.samples`. -/
structure CalibrationSample where
  timestamp : Nat
  gps : GeoFix
  lighting : LightingProfile
  solar : SolarPosition
  ambientLight : Option ℝ

structure Averages where
  luminance : ℝ
  variance : ℝ
  sampleCount : Nat

/-- The finished `calibration` object. -/
structure Calibration where
  samples : List CalibrationSample
  averages : Averages
  completedAt : Nat

/-- The fields of `EnhancedSBTAModule`. -/
structure Module where
  ai : Option NeuralEngine
  storage : Storage
  config : Config
  calibrationData : List (LocationKey × Calibration)
  quantumLattice : QuantumLattice

/-- The `constructor(aiEngine, storage, config)`. -/
def Module.new (ai : Option NeuralEngine) (storage : Storage) (config : Config) : Module :=
  { ai := ai, storage := storage, config := config, calibrationData := [],
    quantumLattice := QuantumLattice.new 256 }

/-- `Map.prototype.set` on the calibration map. -/
def mapSet (m : List (LocationKey × Calibration)) (k : LocationKey) (v : Calibration) :
    List (LocationKey × Calibration) :=
  if m.any (fun e => decide (e.1 = k)) then m.map (fun e => if e.1 = k then (k, v) else e)
  else m ++ [(k, v)]

/-- The method `getLocationHash()`, from the outcome of its `getPreciseGPS()`. -/
def getLocationHash (gps : Except Message GeoFix) : LocationKey :=
  match gps with
  | Except.ok g => LocationKey.cell ⌊g.latitude * 1000 + 1 / 2⌋ ⌊g.longitude * 1000 + 1 / 2⌋
  | Except.error _ => LocationKey.unknown

/-- What one round of the calibration loop reads from the browser. -/
structure SampleReading where
  gps : Except Message GeoFix
  image : Option (List Nat)
  solarAt : Date
  timestamp : Nat
  ambientLight : Option ℝ

/-- What `calibrate` reads from the browser. -/
structure CalibrateEnv where
  hashGps : Except Message GeoFix
  sample : Nat → SampleReading
  completedAt : Nat

/-- The first `n` rounds of the loop of `calibrate`; a GPS failure is raised. -/
def calibrateSamples (env : CalibrateEnv) : Nat → Except Message (List CalibrationSample)
  | 0 => Except.ok []
  | n + 1 =>
    match calibrateSamples env n with
    | Except.error msg => Except.error msg
    | Except.ok acc =>
      match (env.sample n).gps with
      | Except.error msg => Except.error msg
      | Except.ok gps =>
        let lighting := analyzeLighting (env.sample n).image
        let solar := calcSolarElevation gps.latitude gps.longitude (env.sample n).solarAt gps.altitude
        Except.ok (acc ++ [{ timestamp := (env.sample n).timestamp, gps := gps, lighting := lighting,
                             solar := solar, ambientLight := (env.sample n).ambientLight }])

/-- The method `calibrate(ui, samples)`. -/
def calibrate (md : Module) (env : CalibrateEnv) (samples : Nat) :
    Except Message Calibration × Module :=
  let locationKey := getLocationHash env.hashGps
  match calibrateSamples env samples with
  | Except.error msg => (Except.error msg, md)
  | Except.ok collected =>
    let avgLuminance := (collected.map (fun s => s.lighting.luminance)).sum / (samples : ℝ)
    let avgVariance := (collected.map (fun s => s.lighting.variance)).sum / (samples : ℝ)
    let calibration : Calibration :=
      { samples := collected,
        averages := { luminance := avgLuminance, variance := avgVariance, sampleCount := samples },
        completedAt := env.completedAt }
    (Except.ok calibration, { md with calibrationData := mapSet md.calibrationData locationKey calibration })

/-- What `enrollEnhanced` reads from the browser. -/
structure EnrollEnv where
  gps : Except Message GeoFix
  image : Option (List Nat)
  solarAt : Date
  anchorId : String
  device : String
  screenSize : String
  timezone : String
  createdAt : Nat
  latticeAt : Nat
  savedAt : Nat
  calibration : CalibrateEnv

/-- The object returned by a successful `enrollEnhanced`. -/
structure EnrollResult where
  success : Bool
  anchor : Anchor
  confidence : ℝ
  recommendations : List String

/-- The embedding taken by `enrollEnhanced` when the engine is present and ready. -/
def enrollEmbedding (md : Module) (image : Option (List Nat)) : Option (List ℝ) :=
  match md.ai with
  | some ai => if ai.ready then ai.getEmbedding image else none
  | none => none

/-- The object literal `anchor` of `enrollEnhanced`. -/
def makeAnchor (env : EnrollEnv) (gps : GeoFix) (lighting : LightingProfile)
    (solar : SolarPosition) (neuralVector : Option (List ℝ)) (quantumSeed : Crystal) : Anchor :=
  { id := env.anchorId
    gps := { latitude := gps.latitude, longitude := gps.longitude, altitude := gps.altitude,
             accuracy := gps.accuracy, timestamp := gps.timestamp }
    solar := { elevation := solar.elevation, azimuth := solar.azimuth,
               isDaylight := solar.isDaylight, sunrise := solar.sunrise,
               sunset := solar.sunset }
    lighting := { luminance := lighting.luminance, variance := lighting.variance,
                  isArtificial := lighting.isArtificial,
                  colorBalance := lighting.colorBalance }
    neuralVector := neuralVector
    metadata := { device := env.device, screenSize := env.screenSize,
                  timezone := env.timezone, createdAt := env.createdAt, version := "2.0" }
    quantumSeed := quantumSeed }

/-- The method `enrollEnhanced(ui)`: the returned object or the raised error,
the module afterwards and the remaining entropy source. -/
def enrollEnhanced (md : Module) (src : EntropySource) (env : EnrollEnv) :
    Except Message EnrollResult × Module × EntropySource :=
  match env.gps with
  | Except.error msg => (Except.error msg, md, src)
  | Except.ok gps =>
    if gps.accuracy > 50 then
      (Except.error [Piece.text "GPS accuracy too low: ", Piece.num gps.accuracy,
        Piece.text "m (need <50m)"], md, src)
    else
      let lighting := analyzeLighting env.image
      let neuralVector := enrollEmbedding md env.image
      let solar := calcSolarElevation gps.latitude gps.longitude env.solarAt gps.altitude
      let validation := validateEnrollmentConditions gps lighting solar
      if !validation.isValid then
        (Except.error (Piece.text "Enrollment failed: " :: validation.reason), md, src)
      else
        let cr := md.quantumLattice.crystallize src env.latticeAt 15
        let anchor := makeAnchor env gps lighting solar neuralVector cr.1
        let md1 : Module :=
          { md with quantumLattice := cr.2.1,
                    storage := md.storage.saveTemplate "sbta" (TemplateData.anchor anchor) env.savedAt }
        match calibrate md1 env.calibration md1.config.calibrationSamples with
        | (Except.error msg, md2) => (Except.error msg, md2, cr.2.2)
        | (Except.ok _, md2) =>
          (Except.ok { success := true, anchor := anchor, confidence := 0.95,
                       recommendations := ["Use in similar lighting conditions",
                         "Re-calibrate if traveling >10km",
                         "Verify periodically for seasonal changes"] },
           md2, cr.2.2)

/-- The `details` object of a completed verification (timing left out). -/
structure Details where
  distanceMeters : ℝ
  solarElevation : ℝ
  solarAzimuth : ℝ
  luminance : ℝ
  isDaylight : Bool
  gpsAccuracy : ℝ
  timeDriftMs : Option ℝ

/-- The object returned by `verifyEnhanced`, from the `try` or from the `catch`
branch (absent fields are `none` or empty). -/
structure VerifyResult where
  success : Bool
  score : ℝ
  scores : Option Scores
  quantum : Option QuantumDecision
  details : Option Details
  warnings : List String
  recommendations : List Message
  error : Option Message

/-- The object built by the `catch` branch of `verifyEnhanced`. -/
def VerifyResult.failed (message : Message) : VerifyResult :=
  { success := false, score := 0, scores := none, quantum := none, details := none,
    warnings := [], error := some message,
    recommendations := [[Piece.text "Check GPS signal"], [Piece.text "Ensure good lighting"],
                        [Piece.text "Retry verification"]] }

/-- What `verifyEnhanced` reads from the browser: the GPS outcome, the clock
readings of its `Date.now()` and `new Date()` calls in order, the network time,
the camera frame, and the local-time view of a date. -/
structure VerifyEnv where
  gps : Except Message GeoFix
  timeCheckAt : ℤ
  networkTime : Option ℝ
  solarAt : Date
  image : Option (List Nat)
  scoreAt : Date
  latticeAt : Nat
  recommendAt : Date
  localHour : Date → Fin 24
  localMinute : Date → Fin 60

/-- Step 5 of `verifyEnhanced`: the neural score. -/
def neuralScore (md : Module) (anchor : Anchor) (currentImage : Option (List Nat)) : ℝ :=
  match md.ai, anchor.neuralVector with
  | some ai, some anchorVector =>
    if md.config.requireVectorMatch && ai.ready then
      match ai.getEmbedding currentImage with
      | some currentVector => cosineSimilarity currentVector anchorVector
      | none => 1.0
    else 1.0
  | _, _ => 1.0

/-- Step 8 of `verifyEnhanced`: the local `weightedAverage`. -/
def weightedAverage (scores : Scores) : ℝ :=
  scores.location * 0.35 + scores.solar * 0.25 + scores.lighting * 0.20
    + scores.neural * 0.15 + scores.time * 0.05

/-- Step 6 of `verifyEnhanced`: the `scores` object, given the lighting score. -/
def verifyScores (md : Module) (env : VerifyEnv) (anchor : Anchor) (currentGPS : GeoFix)
    (distance lighting : ℝ) : Scores :=
  let timeValidation := validateSystemTime md.config env.timeCheckAt env.networkTime
  let currentSolar := calcSolarElevation currentGPS.latitude currentGPS.longitude
    env.solarAt currentGPS.altitude
  { location := max 0 (1 - (distance / md.config.geoFenceRadius))
    solar := calculateSolarScore anchor.solar currentSolar
      (env.localHour env.scoreAt) (env.localMinute env.scoreAt)
    lighting := lighting
    neural := neuralScore md anchor env.image
    time := if timeValidation.isSynchronized then 1.0 else 0.8 }

/-- Steps 7 to 9 of `verifyEnhanced` and the returned object: the lattice
decision, the weighted fusion, the verdict. -/
def verifyFusion (md : Module) (src : EntropySource) (env : VerifyEnv) (anchor : Anchor)
    (currentGPS : GeoFix) (distance lighting : ℝ) : VerifyResult × Module × EntropySource :=
  let timeValidation := validateSystemTime md.config env.timeCheckAt env.networkTime
  let currentSolar := calcSolarElevation currentGPS.latitude currentGPS.longitude
    env.solarAt currentGPS.altitude
  let currentLighting := analyzeLighting env.image
  let scores := verifyScores md env anchor currentGPS distance lighting
  let qd := generateQuantumDecision md.quantumLattice src env.latticeAt scores.values
  let quantumDecision := qd.1
  let finalScore := min 1.0 (weightedAverage scores * quantumDecision.confidence)
  let isAuthenticated : Bool := decide (finalScore ≥ quantumDecision.decisionThreshold)
  ({ success := isAuthenticated, score := finalScore, scores := some scores,
     quantum := some quantumDecision,
     details := some
       { distanceMeters := distance * 1000, solarElevation := currentSolar.elevation,
         solarAzimuth := currentSolar.azimuth, luminance := currentLighting.luminance,
         isDaylight := currentSolar.isDaylight, gpsAccuracy := currentGPS.accuracy,
         timeDriftMs := timeValidation.timeDriftMs },
     warnings := generateWarnings scores currentSolar currentLighting timeValidation,
     recommendations := generateRecommendations scores
       (env.localHour anchor.gps.timestamp) (env.localHour env.recommendAt),
     error := none },
   { md with quantumLattice := qd.2.1 }, qd.2.2)

/-- The method `verifyEnhanced(ui)`: the returned object, the module afterwards
and the remaining entropy source.  Steps 1 to 5 are inline.  A stored record
that is not an anchor makes the first read of `anchor.gps` raise, after the GPS
fix; the lighting score is evaluated first among the scores because it is the
one that can raise. -/
def verifyEnhanced (md : Module) (src : EntropySource) (env : VerifyEnv) :
    VerifyResult × Module × EntropySource :=
  match md.storage.getTemplates "sbta" with
  | [] => (VerifyResult.failed [Piece.text "No SBTA anchor enrolled"], md, src)
  | first :: _ =>
    match env.gps with
    | Except.error msg => (VerifyResult.failed msg, md, src)
    | Except.ok currentGPS =>
      match first.data with
      | TemplateData.face _ => (VerifyResult.failed typeErrorMessage, md, src)
      | TemplateData.anchor anchor =>
        if haversineDistance currentGPS.latitude currentGPS.longitude
            anchor.gps.latitude anchor.gps.longitude > md.config.geoFenceRadius then
          (VerifyResult.failed
            [Piece.text "Location mismatch: ",
             Piece.fixed (haversineDistance currentGPS.latitude currentGPS.longitude
               anchor.gps.latitude anchor.gps.longitude * 1000) 1,
             Piece.text "m (max: ", Piece.num (md.config.geoFenceRadius * 1000), Piece.text "m)"],
           md, src)
        else
          match calculateLightingScore md.config anchor.lighting (analyzeLighting env.image)
              (calcSolarElevation currentGPS.latitude currentGPS.longitude
                env.solarAt currentGPS.altitude) with
          | none => (VerifyResult.failed typeErrorMessage, md, src)
          | some lighting =>
            verifyFusion md src env anchor currentGPS
              (haversineDistance currentGPS.latitude currentGPS.longitude
                anchor.gps.latitude anchor.gps.longitude) lighting

/-- The `try` block of `verifyEnhanced` on its own: `Except.error` is a `throw`
that reaches the `catch` block.  No `throw` happens after the lattice has
been touched, so a raised error leaves module and entropy source as they were. -/
def verifyTry (md : Module) (src : EntropySource) (env : VerifyEnv) :
    Except Message (VerifyResult × Module × EntropySource) :=
  match md.storage.getTemplates "sbta" with
  | [] => Except.error [Piece.text "No SBTA anchor enrolled"]
  | first :: _ =>
    match env.gps with
    | Except.error msg => Except.error msg
    | Except.ok currentGPS =>
      match first.data with
      | TemplateData.face _ => Except.error typeErrorMessage
      | TemplateData.anchor anchor =>
        if haversineDistance currentGPS.latitude currentGPS.longitude
            anchor.gps.latitude anchor.gps.longitude > md.config.geoFenceRadius then
          Except.error
            [Piece.text "Location mismatch: ",
             Piece.fixed (haversineDistance currentGPS.latitude currentGPS.longitude
               anchor.gps.latitude anchor.gps.longitude * 1000) 1,
             Piece.text "m (max: ", Piece.num (md.config.geoFenceRadius * 1000), Piece.text "m)"]
        else
          match calculateLightingScore md.config anchor.lighting (analyzeLighting env.image)
              (calcSolarElevation currentGPS.latitude currentGPS.longitude
                env.solarAt currentGPS.altitude) with
          | none => Except.error typeErrorMessage
          | some lighting =>
            Except.ok (verifyFusion md src env anchor currentGPS
              (haversineDistance currentGPS.latitude currentGPS.longitude
                anchor.gps.latitude anchor.gps.longitude) lighting)

/-- The compatibility method `enroll(ui)`: `return await this.enrollEnhanced(ui)`. -/
def enroll (md : Module) (src : EntropySource) (env : EnrollEnv) :
    Except Message EnrollResult × Module × EntropySource :=
  enrollEnhanced md src env

/-- The compatibility method `verify(ui)`: `return await this.verifyEnhanced(ui)`,
as seen by the caller.  `Except.error` would be a rejection of the returned
promise; the `catch` block of `verifyEnhanced` returns an object, so the
promise resolves with what `verifyEnhanced` returns. -/
def verify (md : Module) (src : EntropySource) (env : VerifyEnv) :
    Except Message VerifyResult × Module × EntropySource :=
  (Except.ok (verifyEnhanced md src env).1, (verifyEnhanced md src env).2.1,
    (verifyEnhanced md src env).2.2)

end EnhancedSBTAModule

/-! ## Concrete runs

Inputs used to exercise the operations: an observer at the north pole at the
epoch J2000.0 (2000-01-01 12:00 UTC), where the Julian century is 0 and the
geocentric elevation equals the declination. -/

namespace Scenario

open EnhancedSBTAModule

/-- 2000-01-01T12:00:00Z in milliseconds. -/
def epochJ2000 : Date := 946728000000

/-- A browser whose random bytes are all 0, without tilt data or camera. -/
def zeroInput : HarvestInput := { random := fun _ => 0, tilt := none, image := none }

def zeroSource : EntropySource := fun _ => zeroInput

/-- A harvest in which `getRandomValues` writes the byte 255 everywhere, with no
tilt data and no camera frame. -/
def fullInput : HarvestInput := { random := fun _ => 255, tilt := none, image := none }

/-- The harvester of the constructor after one such harvest: 4096 bytes of 255,
cursor 0. -/
def fullHarvester : EntropyHarvester := EntropyHarvester.new.harvestEntropy fullInput

/-- A 10 m fix at the north pole, at sea level. -/
def poleFix : GeoFix :=
  { latitude := 90, longitude := 0, accuracy := 10, altitude := 0, timestamp := 946728000000 }

/-- The same place from a cruising aircraft, 13 km up. -/
def poleFixAloft : GeoFix :=
  { latitude := 90, longitude := 0, accuracy := 10, altitude := 13000, timestamp := 946728000000 }

/-- A fix one degree of latitude (about 111 km) south of the pole. -/
def farFix : GeoFix :=
  { latitude := 89, longitude := 0, accuracy := 10, altitude := 0, timestamp := 946728000000 }

/-- One mid-gray pixel. -/
def grayFrame : List Nat := [100, 100, 100, 255]

/-- One white pixel. -/
def whiteFrame : List Nat := [255, 255, 255, 255]

/-- A ready engine that maps every frame to the embedding `[1, 0]`. -/
def unitEngine : NeuralEngine := { ready := true, infer := fun _ => [1, 0] }

/-- An embedding engine that is ready and returns the zero vector `[0, 0]`. -/
def nullEngine : NeuralEngine := { ready := true, infer := fun _ => [0, 0] }

/-- A module fresh from its constructor, with an empty store. -/
def freshModule : Module := Module.new (some unitEngine) [] Config.default

def poleReading : SampleReading :=
  { gps := Except.ok poleFix, image := some grayFrame, solarAt := epochJ2000,
    timestamp := 946728000000, ambientLight := none }

/-- An enrollment at the pole under gray light. -/
def enrollEnv : EnrollEnv :=
  { gps := Except.ok poleFix, image := some grayFrame, solarAt := epochJ2000,
    anchorId := "sbta_946728000000_k3f9x2m1q", device := "Mozilla/5.0", screenSize := "1280x720",
    timezone := "Etc/UTC", createdAt := 946728000000, latticeAt := 946728000000,
    savedAt := 946728000000,
    calibration := { hashGps := Except.ok poleFix, sample := fun _ => poleReading,
                     completedAt := 946728000000 } }

/-- A verification with the readings of `enrollEnv`: same fix, instant, frame. -/
def verifyEnv : VerifyEnv :=
  { gps := Except.ok poleFix, timeCheckAt := 946728000000, networkTime := none,
    solarAt := epochJ2000, image := some grayFrame, scoreAt := epochJ2000,
    latticeAt := 946728000000, recommendAt := epochJ2000,
    localHour := fun _ => 12, localMinute := fun _ => 0 }

/-- An anchor enrolled in summer daylight 99 m from the pole, under reddish
light, with the embedding `[-1, 0]`. -/
def summerAnchor : Anchor :=
  { id := "sbta_961588800000_a1b2c3d4e"
    gps := { latitude := 89.99911, longitude := 0, accuracy := 10, altitude := 0,
             timestamp := 961588800000 }
    solar := { elevation := 20, azimuth := 180, isDaylight := true, sunrise := none,
               sunset := none }
    lighting := { luminance := 90, variance := 400, isArtificial := false,
                  colorBalance := some { r := 0.8, g := 0.05, b := 0.15 } }
    neuralVector := some [-1, 0]
    metadata := { device := "Mozilla/5.0", screenSize := "1280x720", timezone := "Etc/UTC",
                  createdAt := 961588800000, version := "2.0" }
    quantumSeed := { activeNodes := 38, timestamp := 961588800000 } }

/-- A module whose store holds `summerAnchor` as its only record. -/
def summerModule : Module :=
  Module.new (some unitEngine)
    [{ mode := "sbta", data := TemplateData.anchor summerAnchor, timestamp := 961588800000 }]
    Config.default

/-- The summer anchor with the embedding `[1, 0]`. -/
def unitAnchor : Anchor := { summerAnchor with neuralVector := some [1, 0] }

/-- A module whose engine returns the zero embedding and whose store holds
`unitAnchor` as its only record. -/
def nullModule : Module :=
  Module.new (some nullEngine)
    [{ mode := "sbta", data := TemplateData.anchor unitAnchor, timestamp := 961588800000 }]
    Config.default

/-- A verification at the pole in the polar night, at local midnight, in front
of a white screen, with no network time. -/
def winterEnv : VerifyEnv :=
  { gps := Except.ok poleFix, timeCheckAt := 946728000000, networkTime := none,
    solarAt := epochJ2000, image := some whiteFrame, scoreAt := epochJ2000,
    latticeAt := 946728000000, recommendAt := epochJ2000,
    localHour := fun _ => 0, localMinute := fun _ => 0 }

/-- The same verification attempted 111 km away. -/
def farEnv : VerifyEnv :=
  { gps := Except.ok farFix, timeCheckAt := 946728000000, networkTime := none,
    solarAt := epochJ2000, image := some whiteFrame, scoreAt := epochJ2000,
    latticeAt := 946728000000, recommendAt := epochJ2000,
    localHour := fun _ => 0, localMinute := fun _ => 0 }

/-- A 60 m fix at the pole: too coarse for enrollment. -/
def coarseFix : GeoFix :=
  { latitude := 90, longitude := 0, accuracy := 60, altitude := 0, timestamp := 946728000000 }

/-- A fix at the pole whose accuracy is exactly 50 m. -/
def edgeFix : GeoFix :=
  { latitude := 90, longitude := 0, accuracy := 50, altitude := 0, timestamp := 946728000000 }

/-- The enrollment of `enrollEnv` attempted with the coarse fix. -/
def coarseEnv : EnrollEnv := { enrollEnv with gps := Except.ok coarseFix }

/-- The enrollment of `enrollEnv` attempted with the 50 m fix. -/
def edgeEnv : EnrollEnv := { enrollEnv with gps := Except.ok edgeFix }

/-- A calibration round during which the GPS times out. -/
def lostReading : SampleReading :=
  { gps := Except.error [Piece.text "GPS timeout"], image := some grayFrame,
    solarAt := epochJ2000, timestamp := 946728000000, ambientLight := none }

/-- The enrollment of `enrollEnv` whose GPS is lost once calibration starts. -/
def lostEnv : EnrollEnv :=
  { enrollEnv with
    calibration := { hashGps := Except.error [Piece.text "GPS timeout"],
                     sample := fun _ => lostReading, completedAt := 946728000000 } }

/-- A 10 m fix at the south pole, at sea level. -/
def southFix : GeoFix :=
  { latitude := -90, longitude := 0, accuracy := 10, altitude := 0, timestamp := 946728000000 }

def southReading : SampleReading :=
  { gps := Except.ok southFix, image := some grayFrame, solarAt := epochJ2000,
    timestamp := 946728000000, ambientLight := none }

/-- A second enrollment, at the south pole. -/
def southEnrollEnv : EnrollEnv :=
  { gps := Except.ok southFix, image := some grayFrame, solarAt := epochJ2000,
    anchorId := "sbta_946728000001_p7t4w8z2c", device := "Mozilla/5.0", screenSize := "1280x720",
    timezone := "Etc/UTC", createdAt := 946728000001, latticeAt := 946728000001,
    savedAt := 946728000001,
    calibration := { hashGps := Except.ok southFix, sample := fun _ => southReading,
                     completedAt := 946728000001 } }

/-- A verification with the readings of `southEnrollEnv`. -/
def southVerifyEnv : VerifyEnv :=
  { gps := Except.ok southFix, timeCheckAt := 946728000001, networkTime := none,
    solarAt := epochJ2000, image := some grayFrame, scoreAt := epochJ2000,
    latticeAt := 946728000001, recommendAt := epochJ2000,
    localHour := fun _ => 12, localMinute := fun _ => 0 }

/-- One black pixel. -/
def blackFrame : List Nat := [0, 0, 0, 255]

/-- A frame of 10001 pixels, every channel at 255. -/
def whiteWall : List Nat := List.replicate 40004 255

/-- A frame of 10001 pixels, every channel at 200. -/
def grayWall : List Nat := List.replicate 40004 200

/-- The enrollment of `enrollEnv` attempted in front of a white screen. -/
def screenEnv : EnrollEnv := { enrollEnv with image := some whiteFrame }

end Scenario

/-! ## Results -/

open NOAASolarCalculator EnhancedSBTAModule Scenario

/-! ### Rounding to the nearest double -/

theorem roundEven_sub_le (t : ℚ) : |((roundEven t : ℤ) : ℚ) - t| ≤ 1 / 2 := by
  have h1 := Int.floor_le t
  have h2 := Int.lt_floor_add_one t
  unfold roundEven
  rw [abs_le]
  split_ifs with h3 h4 h5
  · constructor <;> linarith
  · push_cast; constructor <;> linarith
  · constructor <;> linarith
  · push_cast; constructor <;> linarith

theorem roundEven_le (t : ℚ) (m : ℤ) (h : t ≤ m) : roundEven t ≤ m := by
  have h1 := (abs_le.mp (roundEven_sub_le t)).2
  have h2 : ((roundEven t : ℤ) : ℚ) < ((m + 1 : ℤ) : ℚ) := by push_cast; linarith
  have := Int.cast_lt.mp h2
  omega

theorem le_roundEven (t : ℚ) (m : ℤ) (h : (m : ℚ) ≤ t) : m ≤ roundEven t := by
  have h1 := (abs_le.mp (roundEven_sub_le t)).1
  have h2 : ((m - 1 : ℤ) : ℚ) < ((roundEven t : ℤ) : ℚ) := by push_cast; linarith
  have := Int.cast_lt.mp h2
  omega

theorem roundEven_intCast (n : ℤ) : roundEven (n : ℚ) = n :=
  le_antisymm (roundEven_le _ n le_rfl) (le_roundEven _ n le_rfl)

theorem roundEven_eq (t : ℚ) (n : ℤ) (h : |t - n| < 1 / 2) : roundEven t = n := by
  have h1 := abs_le.mp (roundEven_sub_le t)
  have h2 := abs_lt.mp h
  have h3 : ((roundEven t : ℤ) : ℚ) < ((n + 1 : ℤ) : ℚ) := by push_cast; linarith
  have h4 : ((n - 1 : ℤ) : ℚ) < ((roundEven t : ℤ) : ℚ) := by push_cast; linarith
  have := Int.cast_lt.mp h3
  have := Int.cast_lt.mp h4
  omega

theorem log_two_eq (x : ℚ) (e : ℤ) (h1 : 2 ^ e ≤ |x|) (h2 : |x| < 2 ^ (e + 1)) :
    Int.log 2 |x| = e := by
  have hpos : 0 < |x| := lt_of_lt_of_le (by positivity) h1
  have a : e ≤ Int.log 2 |x| := by
    rw [← Int.zpow_le_iff_le_log (by norm_num) hpos]
    simpa using h1
  have b : Int.log 2 |x| < e + 1 := by
    rw [← Int.lt_zpow_iff_log_lt (by norm_num) hpos]
    simpa using h2
  omega

theorem fl_eq (x : ℚ) (e n : ℤ) (h1 : 2 ^ e ≤ |x|) (h2 : |x| < 2 ^ (e + 1))
    (h3 : |x / 2 ^ (e - 52) - n| < 1 / 2) : fl x = n * 2 ^ (e - 52) := by
  have hx : x ≠ 0 := by
    intro h
    rw [h, abs_zero] at h1
    exact absurd h1 (not_le.mpr (by positivity))
  unfold fl
  rw [if_neg hx, log_two_eq x e h1 h2, roundEven_eq _ n h3]

theorem zpow_log_le (x : ℚ) (hx : x ≠ 0) : (2 : ℚ) ^ Int.log 2 |x| ≤ |x| := by
  have := Int.zpow_log_le_self (b := 2) (by norm_num) (abs_pos.mpr hx)
  simpa using this

theorem lt_zpow_log_succ (x : ℚ) : |x| < (2 : ℚ) ^ (Int.log 2 |x| + 1) := by
  have := Int.lt_zpow_succ_log_self (b := 2) (by norm_num) |x|
  simpa using this

/-- The rounding error of `fl` is at most half a unit in the last place. -/
theorem fl_sub_le (x : ℚ) : |fl x - x| ≤ |x| / 2 ^ 53 := by
  by_cases hx : x = 0
  · simp [fl, hx]
  unfold fl
  rw [if_neg hx]
  set e := Int.log 2 |x| with he
  have hq : (0 : ℚ) < 2 ^ (e - 52) := by positivity
  have h1 := roundEven_sub_le (x / 2 ^ (e - 52))
  have h2 : ((roundEven (x / 2 ^ (e - 52)) : ℤ) : ℚ) * 2 ^ (e - 52) - x
      = (((roundEven (x / 2 ^ (e - 52)) : ℤ) : ℚ) - x / 2 ^ (e - 52)) * 2 ^ (e - 52) := by
    field_simp
  rw [h2, abs_mul, abs_of_pos hq]
  have h3 : (2 : ℚ) ^ (e - 52) = 2 ^ e / 2 ^ 52 := by
    rw [zpow_sub₀ (by norm_num)]; norm_num
  have h4 := zpow_log_le x hx
  rw [← he] at h4
  have h5 : (0 : ℚ) < 2 ^ e := by positivity
  calc |((roundEven (x / 2 ^ (e - 52)) : ℤ) : ℚ) - x / 2 ^ (e - 52)| * 2 ^ (e - 52)
      ≤ 1 / 2 * 2 ^ (e - 52) := by gcongr
    _ = 2 ^ e / 2 ^ 53 := by rw [h3]; ring
    _ ≤ |x| / 2 ^ 53 := by gcongr

theorem fl_nonneg (x : ℚ) (h : 0 ≤ x) : 0 ≤ fl x := by
  by_cases hx : x = 0
  · simp [fl, hx]
  unfold fl
  rw [if_neg hx]
  have hq : (0 : ℚ) < 2 ^ (Int.log 2 |x| - 52) := by positivity
  have : (0 : ℤ) ≤ roundEven (x / 2 ^ (Int.log 2 |x| - 52)) :=
    le_roundEven _ 0 (by push_cast; positivity)
  have : (0 : ℚ) ≤ ((roundEven (x / 2 ^ (Int.log 2 |x| - 52)) : ℤ) : ℚ) := by exact_mod_cast this
  positivity

/-- A value on the grid of `x` that bounds `x` from above bounds `fl x`. -/
theorem fl_le_of_grid (x y : ℚ) (m : ℤ) (hx : x ≠ 0)
    (hy : y = m * 2 ^ (Int.log 2 |x| - 52)) (h : x ≤ y) : fl x ≤ y := by
  unfold fl
  rw [if_neg hx, hy]
  have hq : (0 : ℚ) < 2 ^ (Int.log 2 |x| - 52) := by positivity
  have : roundEven (x / 2 ^ (Int.log 2 |x| - 52)) ≤ m := by
    apply roundEven_le
    rw [div_le_iff₀ hq, ← hy]
    exact h
  have : ((roundEven (x / 2 ^ (Int.log 2 |x| - 52)) : ℤ) : ℚ) ≤ (m : ℚ) := by exact_mod_cast this
  gcongr

/-- A value on the grid of `x` is returned unchanged. -/
theorem fl_grid (x : ℚ) (m : ℤ) (hx : x = m * 2 ^ (Int.log 2 |x| - 52)) : fl x = x := by
  by_cases h0 : x = 0
  · simp [fl, h0]
  unfold fl
  rw [if_neg h0]
  have hq : (2 : ℚ) ^ (Int.log 2 |x| - 52) ≠ 0 := by positivity
  have h1 : x / 2 ^ (Int.log 2 |x| - 52) = (m : ℚ) := by
    rw [div_eq_iff hq]; exact hx
  rw [h1, roundEven_intCast]
  exact hx.symm

theorem log_two_lt (x : ℚ) (e : ℤ) (hx : x ≠ 0) (h : |x| < 2 ^ e) : Int.log 2 |x| < e := by
  rw [← Int.lt_zpow_iff_log_lt (by norm_num) (abs_pos.mpr hx)]
  simpa using h

/-- An integer multiple of a power of two with a mantissa below `2 ^ 53` is a
double: `fl` returns it unchanged. -/
theorem fl_exact (m k : ℤ) (hm : |m| < 2 ^ 53) : fl ((m : ℚ) * 2 ^ k) = (m : ℚ) * 2 ^ k := by
  by_cases h0 : (m : ℚ) * (2 : ℚ) ^ k = 0
  · rw [h0]; simp [fl]
  have hk : (0 : ℚ) < 2 ^ k := by positivity
  have hlog : Int.log 2 |(m : ℚ) * 2 ^ k| < 53 + k := by
    apply log_two_lt _ _ h0
    rw [abs_mul, abs_of_pos hk, zpow_add₀ (by norm_num)]
    have : |(m : ℚ)| < 2 ^ 53 := by exact_mod_cast hm
    have h53 : ((2 : ℚ) ^ (53 : ℤ)) = 2 ^ 53 := by norm_num
    rw [h53]
    gcongr
  obtain ⟨j, hj⟩ : ∃ j : ℕ, (j : ℤ) = k - (Int.log 2 |(m : ℚ) * 2 ^ k| - 52) :=
    ⟨(k - (Int.log 2 |(m : ℚ) * 2 ^ k| - 52)).toNat, Int.toNat_of_nonneg (by omega)⟩
  apply fl_grid _ (m * 2 ^ j)
  have hk2 : k = (j : ℤ) + (Int.log 2 |(m : ℚ) * 2 ^ k| - 52) := by omega
  have : (2 : ℚ) ^ k = 2 ^ (j : ℤ) * 2 ^ (Int.log 2 |(m : ℚ) * 2 ^ k| - 52) := by
    rw [← zpow_add₀ (by norm_num), ← hk2]
  push_cast
  rw [mul_assoc, ← zpow_natCast, ← this]

/-- A natural number below `2 ^ 53` is a double. -/
theorem fl_natCast (n : ℕ) (hn : n < 2 ^ 53) : fl (n : ℚ) = n := by
  have := fl_exact (n : ℤ) 0 (by rw [abs_of_nonneg (by positivity)]; exact_mod_cast hn)
  simpa using this

/-- A natural number below `2 ^ 53` that bounds `x` from above bounds `fl x`. -/
theorem fl_le_natCast (x : ℚ) (n : ℕ) (hn : n < 2 ^ 53) (h0 : 0 ≤ x) (h : x ≤ n) :
    fl x ≤ n := by
  by_cases hx : x = 0
  · rw [hx]; simp [fl]
  have hlog : Int.log 2 |x| < 53 := by
    apply log_two_lt _ _ hx
    rw [abs_of_nonneg h0]
    have : (n : ℚ) < 2 ^ 53 := by exact_mod_cast hn
    have h53 : ((2 : ℚ) ^ (53 : ℤ)) = 2 ^ 53 := by norm_num
    rw [h53]
    linarith
  obtain ⟨j, hj⟩ : ∃ j : ℕ, (j : ℤ) = 52 - Int.log 2 |x| :=
    ⟨(52 - Int.log 2 |x|).toNat, Int.toNat_of_nonneg (by omega)⟩
  apply fl_le_of_grid x n ((n : ℤ) * 2 ^ j) hx _ h
  have hk2 : Int.log 2 |x| - 52 = -(j : ℤ) := by omega
  rw [hk2, zpow_neg, zpow_natCast]
  push_cast
  field_simp

theorem fl_zero : fl 0 = 0 := by simp [fl]

theorem fl_one : fl 1 = 1 := by
  have := fl_natCast 1 (by norm_num)
  simpa using this

/-- The quotient `v / 2^32` of a 32-bit value is a double. -/
theorem fl_scale32 (v : ℕ) (hv : v < 2 ^ 32) :
    fl ((v : ℚ) / 4294967296) = (v : ℚ) / 4294967296 := by
  have h := fl_exact (v : ℤ) (-32) (by
    rw [abs_of_nonneg (by positivity)]
    have : (v : ℤ) < 2 ^ 32 := by exact_mod_cast hv
    omega)
  have e : ((v : ℤ) : ℚ) * 2 ^ (-32 : ℤ) = (v : ℚ) / 4294967296 := by
    rw [zpow_neg]; norm_num; ring
  rw [e] at h
  exact h

/-- While `v * max` stays below `2^53` the product `v / 2^32 * max` is a double
and the draw is the exact floor. -/
theorem floor_scale (v max : Nat) (hv : v < 2 ^ 32) (hm : v * max < 2 ^ 53) :
    Int.toNat ⌊fl (fl ((v : ℚ) / 4294967296) * (max : ℚ))⌋ = v * max / 2 ^ 32 := by
  rw [fl_scale32 v hv]
  have h := fl_exact ((v * max : ℕ) : ℤ) (-32) (by
    rw [abs_of_nonneg (by positivity)]
    exact_mod_cast hm)
  have e : (((v * max : ℕ) : ℤ) : ℚ) * 2 ^ (-32 : ℤ) = (v : ℚ) / 4294967296 * (max : ℚ) := by
    rw [zpow_neg]; push_cast; norm_num; ring
  rw [e] at h
  rw [h]
  have h2 : (v : ℚ) / 4294967296 * (max : ℚ) = ((v * max : ℕ) : ℚ) / ((2 ^ 32 : ℕ) : ℚ) := by
    push_cast
    ring
  rw [h2, Rat.floor_natCast_div_natCast]
  have hc : ((v * max : ℕ) : ℤ) / (((2 : ℕ) ^ 32 : ℕ) : ℤ) = ((v * max / 2 ^ 32 : ℕ) : ℤ) := by
    norm_cast
  rw [hc, Int.toNat_ofNat]

/-- The rounded product `v / 2^32 * max` stays below `max`, so the draw does. -/
theorem floor_scale_lt (v max : Nat) (hv : v < 2 ^ 32) (hmax : 1 ≤ max) :
    Int.toNat ⌊fl (fl ((v : ℚ) / 4294967296) * (max : ℚ))⌋ < max := by
  rw [fl_scale32 v hv]
  have hvq : (v : ℚ) ≤ 4294967295 := by
    have : v ≤ 4294967295 := by omega
    exact_mod_cast this
  have hmq : (1 : ℚ) ≤ (max : ℚ) := by exact_mod_cast hmax
  have hx0 : (0 : ℚ) ≤ (v : ℚ) / 4294967296 * (max : ℚ) := by positivity
  have hx1 : (v : ℚ) / 4294967296 * (max : ℚ) ≤ 4294967295 / 4294967296 * (max : ℚ) := by
    gcongr
  have herr := (abs_le.mp (fl_sub_le ((v : ℚ) / 4294967296 * (max : ℚ)))).2
  rw [abs_of_nonneg hx0] at herr
  have hlt : fl ((v : ℚ) / 4294967296 * (max : ℚ)) < (max : ℚ) := by
    have h53 : ((2 : ℚ) ^ 53) = 9007199254740992 := by norm_num
    rw [h53] at herr
    have : (v : ℚ) / 4294967296 * (max : ℚ) / 9007199254740992
        ≤ 4294967295 / 4294967296 * (max : ℚ) / 9007199254740992 := by gcongr
    linarith
  have h0 : 0 ≤ ⌊fl ((v : ℚ) / 4294967296 * (max : ℚ))⌋ :=
    Int.floor_nonneg.mpr (fl_nonneg _ hx0)
  have h1 : ⌊fl ((v : ℚ) / 4294967296 * (max : ℚ))⌋ < (max : ℤ) := by
    rw [Int.floor_lt]
    exact_mod_cast hlt
  omega

/-! ### The cell count of `crystallize` in doubles -/

theorem activeCount_nonneg (p : ℚ) (n : ℕ) (hp0 : 0 ≤ p) :
    0 ≤ ⌊fl (fl (p / 100) * (n : ℚ))⌋ := by
  apply Int.floor_nonneg.mpr
  apply fl_nonneg
  have := fl_nonneg (p / 100) (by positivity)
  positivity

theorem activeCount_le (p : ℚ) (n : ℕ) (hn : n < 2 ^ 53) (hp0 : 0 ≤ p) (hp1 : p ≤ 100) :
    ⌊fl (fl (p / 100) * (n : ℚ))⌋ ≤ (n : ℤ) := by
  have h0 := fl_nonneg (p / 100) (by positivity)
  have h1 : fl (p / 100) ≤ 1 := by
    have := fl_le_natCast (p / 100) 1 (by norm_num) (by positivity)
      (by rw [div_le_iff₀ (by norm_num)]; push_cast; linarith)
    simpa using this
  have h2 : fl (fl (p / 100) * (n : ℚ)) ≤ (n : ℚ) := by
    apply fl_le_natCast _ n hn (by positivity)
    calc fl (p / 100) * (n : ℚ) ≤ 1 * (n : ℚ) := by gcongr
      _ = n := one_mul _
  have h3 : ⌊fl (fl (p / 100) * (n : ℚ))⌋ ≤ ⌊(n : ℚ)⌋ := Int.floor_le_floor h2
  simpa using h3

theorem activeCount_zero (n : ℕ) : ⌊fl (fl ((0 : ℚ) / 100) * (n : ℚ))⌋ = 0 := by
  simp [fl_zero]

theorem activeCount_hundred (n : ℕ) (hn : n < 2 ^ 53) :
    ⌊fl (fl ((100 : ℚ) / 100) * (n : ℚ))⌋ = (n : ℤ) := by
  have h : (100 : ℚ) / 100 = 1 := by norm_num
  rw [h, fl_one, one_mul, fl_natCast n hn]
  simp

/-- The double nearest to 0.15 is `5404319552844595 / 2^55`. -/
theorem fl_fifteen : fl ((15 : ℚ) / 100) = 5404319552844595 / 36028797018963968 := by
  have h := fl_eq ((15 : ℚ) / 100) (-3) 5404319552844595
    (by rw [abs_of_nonneg (by norm_num), zpow_neg]; norm_num)
    (by rw [abs_of_nonneg (by norm_num)]; norm_num [zpow_neg])
    (by norm_num [zpow_neg, abs_lt])
  rw [h]
  norm_num [zpow_neg]

/-- The call `crystallize(15)` on 256 cells lights `Math.floor(38.4) = 38` cells. -/
theorem floor_fifteen : ⌊fl (fl ((15 : ℚ) / 100) * ((256 : ℕ) : ℚ))⌋ = 38 := by
  have hx : fl ((15 : ℚ) / 100) * ((256 : ℕ) : ℚ)
      = ((5404319552844595 : ℤ) : ℚ) * 2 ^ (-47 : ℤ) := by
    rw [fl_fifteen, zpow_neg]; norm_num
  rw [hx, fl_exact _ _ (by norm_num), Int.floor_eq_iff, zpow_neg]
  constructor <;> norm_num

theorem floor_fifteen_percent :
    (⌊fl (fl ((15 : ℚ) / 100) * ((256 : ℕ) : ℚ))⌋).toNat = 38 := by
  rw [floor_fifteen]
  rfl

/-- The double nearest to 0.29 is `5224175567749775 / 2^54`. -/
theorem fl_twenty_nine : fl ((29 : ℚ) / 100) = 5224175567749775 / 18014398509481984 := by
  have h := fl_eq ((29 : ℚ) / 100) (-2) 5224175567749775
    (by rw [abs_of_nonneg (by norm_num), zpow_neg]; norm_num)
    (by rw [abs_of_nonneg (by norm_num)]; norm_num [zpow_neg])
    (by norm_num [zpow_neg, abs_lt])
  rw [h]
  norm_num [zpow_neg]

/-- In doubles `29 / 100 * 100` is `28.999999999999996`, whose floor is 28. -/
theorem floor_twenty_nine_percent : ⌊fl (fl ((29 : ℚ) / 100) * ((100 : ℕ) : ℚ))⌋ = 28 := by
  have h := fl_eq (fl ((29 : ℚ) / 100) * ((100 : ℕ) : ℚ)) 4 8162774324609023
    (by rw [fl_twenty_nine, abs_of_nonneg (by norm_num)]; norm_num)
    (by rw [fl_twenty_nine, abs_of_nonneg (by norm_num)]; norm_num)
    (by rw [fl_twenty_nine]; norm_num [zpow_neg, abs_lt])
  rw [h, Int.floor_eq_iff]
  constructor <;> norm_num [zpow_neg]

/-- The rounded product is within `size / 2^51` of the exact one, so on a
lattice below `2^50` cells the two floors differ by at most one. -/
theorem activeCount_near (p : ℚ) (n : ℕ) (hn : n < 2 ^ 50) (hp0 : 0 ≤ p) (hp1 : p ≤ 100) :
    |⌊fl (fl (p / 100) * (n : ℚ))⌋ - ⌊p / 100 * (n : ℚ)⌋| ≤ 1 := by
  have ha0 : (0 : ℚ) ≤ p / 100 := by positivity
  have ha1 : p / 100 ≤ 1 := by rw [div_le_iff₀ (by norm_num)]; linarith
  have hn0 : (0 : ℚ) ≤ (n : ℚ) := by positivity
  have hnq : (n : ℚ) < 2 ^ 50 := by exact_mod_cast hn
  have e1 := abs_le.mp (fl_sub_le (p / 100))
  rw [abs_of_nonneg ha0] at e1
  have hb0 := fl_nonneg (p / 100) ha0
  have hx0 : (0 : ℚ) ≤ fl (p / 100) * (n : ℚ) := by positivity
  have e2 := abs_le.mp (fl_sub_le (fl (p / 100) * (n : ℚ)))
  rw [abs_of_nonneg hx0] at e2
  have h53 : ((2 : ℚ) ^ 53) = 9007199254740992 := by norm_num
  have h50 : ((2 : ℚ) ^ 50) = 1125899906842624 := by norm_num
  rw [h53] at e1 e2
  rw [h50] at hnq
  have hb1 : fl (p / 100) ≤ 1 + 1 / 9007199254740992 := by
    have : p / 100 / 9007199254740992 ≤ 1 / 9007199254740992 := by gcongr
    linarith [e1.2]
  have hd1 : |fl (p / 100) * (n : ℚ) - p / 100 * (n : ℚ)| ≤ (n : ℚ) / 9007199254740992 := by
    rw [← sub_mul, abs_mul, abs_of_nonneg hn0]
    have : |fl (p / 100) - p / 100| ≤ 1 / 9007199254740992 := by
      rw [abs_le]
      have : p / 100 / 9007199254740992 ≤ 1 / 9007199254740992 := by gcongr
      constructor <;> linarith [e1.1, e1.2]
    calc |fl (p / 100) - p / 100| * (n : ℚ) ≤ 1 / 9007199254740992 * (n : ℚ) := by gcongr
      _ = (n : ℚ) / 9007199254740992 := by ring
  have hx1 : fl (p / 100) * (n : ℚ) ≤ (1 + 1 / 9007199254740992) * (n : ℚ) := by gcongr
  have hd1b := abs_le.mp hd1
  have hclose : |fl (fl (p / 100) * (n : ℚ)) - p / 100 * (n : ℚ)| < 1 := by
    rw [abs_lt]
    constructor <;> linarith [e2.1, e2.2, hd1b.1, hd1b.2]
  have hc := abs_lt.mp hclose
  have f1 := Int.floor_le (fl (fl (p / 100) * (n : ℚ)))
  have f2 := Int.lt_floor_add_one (fl (fl (p / 100) * (n : ℚ)))
  have g1 := Int.floor_le (p / 100 * (n : ℚ))
  have g2 := Int.lt_floor_add_one (p / 100 * (n : ℚ))
  rw [abs_le]
  constructor
  · have : ((⌊p / 100 * (n : ℚ)⌋ - 2 : ℤ) : ℚ) < ((⌊fl (fl (p / 100) * (n : ℚ))⌋ : ℤ) : ℚ) := by
      push_cast; linarith
    have := Int.cast_lt.mp this
    omega
  · have : ((⌊fl (fl (p / 100) * (n : ℚ))⌋ : ℤ) : ℚ) < ((⌊p / 100 * (n : ℚ)⌋ + 2 : ℤ) : ℚ) := by
      push_cast; linarith
    have := Int.cast_lt.mp this
    omega

/-- The draw for `v = 2^32 - 1` and `max = 2^32 + 1`: the exact product
`2^32 - 2^-32` rounds up to `2^32`. -/
theorem fl_scale_top :
    fl (fl (((4294967295 : ℕ) : ℚ) / 4294967296) * ((4294967297 : ℕ) : ℚ)) = 4294967296 := by
  rw [fl_scale32 _ (by norm_num)]
  have h := fl_eq (((4294967295 : ℕ) : ℚ) / 4294967296 * ((4294967297 : ℕ) : ℚ)) 31
    9007199254740992
    (by rw [abs_of_nonneg (by norm_num)]; norm_num)
    (by rw [abs_of_nonneg (by norm_num)]; norm_num)
    (by norm_num [zpow_neg, abs_lt])
  rw [h]
  norm_num [zpow_neg]

/-! ### The lattice -/

/-- Counterexample to C4: on the default lattice of 100 cells `crystallize(29)`
returns `activeNodes = 28` for every entropy source and clock reading, while
`floor(29 / 100 * 100)` is 29: in doubles `29 / 100` is just below 0.29 and
the product `29 / 100 * 100` is `28.999999999999996`. -/
theorem crystallize_twenty_nine :
    (∀ (src : EntropySource) (now : Nat),
      ((QuantumLattice.new 100).crystallize src now 29).1.activeNodes = 28)
    ∧ ⌊(29 : ℚ) / 100 * (((QuantumLattice.new 100).size : ℕ) : ℚ)⌋ = 29 := by
  constructor
  · intro src now
    exact floor_twenty_nine_percent
  · show ⌊(29 : ℚ) / 100 * ((100 : ℕ) : ℚ)⌋ = 29
    rw [Int.floor_eq_iff]
    constructor <;> norm_num

/-- C4, amended: for `0 <= p <= 100` on a lattice of fewer than `2^50` cells,
`crystallize(p)` returns as `activeNodes` the floor of the double product
`(p / 100) * size`, whatever the entropy source yields; the count lies in
`[0, size]`, differs from `floor(p / 100 * size)` by at most one, is 0 at
`p = 0` and `size` at `p = 100`. -/
theorem crystallize_activeNodes (q : QuantumLattice) (src src2 : EntropySource) (now : Nat)
    (p : ℚ) (hsize : q.size < 2 ^ 50) (hp0 : 0 ≤ p) (hp1 : p ≤ 100) :
    (q.crystallize src now p).1.activeNodes = ⌊fl (fl (p / 100) * (q.size : ℚ))⌋
    ∧ (q.crystallize src now p).1.activeNodes = (q.crystallize src2 now p).1.activeNodes
    ∧ 0 ≤ (q.crystallize src now p).1.activeNodes
    ∧ (q.crystallize src now p).1.activeNodes ≤ (q.size : ℤ)
    ∧ |(q.crystallize src now p).1.activeNodes - ⌊p / 100 * (q.size : ℚ)⌋| ≤ 1
    ∧ (q.crystallize src now 0).1.activeNodes = 0
    ∧ (q.crystallize src now 100).1.activeNodes = (q.size : ℤ) := by
  have h53 : q.size < 2 ^ 53 := lt_trans hsize (by norm_num)
  exact ⟨rfl, rfl, activeCount_nonneg p q.size hp0, activeCount_le p q.size h53 hp0 hp1,
    activeCount_near p q.size hsize hp0 hp1, activeCount_zero q.size,
    activeCount_hundred q.size h53⟩

/-- Witness for C4: the module's 256-cell lattice crystallized at 15 percent
under two entropy sources. -/
theorem crystallize_activeNodes_witness :
    (QuantumLattice.new 256).size < 2 ^ 50 ∧ (0 : ℚ) ≤ 15 ∧ (15 : ℚ) ≤ 100
    ∧ ((QuantumLattice.new 256).crystallize zeroSource 0 15).1.activeNodes
        = ⌊fl (fl ((15 : ℚ) / 100) * (((QuantumLattice.new 256).size : ℕ) : ℚ))⌋
    ∧ 0 ≤ ((QuantumLattice.new 256).crystallize zeroSource 0 15).1.activeNodes
    ∧ ((QuantumLattice.new 256).crystallize zeroSource 0 15).1.activeNodes
        ≤ ((QuantumLattice.new 256).size : ℤ) :=
  have h := crystallize_activeNodes (QuantumLattice.new 256) zeroSource zeroSource 0 15
    (by show 256 < 2 ^ 50; norm_num) (by norm_num) (by norm_num)
  ⟨by show 256 < 2 ^ 50; norm_num, by norm_num, by norm_num, h.1, h.2.2.1, h.2.2.2.1⟩

theorem activate_length (indices : List Nat) (n : Nat) (m : List Nat) :
    ((List.range n).foldl
      (fun m i => match indices[i]? with
        | some k => m.set k 1
        | none => m) m).length = m.length := by
  induction n generalizing m with
  | zero => simp
  | succ n ih =>
    rw [List.range_succ, List.foldl_append]
    simp only [List.foldl_cons, List.foldl_nil]
    cases h : indices[n]? with
    | none => simpa using ih m
    | some k => simpa using ih m

/-- The matrix keeps its length through `crystallize`. -/
theorem crystallize_matrix_length (q : QuantumLattice) (src : EntropySource) (now : Nat) (p : ℚ) :
    (q.crystallize src now p).2.1.matrix.length = q.matrix.length := by
  simp [QuantumLattice.crystallize, QuantumLattice.activate, activate_length]

theorem weightedLattice_length (lattice : List Nat) (factors : List ℝ) :
    (weightedLattice lattice factors).length = lattice.length := by
  simp [weightedLattice]

/-- The coherence is a fraction of the lattice cells. -/
theorem coherence_range (q : QuantumLattice) (src : EntropySource) (now : Nat)
    (factors : List ℝ) (hq : 0 < q.matrix.length) :
    0 ≤ (generateQuantumDecision q src now factors).1.coherence
    ∧ (generateQuantumDecision q src now factors).1.coherence ≤ 1 := by
  have hlen : (q.crystallize src now 15).2.1.matrix.length = q.matrix.length :=
    crystallize_matrix_length q src now 15
  have hpos : (0 : ℝ) < ((q.crystallize src now 15).2.1.matrix.length : ℝ) := by
    rw [hlen]; exact_mod_cast hq
  have hcount : (((weightedLattice (q.crystallize src now 15).2.1.matrix factors).filter
      (fun v => decide (v > 0))).length : ℝ)
      ≤ ((q.crystallize src now 15).2.1.matrix.length : ℝ) := by
    have h1 := List.length_filter_le (fun v : ℝ => decide (v > 0))
      (weightedLattice (q.crystallize src now 15).2.1.matrix factors)
    rw [weightedLattice_length] at h1
    exact_mod_cast h1
  constructor
  · show 0 ≤ (_ : ℝ) / _
    positivity
  · show (_ : ℝ) / _ ≤ 1
    rw [div_le_one hpos]
    exact hcount

/-- C3: on a lattice with at least one cell (the module's has 256),
`generateQuantumDecision` returns, for every factor vector and every entropy
source, a coherence in [0,1], a threshold in [0.7, 0.9] and a confidence in
[0, 0.95], with `confidence = min(0.95, 1.5 * coherence)` and
`decisionThreshold = 0.7 + 0.2 * coherence`. -/
theorem generateQuantumDecision_bounds (q : QuantumLattice) (src : EntropySource) (now : Nat)
    (factors : List ℝ) (hq : 0 < q.matrix.length) :
    let d := (generateQuantumDecision q src now factors).1
    (0 ≤ d.coherence ∧ d.coherence ≤ 1)
    ∧ (0.7 ≤ d.decisionThreshold ∧ d.decisionThreshold ≤ 0.9)
    ∧ (0 ≤ d.confidence ∧ d.confidence ≤ 0.95)
    ∧ d.confidence = min 0.95 (1.5 * d.coherence)
    ∧ d.decisionThreshold = 0.7 + 0.2 * d.coherence := by
  intro d
  obtain ⟨hc0, hc1⟩ : 0 ≤ d.coherence ∧ d.coherence ≤ 1 := coherence_range q src now factors hq
  have hconf : d.confidence = min 0.95 (d.coherence * 1.5) := rfl
  have hthr : d.decisionThreshold = 0.7 + d.coherence * 0.2 := rfl
  refine ⟨⟨hc0, hc1⟩, ⟨?_, ?_⟩, ⟨?_, ?_⟩, ?_, ?_⟩
  · rw [hthr]; linarith
  · rw [hthr]; linarith
  · rw [hconf]; exact le_min (by norm_num) (by linarith)
  · rw [hconf]; exact min_le_left _ _
  · rw [hconf, mul_comm]
  · rw [hthr, mul_comm]

/-- Witness for C3: the module's 256-cell lattice, an all-zero entropy source
and a factor vector of a typical run. -/
theorem generateQuantumDecision_bounds_witness :
    0 < (QuantumLattice.new 256).matrix.length
    ∧ (let d := (generateQuantumDecision (QuantumLattice.new 256) zeroSource 946728000000
          [1, 0.5, 0.5, 1, 0.8]).1
       (0 ≤ d.coherence ∧ d.coherence ≤ 1)
       ∧ (0.7 ≤ d.decisionThreshold ∧ d.decisionThreshold ≤ 0.9)
       ∧ (0 ≤ d.confidence ∧ d.confidence ≤ 0.95)
       ∧ d.confidence = min 0.95 (1.5 * d.coherence)
       ∧ d.decisionThreshold = 0.7 + 0.2 * d.coherence) :=
  ⟨by simp only [QuantumLattice.new, List.length_replicate]; norm_num,
   generateQuantumDecision_bounds (QuantumLattice.new 256) zeroSource 946728000000
     [1, 0.5, 0.5, 1, 0.8] (by simp only [QuantumLattice.new, List.length_replicate]; norm_num)⟩

/-! ### Great-circle distance -/

theorem atan2_zero_one : atan2 0 1 = 0 := by
  have h : (⟨1, 0⟩ : ℂ) = 1 := by
    apply Complex.ext <;> simp
  simp [atan2, h]

/-- C8: the distance from a point to itself is 0. -/
theorem haversineDistance_self (lat lon : ℝ) : haversineDistance lat lon lat lon = 0 := by
  have ha : haversineA lat lon lat lon = 0 := by
    unfold haversineA
    simp only [sub_self, zero_mul, zero_div, Real.sin_zero, mul_zero, add_zero]
  unfold haversineDistance
  simp only [ha, Real.sqrt_zero, sub_zero, Real.sqrt_one, atan2_zero_one]
  norm_num

theorem atan2_nonneg_of_nonneg (y x : ℝ) (hy : 0 ≤ y) : 0 ≤ atan2 y x := by
  unfold atan2
  rw [Complex.arg_nonneg_iff]
  exact hy
/-! ### Degree normalisation and the azimuth -/

theorem jsMod_360_bounds (x : ℝ) : -360 < jsMod x 360 ∧ jsMod x 360 < 360 := by
  unfold jsMod jsTrunc
  by_cases h : 0 ≤ x / 360
  · rw [if_pos h]
    have h1 := Int.floor_le (x / 360)
    have h2 := Int.lt_floor_add_one (x / 360)
    have hx : 0 ≤ x := by
      have := mul_nonneg h (by norm_num : (0 : ℝ) ≤ 360)
      linarith [div_mul_cancel₀ x (by norm_num : (360 : ℝ) ≠ 0)]
    have e : x = x / 360 * 360 := by ring
    constructor <;> nlinarith
  · rw [if_neg h]
    have h1 := Int.le_ceil (x / 360)
    have h2 := Int.ceil_lt_add_one (x / 360)
    have e : x = x / 360 * 360 := by ring
    push_neg at h
    constructor <;> nlinarith

theorem jsMod_360_of_nonneg (x : ℝ) (hx : 0 ≤ x) :
    jsMod x 360 = x - 360 * (⌊x / 360⌋ : ℝ) := by
  unfold jsMod jsTrunc
  rw [if_pos (by positivity)]

theorem jsMod_360_congr (x : ℝ) : ∃ k : ℤ, jsMod x 360 = x + 360 * (k : ℝ) := by
  refine ⟨-jsTrunc (x / 360), ?_⟩
  unfold jsMod
  push_cast
  ring

theorem normalizeDegrees_range (d : ℝ) : 0 ≤ normalizeDegrees d ∧ normalizeDegrees d < 360 := by
  unfold normalizeDegrees
  have hb := jsMod_360_bounds d
  have hy : 0 ≤ jsMod d 360 + 360 := by linarith
  rw [jsMod_360_of_nonneg _ hy]
  have h1 := Int.floor_le ((jsMod d 360 + 360) / 360)
  have h2 := Int.lt_floor_add_one ((jsMod d 360 + 360) / 360)
  have e : jsMod d 360 + 360 = (jsMod d 360 + 360) / 360 * 360 := by ring
  constructor <;> nlinarith

theorem normalizeDegrees_congr (d : ℝ) : ∃ k : ℤ, normalizeDegrees d = d + 360 * (k : ℝ) := by
  unfold normalizeDegrees
  obtain ⟨k1, h1⟩ := jsMod_360_congr d
  obtain ⟨k2, h2⟩ := jsMod_360_congr (jsMod d 360 + 360)
  refine ⟨k1 + 1 + k2, ?_⟩
  rw [h2, h1]
  push_cast
  ring

theorem normalizeDegrees_eq (d : ℝ) : normalizeDegrees d = d - 360 * (⌊d / 360⌋ : ℝ) := by
  obtain ⟨k, hk⟩ := normalizeDegrees_congr d
  obtain ⟨h0, h1⟩ := normalizeDegrees_range d
  have hfl : ⌊d / 360⌋ = -k := by
    rw [Int.floor_eq_iff]
    push_cast
    constructor
    · rw [le_div_iff₀ (by norm_num : (0 : ℝ) < 360)]
      linarith
    · rw [div_lt_iff₀ (by norm_num : (0 : ℝ) < 360)]
      linarith
  rw [hk, hfl]
  push_cast
  ring

/-- C7: the azimuth returned by `calcSolarElevation` lies in [0, 360) for every
input, and `normalizeDegrees d` lies in [0, 360), differs from `d` by a whole
multiple of 360 and is `d - 360 * floor(d / 360)`, the one value of [0, 360)
congruent to `d`. -/
theorem calcSolarElevation_azimuth_range (lat lon : ℝ) (date : Date) (elevationM d : ℝ) :
    (0 ≤ (calcSolarElevation lat lon date elevationM).azimuth
      ∧ (calcSolarElevation lat lon date elevationM).azimuth < 360)
    ∧ (0 ≤ normalizeDegrees d ∧ normalizeDegrees d < 360)
    ∧ (∃ k : ℤ, normalizeDegrees d = d + 360 * (k : ℝ))
    ∧ normalizeDegrees d = d - 360 * (⌊d / 360⌋ : ℝ) :=
  ⟨normalizeDegrees_range _, normalizeDegrees_range d, normalizeDegrees_congr d,
    normalizeDegrees_eq d⟩

/-- Along a meridian the distance is the latitude difference in radians times
the Earth radius. -/
theorem haversineDistance_meridian (lat1 lat2 lon : ℝ) (h : |lat2 - lat1| ≤ 180) :
    haversineDistance lat1 lon lat2 lon = 6371 * (|lat2 - lat1| * Real.pi / 180) := by
  have hp := Real.pi_pos
  set u := (lat2 - lat1) * Real.pi / 180 / 2 with hu
  have hw : |u| = |lat2 - lat1| * Real.pi / 180 / 2 := by
    rw [hu, abs_div, abs_div, abs_mul, abs_of_pos hp]
    norm_num
  have hwle : |u| ≤ Real.pi / 2 := by rw [hw]; nlinarith
  have hw0 : 0 ≤ |u| := abs_nonneg u
  have ha : haversineA lat1 lon lat2 lon = Real.sin u ^ 2 := by
    unfold haversineA
    simp only [sub_self, zero_mul, zero_div, Real.sin_zero, mul_zero, add_zero]
    rw [← hu]; ring
  have hs : Real.sqrt (haversineA lat1 lon lat2 lon) = Real.sin |u| := by
    rw [ha, Real.sqrt_sq_eq_abs]
    rcases abs_cases u with ⟨e, _⟩ | ⟨e, hneg⟩
    · rw [e]
      apply abs_of_nonneg
      apply Real.sin_nonneg_of_nonneg_of_le_pi <;> linarith [e ▸ hw0, e ▸ hwle]
    · rw [e, Real.sin_neg]
      have : Real.sin u ≤ 0 := by
        apply Real.sin_nonpos_of_nonnpos_of_neg_pi_le <;> linarith [e ▸ hw0, e ▸ hwle]
      rw [abs_of_nonpos this]
  have hc : Real.sqrt (1 - haversineA lat1 lon lat2 lon) = Real.cos |u| := by
    rw [ha, ← Real.abs_cos_eq_sqrt_one_sub_sin_sq, Real.cos_abs]
    apply abs_of_nonneg
    apply Real.cos_nonneg_of_neg_pi_div_two_le_of_le
    · linarith [(abs_le.mp hwle).1]
    · linarith [(abs_le.mp hwle).2]
  have harg : atan2 (Real.sin |u|) (Real.cos |u|) = |u| := by
    unfold atan2
    have hz : (⟨Real.cos |u|, Real.sin |u|⟩ : ℂ)
        = Complex.cos (|u| : ℝ) + Complex.sin (|u| : ℝ) * Complex.I := by
      apply Complex.ext
      · simp [← Complex.ofReal_cos, ← Complex.ofReal_sin]
      · simp [← Complex.ofReal_cos, ← Complex.ofReal_sin]
    rw [hz]
    apply Complex.arg_cos_add_sin_mul_I
    constructor <;> linarith
  unfold haversineDistance
  simp only
  rw [hs, hc, harg, hw]
  ring

/-! ### The sun over the north pole at J2000.0 -/

theorem julianCentury_epoch : getJulianCentury (toJulian epochJ2000) = 0 := by
  unfold getJulianCentury toJulian epochJ2000 JULIAN_EPOCH_2000 JULIAN_CENTURY
  norm_num

theorem obliquity_epoch_bounds :
    23.43 ≤ calcObliquityCorrection 0 ∧ calcObliquityCorrection 0 ≤ 23.45 := by
  unfold calcObliquityCorrection calcMeanObliquityEcliptic
  have h1 := Real.cos_le_one (toRadians (125.04 - 1934.136 * 0))
  have h2 := Real.neg_one_le_cos (toRadians (125.04 - 1934.136 * 0))
  constructor
  · norm_num at h1 h2 ⊢; linarith
  · norm_num at h1 h2 ⊢; linarith

theorem geomMeanLong_epoch : calcGeomMeanLongSun 0 = 280.4664567 := by
  unfold calcGeomMeanLongSun
  simp only [zero_mul, mul_zero, add_zero]
  rw [normalizeDegrees_eq]
  have hfl : ⌊(280.4664567 : ℝ) / 360⌋ = 0 := by
    rw [Int.floor_eq_iff]
    constructor <;> norm_num
  rw [hfl]
  norm_num

theorem eqOfCenter_epoch_bounds (m : ℝ) :
    -1.934884 ≤ calcSunEqOfCenter 0 m ∧ calcSunEqOfCenter 0 m ≤ 1.934884 := by
  unfold calcSunEqOfCenter
  have a1 := Real.sin_le_one (toRadians m)
  have a2 := Real.neg_one_le_sin (toRadians m)
  have b1 := Real.sin_le_one (2 * toRadians m)
  have b2 := Real.neg_one_le_sin (2 * toRadians m)
  have c1 := Real.sin_le_one (3 * toRadians m)
  have c2 := Real.neg_one_le_sin (3 * toRadians m)
  constructor
  · norm_num; linarith
  · norm_num; linarith

theorem apparentLongitude_epoch_bounds :
    278.52 ≤ apparentLongitude 0 ∧ apparentLongitude 0 ≤ 282.41 := by
  unfold apparentLongitude
  have hc := eqOfCenter_epoch_bounds (calcGeomMeanAnomalySun 0)
  have s1 := Real.sin_le_one (toRadians (125.04 - 1934.136 * 0))
  have s2 := Real.neg_one_le_sin (toRadians (125.04 - 1934.136 * 0))
  simp only [geomMeanLong_epoch]
  constructor
  · norm_num at s1 s2 ⊢; linarith [hc.1]
  · norm_num at s1 s2 ⊢; linarith [hc.2]

theorem sin_obliquity_bounds (ε : ℝ) (h1 : 23.43 ≤ ε) (h2 : ε ≤ 23.45) :
    0.39 ≤ Real.sin (toRadians ε) ∧ Real.sin (toRadians ε) ≤ 1
    ∧ 0 < toRadians ε ∧ toRadians ε ≤ 0.41 := by
  have p1 := Real.pi_gt_d6
  have p2 := Real.pi_lt_d6
  have hx1 : 0.4089 ≤ toRadians ε := by unfold toRadians; nlinarith
  have hx2 : toRadians ε ≤ 0.4093 := by unfold toRadians; nlinarith
  have hpos : 0 < toRadians ε := by linarith
  have hcube : toRadians ε ^ 3 ≤ 0.4093 ^ 3 := pow_le_pow_left₀ hpos.le hx2 3
  have hs := Real.sin_gt_sub_cube hpos (by linarith)
  refine ⟨?_, Real.sin_le_one _, hpos, by linarith⟩
  norm_num at hcube
  linarith

theorem sin_longitude_bounds (l : ℝ) (h1 : 278.52 ≤ l) (h2 : l ≤ 282.41) :
    -1 ≤ Real.sin (toRadians l) ∧ Real.sin (toRadians l) ≤ -0.97 := by
  have p1 := Real.pi_gt_d6
  have p2 := Real.pi_lt_d6
  set y := (l - 270) * Real.pi / 180 with hy
  have e : toRadians l = y + Real.pi / 2 + Real.pi := by unfold toRadians; rw [hy]; ring
  have hsin : Real.sin (toRadians l) = -Real.cos y := by
    rw [e, Real.sin_add_pi, Real.sin_add_pi_div_two]
  have hy0 : 0 ≤ y := by rw [hy]; nlinarith
  have hy1 : y ≤ 0.2167 := by rw [hy]; nlinarith
  have hc := @Real.one_sub_sq_div_two_le_cos y
  have hsq : y ^ 2 ≤ 0.2167 ^ 2 := pow_le_pow_left₀ hy0 hy1 2
  refine ⟨Real.neg_one_le_sin _, ?_⟩
  rw [hsin]
  norm_num at hsq
  linarith

/-- The declination at the epoch lies between -23.45 and -21 degrees, and its
sine is at most -0.37. -/
theorem declination_epoch_bounds :
    -23.45 ≤ calcSolarDeclination (apparentLongitude 0) (calcObliquityCorrection 0)
    ∧ calcSolarDeclination (apparentLongitude 0) (calcObliquityCorrection 0) ≤ -21
    ∧ Real.sin (toRadians (calcSolarDeclination (apparentLongitude 0) (calcObliquityCorrection 0)))
        ≤ -0.37
    ∧ -1 ≤ Real.sin (toRadians
        (calcSolarDeclination (apparentLongitude 0) (calcObliquityCorrection 0))) := by
  have p1 := Real.pi_gt_d6
  have p2 := Real.pi_lt_d6
  have hp := Real.pi_pos
  obtain ⟨e1, e2⟩ := obliquity_epoch_bounds
  obtain ⟨l1, l2⟩ := apparentLongitude_epoch_bounds
  obtain ⟨s1, s2, x0, x1⟩ := sin_obliquity_bounds _ e1 e2
  obtain ⟨t1, t2⟩ := sin_longitude_bounds _ l1 l2
  set se := Real.sin (toRadians (calcObliquityCorrection 0)) with hse
  set sl := Real.sin (toRadians (apparentLongitude 0)) with hsl
  have hprod_hi : se * sl ≤ -0.37 := by nlinarith
  have hprod_lo : -se ≤ se * sl := by nlinarith
  have hprod_ge : -1 ≤ se * sl := by linarith
  have hprod_le : se * sl ≤ 1 := by linarith
  have hdec : calcSolarDeclination (apparentLongitude 0) (calcObliquityCorrection 0)
      = toDegrees (Real.arcsin (se * sl)) := rfl
  have hsinarc : Real.sin (Real.arcsin (se * sl)) = se * sl := Real.sin_arcsin hprod_ge hprod_le
  have hrt : toRadians (toDegrees (Real.arcsin (se * sl))) = Real.arcsin (se * sl) := by
    unfold toRadians toDegrees; field_simp
  -- the arcsine is at most its argument on [-1, 0]
  have harc_hi : Real.arcsin (se * sl) ≤ -0.37 := by
    have hneg : Real.arcsin (se * sl) ≤ 0 := Real.arcsin_nonpos.mpr (by linarith)
    by_contra hcon
    push_neg at hcon
    have hlt : Real.sin (-0.37) < Real.sin (Real.arcsin (se * sl)) := by
      apply Real.sin_lt_sin_of_lt_of_le_pi_div_two
      · linarith
      · linarith
      · exact hcon
    have hs37 : -0.37 ≤ Real.sin (-(0.37 : ℝ)) := by
      rw [Real.sin_neg]
      have := Real.sin_lt (by norm_num : (0 : ℝ) < 0.37)
      linarith
    rw [hsinarc] at hlt
    linarith
  have harc_lo : -toRadians (calcObliquityCorrection 0) ≤ Real.arcsin (se * sl) := by
    have hmono := Real.monotone_arcsin hprod_lo
    rw [hse, ← Real.sin_neg, Real.arcsin_sin (by linarith) (by linarith)] at hmono
    exact hmono
  refine ⟨?_, ?_, ?_, ?_⟩
  · rw [hdec]
    unfold toDegrees
    rw [le_div_iff₀ hp]
    have : -toRadians (calcObliquityCorrection 0) = -(calcObliquityCorrection 0 * Real.pi / 180) := rfl
    rw [this] at harc_lo
    nlinarith
  · rw [hdec]
    unfold toDegrees
    rw [div_le_iff₀ hp]
    nlinarith
  · rw [hdec, hrt, hsinarc]; exact hprod_hi
  · rw [hdec, hrt, hsinarc]; exact hprod_ge

theorem toDegrees_toRadians (x : ℝ) : toDegrees (toRadians x) = x := by
  unfold toRadians toDegrees
  field_simp

/-- At latitude 90 the geocentric elevation is the declination. -/
theorem elGeocentric_pole (dec ha : ℝ) (h : |dec| ≤ 90) : elGeocentric 90 dec ha = dec := by
  have hp := Real.pi_pos
  have h90 : toRadians 90 = Real.pi / 2 := by unfold toRadians; ring
  have hb := abs_le.mp h
  have hr1 : -(Real.pi / 2) ≤ toRadians dec := by unfold toRadians; nlinarith
  have hr2 : toRadians dec ≤ Real.pi / 2 := by unfold toRadians; nlinarith
  unfold elGeocentric
  simp only [h90, Real.sin_pi_div_two, Real.cos_pi_div_two, one_mul, zero_mul, add_zero]
  rw [min_eq_right (Real.sin_le_one _), max_eq_right (Real.neg_one_le_sin _),
    Real.arcsin_sin hr1 hr2, toDegrees_toRadians]

theorem refraction_of_le (elGeo : ℝ) (h : elGeo ≤ -0.575) : refraction elGeo = 0 := by
  unfold refraction
  rw [if_neg (not_lt.mpr h)]

theorem heightCorrection_zero : heightCorrection 0 = 0 := by
  unfold heightCorrection
  simp

theorem heightCorrection_aloft : 114 ≤ heightCorrection 13000 := by
  have p2 := Real.pi_lt_d6
  have hp := Real.pi_pos
  unfold heightCorrection EARTH_RADIUS_KM
  have hs : (2 : ℝ) ≤ Real.sqrt (2 * 13000 / 6371.0) := by
    rw [Real.le_sqrt' (by norm_num)]
    norm_num
  rw [le_div_iff₀ hp]
  nlinarith

/-- The elevation returned at the pole at the epoch, for any longitude and
observer height: the declination, no refraction, the parallax term and the
height correction. -/
theorem calcSolarElevation_pole_epoch (lon elevationM : ℝ) :
    (calcSolarElevation 90 lon Scenario.epochJ2000 elevationM).elevation
      = calcSolarDeclination (apparentLongitude 0) (calcObliquityCorrection 0)
        - parallax (calcSolarDeclination (apparentLongitude 0) (calcObliquityCorrection 0)) 0
        + heightCorrection elevationM := by
  obtain ⟨d1, d2, _, _⟩ := declination_epoch_bounds
  have habs : |calcSolarDeclination (apparentLongitude 0) (calcObliquityCorrection 0)| ≤ 90 := by
    rw [abs_le]; constructor <;> linarith
  unfold calcSolarElevation
  simp only [julianCentury_epoch]
  rw [elGeocentric_pole _ _ habs, refraction_of_le _ (by linarith)]
  ring

/-- The parallax term at the pole at the epoch is negative and tiny. -/
theorem parallax_pole_epoch :
    -0.000001 ≤ parallax (calcSolarDeclination (apparentLongitude 0) (calcObliquityCorrection 0)) 0
    ∧ parallax (calcSolarDeclination (apparentLongitude 0) (calcObliquityCorrection 0)) 0 ≤ 0 := by
  obtain ⟨_, _, s1, s2⟩ := declination_epoch_bounds
  unfold parallax ASTRONOMICAL_UNIT_KM
  rw [add_zero]
  set s := Real.sin (toRadians (calcSolarDeclination (apparentLongitude 0)
    (calcObliquityCorrection 0))) with hs
  have hneg : s < 0 := by linarith
  constructor
  · rw [le_div_iff_of_neg hneg]
    norm_num
    nlinarith
  · apply div_nonpos_of_nonneg_of_nonpos
    · norm_num
    · exact hneg.le

/-! ### The range of the solar elevation -/

/-- C6, failing run: for an observer 13 km above the north pole at
2000-01-01 12:00 UTC (latitude 90, longitude 0, elevation 13000 m >= 0) the
returned elevation is not in [-90, 90]: the observer-height correction
`sqrt(2 * elevationM / EARTH_RADIUS_KM)` divides metres by kilometres and adds
more than 114 degrees to a geocentric elevation of about -23 degrees. -/
theorem calcSolarElevation_elevation_above_90 :
    (-90 ≤ poleFixAloft.latitude ∧ poleFixAloft.latitude ≤ 90)
    ∧ (-180 ≤ poleFixAloft.longitude ∧ poleFixAloft.longitude ≤ 180)
    ∧ 0 ≤ poleFixAloft.altitude
    ∧ ¬ (-90 ≤ (calcSolarElevation poleFixAloft.latitude poleFixAloft.longitude epochJ2000
            poleFixAloft.altitude).elevation
          ∧ (calcSolarElevation poleFixAloft.latitude poleFixAloft.longitude epochJ2000
            poleFixAloft.altitude).elevation ≤ 90) := by
  refine ⟨⟨by norm_num [poleFixAloft], by norm_num [poleFixAloft]⟩,
    ⟨by norm_num [poleFixAloft], by norm_num [poleFixAloft]⟩, by norm_num [poleFixAloft], ?_⟩
  have h := calcSolarElevation_pole_epoch 0 13000
  obtain ⟨d1, _, _, _⟩ := declination_epoch_bounds
  obtain ⟨_, q2⟩ := parallax_pole_epoch
  have hc := heightCorrection_aloft
  have e : (calcSolarElevation poleFixAloft.latitude poleFixAloft.longitude epochJ2000
      poleFixAloft.altitude).elevation = (calcSolarElevation 90 0 epochJ2000 13000).elevation := rfl
  rw [e, h]
  intro hcon
  linarith [hcon.2]

/-! ### How many cells a crystallization can light -/

theorem countP_set_le (p : Nat → Bool) (l : List Nat) (k v : Nat) :
    (l.set k v).countP p ≤ l.countP p + 1 := by
  induction l generalizing k with
  | nil => simp
  | cons a t ih =>
    cases k with
    | zero =>
      simp only [List.set_cons_zero, List.countP_cons]
      split <;> split <;> omega
    | succ k =>
      simp only [List.set_cons_succ, List.countP_cons]
      have := ih k
      omega

theorem activate_countP_le (p : Nat → Bool) (indices : List Nat) (n : Nat) (m : List Nat) :
    ((List.range n).foldl
      (fun m i => match indices[i]? with
        | some k => m.set k 1
        | none => m) m).countP p ≤ m.countP p + n := by
  induction n with
  | zero => simp
  | succ n ih =>
    rw [List.range_succ, List.foldl_append]
    simp only [List.foldl_cons, List.foldl_nil]
    cases h : indices[n]? with
    | none => simp only; omega
    | some k =>
      simp only
      have := countP_set_le p ((List.range n).foldl
        (fun m i => match indices[i]? with
          | some k => m.set k 1
          | none => m) m) k 1
      omega

/-- After `crystallize(p)` at most `activeNodes` cells are non-zero. -/
theorem crystallize_nonzero_le (q : QuantumLattice) (src : EntropySource) (now : Nat) (p : ℚ) :
    (q.crystallize src now p).2.1.matrix.countP (fun x => x != 0)
      ≤ (⌊fl (fl (p / 100) * (q.size : ℚ))⌋).toNat := by
  unfold QuantumLattice.crystallize QuantumLattice.activate
  simp only
  have h := activate_countP_le (fun x => x != 0)
    (QuantumLattice.shuffle (q.size - 1)
      (List.range q.size, q.rng.harvestEntropy (src 0), fun n => src (n + 1))).1
    (⌊fl (fl (p / 100) * (q.size : ℚ))⌋).toNat (List.replicate q.matrix.length 0)
  have h0 : (List.replicate q.matrix.length 0).countP (fun x => x != 0) = 0 := by
    rw [List.countP_replicate]; simp
  omega

theorem weightedLattice_positive_le (lattice : List Nat) (factors : List ℝ) :
    ((weightedLattice lattice factors).filter (fun v => decide (v > 0))).length
      ≤ lattice.countP (fun x => x != 0) := by
  rw [← List.countP_eq_length_filter]
  unfold weightedLattice
  rw [List.countP_map]
  have h : lattice.countP (fun x => x != 0)
      = lattice.enum.countP ((fun x => x != 0) ∘ Prod.snd) := by
    rw [← List.countP_map, List.enum_map_snd]
  rw [h]
  apply List.countP_mono_left
  intro e _ he
  simp only [Function.comp, decide_eq_true_eq, gt_iff_lt] at he
  simp only [Function.comp, bne_iff_ne, ne_eq]
  intro h0
  rw [h0] at he
  simp at he

/-- On a 256-cell lattice the coherence is at most 38/256, the confidence at
most 57/256 and never negative, and the threshold at least 0.7. -/
theorem generateQuantumDecision_256 (q : QuantumLattice) (src : EntropySource) (now : Nat)
    (factors : List ℝ) (hsize : q.size = 256) (hlen : q.matrix.length = 256) :
    (generateQuantumDecision q src now factors).1.coherence ≤ 38 / 256
    ∧ 0 ≤ (generateQuantumDecision q src now factors).1.confidence
    ∧ (generateQuantumDecision q src now factors).1.confidence ≤ 57 / 256
    ∧ 0.7 ≤ (generateQuantumDecision q src now factors).1.decisionThreshold := by
  obtain ⟨c0, _⟩ := coherence_range q src now factors (by omega)
  have hconf : (generateQuantumDecision q src now factors).1.confidence
      = min 0.95 ((generateQuantumDecision q src now factors).1.coherence * 1.5) := rfl
  have hthr : (generateQuantumDecision q src now factors).1.decisionThreshold
      = 0.7 + (generateQuantumDecision q src now factors).1.coherence * 0.2 := rfl
  have f0 : 0 ≤ (generateQuantumDecision q src now factors).1.confidence := by
    rw [hconf]; exact le_min (by norm_num) (by linarith)
  have t0 : 0.7 ≤ (generateQuantumDecision q src now factors).1.decisionThreshold := by
    rw [hthr]; linarith
  have hl : (q.crystallize src now 15).2.1.matrix.length = 256 := by
    rw [crystallize_matrix_length, hlen]
  have hn := crystallize_nonzero_le q src now 15
  rw [hsize, floor_fifteen_percent] at hn
  have hw := weightedLattice_positive_le (q.crystallize src now 15).2.1.matrix factors
  have hcoh : (generateQuantumDecision q src now factors).1.coherence ≤ 38 / 256 := by
    show ((_ : ℕ) : ℝ) / ((_ : ℕ) : ℝ) ≤ 38 / 256
    rw [hl]
    have h38 : (((weightedLattice (q.crystallize src now 15).2.1.matrix factors).filter
        (fun v => decide (v > 0))).length : ℝ) ≤ 38 := by
      exact_mod_cast le_trans hw hn
    push_cast
    linarith
  refine ⟨hcoh, f0, ?_, t0⟩
  rw [hconf]
  calc min 0.95 ((generateQuantumDecision q src now factors).1.coherence * 1.5)
      ≤ (generateQuantumDecision q src now factors).1.coherence * 1.5 := min_le_right _ _
    _ ≤ 57 / 256 := by linarith

/-! ### Bounds on the factor scores -/

theorem sum_sq_nonneg (v : List ℝ) : 0 ≤ (v.map (fun val => val * val)).sum := by
  induction v with
  | nil => simp
  | cons a t ih =>
    simp only [List.map_cons, List.sum_cons]
    nlinarith [mul_self_nonneg a]

/-- Cauchy-Schwarz for the dot product over the common prefix of two lists. -/
theorem dot_sq_le (a b : List ℝ) :
    (List.zipWith (fun val other => val * other) a b).sum ^ 2
      ≤ (a.map (fun val => val * val)).sum * (b.map (fun val => val * val)).sum := by
  induction a generalizing b with
  | nil =>
    simp only [List.zipWith_nil_left, List.sum_nil, List.map_nil, zero_mul]
    norm_num
  | cons x a ih =>
    cases b with
    | nil =>
      simp only [List.zipWith_nil_right, List.sum_nil, List.map_nil, mul_zero]
      norm_num
    | cons y b =>
      simp only [List.zipWith_cons_cons, List.sum_cons, List.map_cons]
      have hA := sum_sq_nonneg a
      have hB := sum_sq_nonneg b
      have hS := ih b
      set S := (List.zipWith (fun val other => val * other) a b).sum
      set A := (a.map (fun val => val * val)).sum
      set B := (b.map (fun val => val * val)).sum
      have hcross : 2 * (x * y) * S ≤ x * x * B + y * y * A := by
        have hnn : 0 ≤ x * x * B + y * y * A :=
          add_nonneg (mul_nonneg (mul_self_nonneg x) hB) (mul_nonneg (mul_self_nonneg y) hA)
        have hsq : (2 * (x * y) * S) ^ 2 ≤ (x * x * B + y * y * A) ^ 2 := by
          have h1 : (2 * (x * y) * S) ^ 2 = 4 * (x * x) * (y * y) * S ^ 2 := by ring
          have h2 : 4 * (x * x) * (y * y) * S ^ 2 ≤ 4 * (x * x) * (y * y) * (A * B) := by
            apply mul_le_mul_of_nonneg_left hS
            exact mul_nonneg (mul_nonneg (by norm_num) (mul_self_nonneg x)) (mul_self_nonneg y)
          nlinarith [sq_nonneg (x * x * B - y * y * A)]
        exact le_trans (le_abs_self _) (abs_le_of_sq_le_sq hsq hnn)
      nlinarith

theorem cosineSimilarity_le_one (a b : List ℝ) : cosineSimilarity a b ≤ 1 := by
  unfold cosineSimilarity cosineDot cosineNorm
  set S := (List.zipWith (fun val other => val * other) a b).sum
  set A := (a.map (fun val => val * val)).sum
  set B := (b.map (fun val => val * val)).sum
  have hA : 0 ≤ A := sum_sq_nonneg a
  have hB : 0 ≤ B := sum_sq_nonneg b
  have hS : S ^ 2 ≤ A * B := dot_sq_le a b
  have hmul : Real.sqrt A * Real.sqrt B = Real.sqrt (A * B) := (Real.sqrt_mul hA B).symm
  rw [hmul]
  have hle : S ≤ Real.sqrt (A * B) := le_trans (le_abs_self S) (Real.abs_le_sqrt hS)
  rcases (Real.sqrt_nonneg (A * B)).eq_or_lt with h0 | hpos
  · rw [← h0, div_zero]; norm_num
  · rw [div_le_one hpos]; exact hle

theorem neuralScore_le_one (md : Module) (anchor : Anchor) (img : Option (List Nat)) :
    neuralScore md anchor img ≤ 1 := by
  unfold neuralScore
  split
  · split
    · split
      · exact cosineSimilarity_le_one _ _
      · norm_num
    · norm_num
  · norm_num

theorem calculateSolarScore_le_one (anchorSolar : AnchorSolar) (currentSolar : SolarPosition)
    (hours : Fin 24) (minutes : Fin 60) :
    calculateSolarScore anchorSolar currentSolar hours minutes ≤ 1 := by
  unfold calculateSolarScore
  simp only
  have h1 : max 0 (1 - |anchorSolar.elevation - currentSolar.elevation| / 15) ≤ 1 := by
    apply max_le (by norm_num)
    have := abs_nonneg (anchorSolar.elevation - currentSolar.elevation)
    linarith [div_nonneg this (by norm_num : (0 : ℝ) ≤ 15)]
  have h2 : (if anchorSolar.isDaylight = currentSolar.isDaylight then (1.0 : ℝ) else 0.5) ≤ 1 := by
    split <;> norm_num
  have h3 : 0 ≤ |((hours : ℕ) : ℝ) * 60 + ((minutes : ℕ) : ℝ) - 720| / 720 :=
    div_nonneg (abs_nonneg _) (by norm_num)
  linarith

theorem calculateLightingScore_le_one (cfg : Config) (anchorLighting : AnchorLighting)
    (currentLighting : LightingProfile) (currentSolar : SolarPosition) (s : ℝ)
    (h : calculateLightingScore cfg anchorLighting currentLighting currentSolar = some s) :
    s ≤ 1 := by
  unfold calculateLightingScore at h
  simp only at h
  split at h
  · simp only [Option.some.injEq] at h
    rw [← h]
    exact le_trans (min_le_left _ _) (by norm_num)
  · exact absurd h (by simp)

theorem haversineDistance_nonneg (lat1 lon1 lat2 lon2 : ℝ) :
    0 ≤ haversineDistance lat1 lon1 lat2 lon2 := by
  unfold haversineDistance
  have := atan2_nonneg_of_nonneg (Real.sqrt (haversineA lat1 lon1 lat2 lon2))
    (Real.sqrt (1 - haversineA lat1 lon1 lat2 lon2)) (Real.sqrt_nonneg _)
  simp only
  nlinarith

/-- The fusion step on a 256-cell lattice: with every factor at most 1 the
final score is at most 57/256, while the threshold is at least 0.7. -/
theorem fusion_score_le (q : QuantumLattice) (src : EntropySource) (now : Nat)
    (scores : Scores) (hsize : q.size = 256) (hlen : q.matrix.length = 256)
    (h1 : scores.location ≤ 1) (h2 : scores.solar ≤ 1) (h3 : scores.lighting ≤ 1)
    (h4 : scores.neural ≤ 1) (h5 : scores.time ≤ 1) :
    min 1.0 (weightedAverage scores * (generateQuantumDecision q src now scores.values).1.confidence)
      ≤ 57 / 256
    ∧ 0.7 ≤ (generateQuantumDecision q src now scores.values).1.decisionThreshold := by
  obtain ⟨_, c0, c1, t0⟩ := generateQuantumDecision_256 q src now scores.values hsize hlen
  have hw : weightedAverage scores ≤ 1 := by unfold weightedAverage; linarith
  set c := (generateQuantumDecision q src now scores.values).1.confidence
  have hprod : weightedAverage scores * c ≤ 57 / 256 := by
    by_cases hneg : weightedAverage scores ≤ 0
    · have : weightedAverage scores * c ≤ 0 := mul_nonpos_of_nonpos_of_nonneg hneg c0
      linarith
    · push_neg at hneg
      nlinarith
  exact ⟨le_trans (min_le_right _ _) hprod, t0⟩

theorem fusion_below_threshold (q : QuantumLattice) (src : EntropySource) (now : Nat)
    (scores : Scores) (hsize : q.size = 256) (hlen : q.matrix.length = 256)
    (h1 : scores.location ≤ 1) (h2 : scores.solar ≤ 1) (h3 : scores.lighting ≤ 1)
    (h4 : scores.neural ≤ 1) (h5 : scores.time ≤ 1) :
    min 1.0 (weightedAverage scores * (generateQuantumDecision q src now scores.values).1.confidence)
      < (generateQuantumDecision q src now scores.values).1.decisionThreshold := by
  obtain ⟨hs, ht⟩ := fusion_score_le q src now scores hsize hlen h1 h2 h3 h4 h5
  calc _ ≤ (57 : ℝ) / 256 := hs
    _ < 0.7 := by norm_num
    _ ≤ _ := ht

theorem verifyScores_le_one (md : Module) (env : VerifyEnv) (anchor : Anchor)
    (currentGPS : GeoFix) (distance lighting : ℝ) (hd : 0 ≤ distance)
    (hr : distance ≤ md.config.geoFenceRadius) (hl : lighting ≤ 1) :
    (verifyScores md env anchor currentGPS distance lighting).location ≤ 1
    ∧ (verifyScores md env anchor currentGPS distance lighting).solar ≤ 1
    ∧ (verifyScores md env anchor currentGPS distance lighting).lighting ≤ 1
    ∧ (verifyScores md env anchor currentGPS distance lighting).neural ≤ 1
    ∧ (verifyScores md env anchor currentGPS distance lighting).time ≤ 1 := by
  refine ⟨?_, calculateSolarScore_le_one _ _ _ _, hl, neuralScore_le_one _ _ _, ?_⟩
  · show max 0 (1 - distance / md.config.geoFenceRadius) ≤ 1
    apply max_le (by norm_num)
    linarith [div_nonneg hd (le_trans hd hr)]
  · unfold verifyScores
    simp only
    split <;> norm_num

/-- With a 256-cell lattice `verifyEnhanced` does not return `success = true`,
in the real-number reading, where every factor score is a number at most 1
(a `NaN` or infinite cosine similarity is outside this reading). -/
theorem verifyEnhanced_rejects (md : Module) (src : EntropySource) (env : VerifyEnv)
    (hsize : md.quantumLattice.size = 256) (hlen : md.quantumLattice.matrix.length = 256) :
    (verifyEnhanced md src env).1.success = false := by
  unfold verifyEnhanced
  split
  · rfl
  · split
    · rfl
    · split
      · rfl
      · split
        · rfl
        · split
          · rfl
          · rename_i currentGPS _ _ anchor _ hfar _ lighting hl
            obtain ⟨h1, h2, h3, h4, h5⟩ := verifyScores_le_one md env anchor currentGPS _ lighting
              (haversineDistance_nonneg _ _ _ _) (not_lt.mp hfar)
              (calculateLightingScore_le_one _ _ _ _ _ hl)
            have hf := fusion_below_threshold md.quantumLattice src env.latticeAt _ hsize hlen
              h1 h2 h3 h4 h5
            unfold verifyFusion
            simp only [decide_eq_false_iff_not, not_le, ge_iff_le]
            exact hf

/-- Past the geofence and the lighting score, `verifyEnhanced` is the fusion
step on the first stored anchor. -/
theorem verifyEnhanced_eq_fusion (md : Module) (src : EntropySource) (env : VerifyEnv)
    (first : Template) (rest : List Template) (anchor : Anchor) (currentGPS : GeoFix)
    (lighting : ℝ)
    (hst : md.storage.getTemplates "sbta" = first :: rest)
    (hdata : first.data = TemplateData.anchor anchor)
    (hgps : env.gps = Except.ok currentGPS)
    (hnear : ¬ haversineDistance currentGPS.latitude currentGPS.longitude
      anchor.gps.latitude anchor.gps.longitude > md.config.geoFenceRadius)
    (hl : calculateLightingScore md.config anchor.lighting (analyzeLighting env.image)
      (calcSolarElevation currentGPS.latitude currentGPS.longitude env.solarAt
        currentGPS.altitude) = some lighting) :
    verifyEnhanced md src env
      = verifyFusion md src env anchor currentGPS
          (haversineDistance currentGPS.latitude currentGPS.longitude
            anchor.gps.latitude anchor.gps.longitude) lighting := by
  unfold verifyEnhanced
  rw [hst]
  simp only [hdata, hgps]
  rw [if_neg hnear]
  simp only [hl]

/-! ### A successful enrollment -/

theorem calibrateSamples_ok (env : CalibrateEnv)
    (h : ∀ i, ∃ g, (env.sample i).gps = Except.ok g) (n : Nat) :
    ∃ l, calibrateSamples env n = Except.ok l := by
  induction n with
  | zero => exact ⟨[], rfl⟩
  | succ n ih =>
    obtain ⟨l, hl⟩ := ih
    obtain ⟨g, hg⟩ := h n
    unfold calibrateSamples
    rw [hl]
    simp only [hg]
    exact ⟨_, rfl⟩

theorem calibrate_ok (md : Module) (env : CalibrateEnv) (samples : Nat)
    (h : ∀ i, ∃ g, (env.sample i).gps = Except.ok g) :
    ∃ c md2, calibrate md env samples = (Except.ok c, md2)
      ∧ md2.storage = md.storage ∧ md2.quantumLattice = md.quantumLattice
      ∧ md2.ai = md.ai ∧ md2.config = md.config := by
  obtain ⟨l, hl⟩ := calibrateSamples_ok env h samples
  unfold calibrate
  simp only [hl]
  exact ⟨_, _, rfl, rfl, rfl, rfl, rfl⟩

/-- When the fix is accurate enough, the validity checks pass and the GPS keeps
answering during calibration, `enrollEnhanced` returns the anchor built from its
readings and stores it. -/
theorem enrollEnhanced_ok (md : Module) (src : EntropySource) (env : EnrollEnv) (gps : GeoFix)
    (hgps : env.gps = Except.ok gps) (hacc : ¬ gps.accuracy > 50)
    (hval : (validateEnrollmentConditions gps (analyzeLighting env.image)
      (calcSolarElevation gps.latitude gps.longitude env.solarAt gps.altitude)).isValid = true)
    (hcal : ∀ i, ∃ g, (env.calibration.sample i).gps = Except.ok g) :
    ∃ r, (enrollEnhanced md src env).1 = Except.ok r
      ∧ r.success = true
      ∧ r.anchor = makeAnchor env gps (analyzeLighting env.image)
          (calcSolarElevation gps.latitude gps.longitude env.solarAt gps.altitude)
          (enrollEmbedding md env.image) (md.quantumLattice.crystallize src env.latticeAt 15).1
      ∧ (enrollEnhanced md src env).2.1.storage
          = md.storage.saveTemplate "sbta" (TemplateData.anchor r.anchor) env.savedAt
      ∧ (enrollEnhanced md src env).2.1.quantumLattice
          = (md.quantumLattice.crystallize src env.latticeAt 15).2.1
      ∧ (enrollEnhanced md src env).2.1.ai = md.ai
      ∧ (enrollEnhanced md src env).2.1.config = md.config := by
  unfold enrollEnhanced
  simp only [hgps]
  rw [if_neg hacc]
  simp only [hval, Bool.not_true, Bool.false_eq_true, if_false]
  obtain ⟨c, md2, hc, h1, h2, h3, h4⟩ := calibrate_ok
    { md with
      quantumLattice := (md.quantumLattice.crystallize src env.latticeAt 15).2.1,
      storage := md.storage.saveTemplate "sbta" (TemplateData.anchor
        (makeAnchor env gps (analyzeLighting env.image)
          (calcSolarElevation gps.latitude gps.longitude env.solarAt gps.altitude)
          (enrollEmbedding md env.image) (md.quantumLattice.crystallize src env.latticeAt 15).1))
        env.savedAt }
    env.calibration md.config.calibrationSamples hcal
  rw [hc]
  exact ⟨_, rfl, rfl, rfl, h1, h2, h3, h4⟩

/-! ### Enrolling and verifying at the pole -/

theorem sampleIndices_pixel (r g b a : Nat) : sampleIndices [r, g, b, a] = [0] := by
  have h : sampleStep [r, g, b, a] = 1 := by
    unfold sampleStep
    norm_num
  unfold sampleIndices
  rw [h]
  rfl

theorem colorIndices_pixel (r g b a : Nat) : colorIndices [r, g, b, a] = [0] := by
  rfl

theorem analyzeLighting_gray :
    analyzeLighting (some grayFrame)
      = { luminance := 100, variance := 0, stdDev := some 0, isUniform := false,
          colorBalance := some { r := 1 / 3, g := 1 / 3, b := 1 / 3 }, isArtificial := false,
          confidence := some 0.9 } := by
  unfold analyzeLighting grayFrame
  simp only [sampleIndices_pixel, colorIndices_pixel]
  have hl : luminanceAt [100, 100, 100, 255] 0 = 100 := by
    simp [luminanceAt]; norm_num
  simp only [List.map_cons, List.map_nil, List.sum_cons, List.sum_nil, hl, add_zero]
  norm_num

theorem analyzeLighting_white :
    analyzeLighting (some whiteFrame)
      = { luminance := 255, variance := 0, stdDev := some 0, isUniform := true,
          colorBalance := some { r := 1 / 3, g := 1 / 3, b := 1 / 3 }, isArtificial := false,
          confidence := some 0.3 } := by
  unfold analyzeLighting whiteFrame
  simp only [sampleIndices_pixel, colorIndices_pixel]
  have hl : luminanceAt [255, 255, 255, 255] 0 = 255 := by
    simp [luminanceAt]; norm_num
  simp only [List.map_cons, List.map_nil, List.sum_cons, List.sum_nil, hl, add_zero]
  norm_num

/-- The sun seen from the pole at sea level at the epoch: between 23.45 and 20.9
degrees below the horizon, so it is not daylight. -/
theorem solar_pole_sea_level :
    -23.45 ≤ (calcSolarElevation 90 0 epochJ2000 0).elevation
    ∧ (calcSolarElevation 90 0 epochJ2000 0).elevation ≤ -20.9
    ∧ (calcSolarElevation 90 0 epochJ2000 0).isDaylight = false := by
  have h := calcSolarElevation_pole_epoch 0 0
  obtain ⟨d1, d2, _, _⟩ := declination_epoch_bounds
  obtain ⟨q1, q2⟩ := parallax_pole_epoch
  rw [heightCorrection_zero] at h
  have hlo : -23.45 ≤ (calcSolarElevation 90 0 epochJ2000 0).elevation := by rw [h]; linarith
  have hhi : (calcSolarElevation 90 0 epochJ2000 0).elevation ≤ -20.9 := by rw [h]; linarith
  refine ⟨hlo, hhi, ?_⟩
  show decide ((calcSolarElevation 90 0 epochJ2000 0).elevation > -0.833) = false
  rw [decide_eq_false_iff_not]
  intro hc
  linarith

theorem validation_pole :
    (validateEnrollmentConditions poleFix (analyzeLighting (some grayFrame))
      (calcSolarElevation 90 0 epochJ2000 0)).isValid = true := by
  obtain ⟨e1, e2, e3⟩ := solar_pole_sea_level
  have habs : ¬ |(calcSolarElevation 90 0 epochJ2000 0).elevation| > 90 := by
    rw [not_lt, abs_le]; constructor <;> linarith
  unfold validateEnrollmentConditions
  rw [analyzeLighting_gray]
  simp only [e3, habs, poleFix]
  norm_num

/-! ### The lattice under an all-zero entropy source -/


theorem harvest_zero (h : EntropyHarvester) :
    h.harvestEntropy zeroInput
      = { entropyPool := List.replicate h.entropyPool.length 0, poolCursor := 0 } := by
  unfold EntropyHarvester.harvestEntropy zeroInput
  simp only [Nat.zero_mod]
  congr 1
  apply List.ext_getElem
  · simp
  · intro i h1 h2
    simp

theorem replicate_getD_zero (n i : Nat) : (List.replicate n 0).getD i 0 = 0 := by
  rw [List.getD_eq_getElem?_getD]
  by_cases hi : i < n
  · simp [List.getElem?_replicate, hi]
  · simp [List.getElem?_replicate, hi]

theorem val32_zero : EntropyHarvester.val32 0 0 0 0 = 0 := by
  simp [EntropyHarvester.val32]

theorem nextInteger_zero (h : EntropyHarvester) (max : Nat)
    (hz : ∀ i, h.entropyPool.getD i 0 = 0) :
    (h.nextInteger zeroSource max).1 = 0
    ∧ (∀ i, (h.nextInteger zeroSource max).2.1.entropyPool.getD i 0 = 0)
    ∧ (h.nextInteger zeroSource max).2.2 = zeroSource := by
  unfold EntropyHarvester.nextInteger
  by_cases hr : h.needsRefresh = true
  · rw [if_pos hr]
    have hs : zeroSource 0 = zeroInput := rfl
    rw [hs, harvest_zero]
    refine ⟨?_, ?_, rfl⟩
    · simp only [replicate_getD_zero, val32_zero]
      simp [fl_zero]
    · intro i
      exact replicate_getD_zero _ i
  · rw [if_neg hr]
    refine ⟨?_, ?_, rfl⟩
    · simp only [hz, val32_zero]
      simp [fl_zero]
    · intro i
      exact hz i

theorem swap_getElem?_other (a : List Nat) (i j k : Nat) (hi : k ≠ i) (hj : k ≠ j) :
    (QuantumLattice.swap a i j)[k]? = a[k]? := by
  unfold QuantumLattice.swap
  split
  · rw [List.getElem?_set_ne (Ne.symm hj), List.getElem?_set_ne (Ne.symm hi)]
  · rfl

theorem swap_length (a : List Nat) (i j : Nat) : (QuantumLattice.swap a i j).length = a.length := by
  unfold QuantumLattice.swap
  split <;> simp

theorem swap_one_zero (a : List Nat) (h : 1 < a.length) :
    (QuantumLattice.swap a 1 0)[0]? = a[1]? := by
  unfold QuantumLattice.swap
  have h1 : a[1]? = some a[1] := List.getElem?_eq_getElem h
  have h0 : a[0]? = some a[0] := List.getElem?_eq_getElem (by omega)
  rw [h1, h0]
  simp only
  rw [List.getElem?_set_self (by simp; omega)]

/-- With an all-zero entropy source every draw is 0, and the shuffle leaves
what stood at position 1 at position 0. -/
theorem shuffle_zero_head (i : Nat) (indices : List Nat) (h : EntropyHarvester)
    (hz : ∀ k, h.entropyPool.getD k 0 = 0) (hi : 0 < i) (hlen : i < indices.length) :
    (QuantumLattice.shuffle i (indices, h, zeroSource)).1[0]? = indices[1]? := by
  induction i generalizing indices h with
  | zero => omega
  | succ i ih =>
    obtain ⟨h1, h2, h3⟩ := nextInteger_zero h (i + 2) hz
    unfold QuantumLattice.shuffle
    simp only [h1, h3]
    rcases Nat.eq_zero_or_pos i with h0 | hpos
    · subst h0
      unfold QuantumLattice.shuffle
      exact swap_one_zero indices hlen
    · rw [ih _ _ h2 hpos (by rw [swap_length]; omega)]
      exact swap_getElem?_other indices (i + 1) 0 1 (by omega) (by omega)

theorem activate_step_keeps (indices : List Nat) (k : Nat) (l : List Nat) (m : List Nat)
    (hm : m[k]? = some 1) :
    (l.foldl
      (fun m i => match indices[i]? with
        | some j => m.set j 1
        | none => m) m)[k]? = some 1 := by
  induction l generalizing m with
  | nil => exact hm
  | cons i t ih =>
    simp only [List.foldl_cons]
    apply ih
    cases hidx : indices[i]? with
    | none => exact hm
    | some j =>
      simp only
      by_cases hjk : j = k
      · subst hjk
        have hlt : j < m.length := by
          by_contra hcon
          rw [List.getElem?_eq_none (by omega)] at hm
          exact absurd hm (by simp)
        rw [List.getElem?_set_self hlt]
      · rw [List.getElem?_set_ne hjk]
        exact hm

/-- The cell named by the first shuffled index is lit when at least one cell is. -/
theorem activate_first (matrix indices : List Nat) (n : Int) (k : Nat) (hn : 0 < n)
    (hk : indices[0]? = some k) (hlt : k < matrix.length) :
    (QuantumLattice.activate matrix indices n)[k]? = some 1 := by
  unfold QuantumLattice.activate
  obtain ⟨n', hn'⟩ : ∃ n', n.toNat = n' + 1 := ⟨n.toNat - 1, by omega⟩
  rw [hn', List.range_succ_eq_map, List.foldl_cons]
  apply activate_step_keeps
  simp only [hk]
  rw [List.getElem?_set_self hlt]

/-- On the module's 256-cell lattice an all-zero entropy source lights cell 1. -/
theorem crystallize_zero_cell_one (now : Nat) :
    ((QuantumLattice.new 256).crystallize zeroSource now 15).2.1.matrix[1]? = some 1 := by
  unfold QuantumLattice.crystallize
  simp only
  have hs : zeroSource 0 = zeroInput := rfl
  have hsrc : (fun n => zeroSource (n + 1)) = zeroSource := rfl
  have hsz : (QuantumLattice.new 256).size = 256 := rfl
  have hml : (QuantumLattice.new 256).matrix.length = 256 := by
    show (List.replicate 256 0).length = 256
    rw [List.length_replicate]
  rw [hs, hsrc, harvest_zero, hsz, hml, floor_fifteen]
  apply activate_first
  · norm_num
  · rw [shuffle_zero_head _ _ _ (fun k => replicate_getD_zero _ k) (by norm_num)
      (by rw [List.length_range]; norm_num)]
    rw [List.getElem?_range (by norm_num)]
  · rw [List.length_replicate]; norm_num

/-! ### Verification right after enrollment -/

theorem cosineSimilarity_unit : cosineSimilarity [1, 0] [1, 0] = 1 := by
  unfold cosineSimilarity cosineDot cosineNorm
  simp

theorem enroll_pole :
    ∃ r, (enrollEnhanced freshModule zeroSource enrollEnv).1 = Except.ok r
      ∧ r.success = true
      ∧ r.anchor = makeAnchor enrollEnv poleFix (analyzeLighting (some grayFrame))
          (calcSolarElevation 90 0 epochJ2000 0)
          (some [1, 0]) (freshModule.quantumLattice.crystallize zeroSource 946728000000 15).1
      ∧ (enrollEnhanced freshModule zeroSource enrollEnv).2.1.storage
          = [{ mode := "sbta", data := TemplateData.anchor r.anchor, timestamp := 946728000000 }]
      ∧ (enrollEnhanced freshModule zeroSource enrollEnv).2.1.quantumLattice
          = (freshModule.quantumLattice.crystallize zeroSource 946728000000 15).2.1
      ∧ (enrollEnhanced freshModule zeroSource enrollEnv).2.1.ai = some unitEngine
      ∧ (enrollEnhanced freshModule zeroSource enrollEnv).2.1.config = Config.default := by
  obtain ⟨r, h1, h2, h3, h4, h5, h6, h7⟩ := enrollEnhanced_ok freshModule zeroSource enrollEnv
    poleFix rfl (by norm_num [poleFix]) validation_pole (fun _ => ⟨poleFix, rfl⟩)
  exact ⟨r, h1, h2, h3, h4, h5, h6, h7⟩


/-- C1, failing run: an enrollment at the pole succeeds; the verification that
follows at once with the same fix, instant, frame and embedding reaches the
fusion step with location score 1 and neural score 1, and is rejected: its
score is at most 57/256 while the threshold is at least 0.7. -/
theorem verify_after_enroll_rejected :
    ∃ r, (enrollEnhanced freshModule zeroSource enrollEnv).1 = Except.ok r
      ∧ r.success = true
      ∧ (verifyEnhanced (enrollEnhanced freshModule zeroSource enrollEnv).2.1
          (enrollEnhanced freshModule zeroSource enrollEnv).2.2 verifyEnv).1.error = none
      ∧ (∃ s, (verifyEnhanced (enrollEnhanced freshModule zeroSource enrollEnv).2.1
          (enrollEnhanced freshModule zeroSource enrollEnv).2.2 verifyEnv).1.scores = some s
          ∧ s.location = 1 ∧ s.neural = 1)
      ∧ (verifyEnhanced (enrollEnhanced freshModule zeroSource enrollEnv).2.1
          (enrollEnhanced freshModule zeroSource enrollEnv).2.2 verifyEnv).1.score ≤ 57 / 256
      ∧ (∃ qd, (verifyEnhanced (enrollEnhanced freshModule zeroSource enrollEnv).2.1
          (enrollEnhanced freshModule zeroSource enrollEnv).2.2 verifyEnv).1.quantum = some qd
          ∧ 0.7 ≤ qd.decisionThreshold)
      ∧ (verifyEnhanced (enrollEnhanced freshModule zeroSource enrollEnv).2.1
          (enrollEnhanced freshModule zeroSource enrollEnv).2.2 verifyEnv).1.success = false := by
  obtain ⟨r, h1, h2, h3, h4, h5, h6, h7⟩ := enroll_pole
  obtain ⟨_, _, hday⟩ := solar_pole_sea_level
  set md1 := (enrollEnhanced freshModule zeroSource enrollEnv).2.1 with hmd1
  set src1 := (enrollEnhanced freshModule zeroSource enrollEnv).2.2 with hsrc1
  have hst : md1.storage.getTemplates "sbta"
      = [{ mode := "sbta", data := TemplateData.anchor r.anchor, timestamp := 946728000000 }] := by
    rw [h4]; simp [Storage.getTemplates]
  have hlat : r.anchor.gps.latitude = 90 := by rw [h3]; rfl
  have hlon : r.anchor.gps.longitude = 0 := by rw [h3]; rfl
  have hdist : haversineDistance poleFix.latitude poleFix.longitude
      r.anchor.gps.latitude r.anchor.gps.longitude = 0 := by
    rw [hlat, hlon]
    show haversineDistance (90 : ℝ) 0 90 0 = 0
    rw [haversineDistance_meridian 90 90 0 (by norm_num)]
    norm_num
  have hnear : ¬ haversineDistance poleFix.latitude poleFix.longitude
      r.anchor.gps.latitude r.anchor.gps.longitude > md1.config.geoFenceRadius := by
    rw [hdist, h7]; norm_num [Config.default]
  have hl : calculateLightingScore md1.config r.anchor.lighting (analyzeLighting verifyEnv.image)
      (calcSolarElevation poleFix.latitude poleFix.longitude verifyEnv.solarAt poleFix.altitude)
      = some 0.7 := by
    have hcb : r.anchor.lighting.colorBalance = some { r := 1 / 3, g := 1 / 3, b := 1 / 3 } := by
      rw [h3]; show (analyzeLighting (some grayFrame)).colorBalance = _
      rw [analyzeLighting_gray]
    have hsol : (calcSolarElevation poleFix.latitude poleFix.longitude verifyEnv.solarAt
        poleFix.altitude).isDaylight = false := hday
    have himg : analyzeLighting verifyEnv.image = analyzeLighting (some grayFrame) := rfl
    unfold calculateLightingScore
    rw [himg, analyzeLighting_gray, h7]
    simp only [hcb, hsol, Config.default]
    norm_num
  have hv := verifyEnhanced_eq_fusion md1 src1 verifyEnv _ [] r.anchor poleFix 0.7 hst rfl rfl
    hnear hl
  have hsize : md1.quantumLattice.size = 256 := by rw [h5]; rfl
  have hlen : md1.quantumLattice.matrix.length = 256 := by
    rw [h5, crystallize_matrix_length]
    show (List.replicate 256 0).length = 256
    rw [List.length_replicate]
  have hd0 : (0 : ℝ) ≤ haversineDistance poleFix.latitude poleFix.longitude
      r.anchor.gps.latitude r.anchor.gps.longitude := haversineDistance_nonneg _ _ _ _
  obtain ⟨s1, s2, s3, s4, s5⟩ := verifyScores_le_one md1 verifyEnv r.anchor poleFix _ 0.7 hd0
    (not_lt.mp hnear) (by norm_num)
  obtain ⟨f1, f2⟩ := fusion_score_le md1.quantumLattice src1 verifyEnv.latticeAt _ hsize hlen
    s1 s2 s3 s4 s5
  refine ⟨r, h1, h2, ?_, ?_, ?_, ?_, verifyEnhanced_rejects md1 src1 verifyEnv hsize hlen⟩
  · rw [hv]; rfl
  · rw [hv]
    refine ⟨_, rfl, ?_, ?_⟩
    · show max 0 (1 - haversineDistance poleFix.latitude poleFix.longitude
        r.anchor.gps.latitude r.anchor.gps.longitude / md1.config.geoFenceRadius) = 1
      rw [hdist]; norm_num
    · show neuralScore md1 r.anchor verifyEnv.image = 1
      have hnv : r.anchor.neuralVector = some [1, 0] := by rw [h3]; rfl
      unfold neuralScore
      rw [h6, hnv, h7]
      simp only [Config.default, unitEngine, NeuralEngine.getEmbedding, verifyEnv]
      simp [cosineSimilarity_unit]
  · rw [hv]; exact f1
  · rw [hv]; exact ⟨_, rfl, f2⟩

/-! ### A verification with opposite embeddings -/

theorem weighted_positive_of_cell (lattice : List Nat) (factors : List ℝ) (k : Nat)
    (hk : lattice[k]? = some 1) (hf : 0 < factors.getD (k % factors.length) 0) :
    0 < ((weightedLattice lattice factors).filter (fun v => decide (v > 0))).length := by
  apply List.length_pos_of_mem (a := ((1 : ℕ) : ℝ) * factors.getD (k % factors.length) 0)
  rw [List.mem_filter]
  constructor
  · apply List.getElem?_mem (n := k)
    unfold weightedLattice
    rw [List.getElem?_map, List.getElem?_enum, hk]
    rfl
  · simp only [Nat.cast_one, one_mul, gt_iff_lt, decide_eq_true_eq]
    exact hf

theorem cosineSimilarity_opposite : cosineSimilarity [1, 0] [-1, 0] = -1 := by
  unfold cosineSimilarity cosineDot cosineNorm
  simp

/-- The distance from the pole to the summer anchor: just under 99 m. -/
theorem winter_distance :
    0.09896 ≤ haversineDistance poleFix.latitude poleFix.longitude
      summerAnchor.gps.latitude summerAnchor.gps.longitude
    ∧ haversineDistance poleFix.latitude poleFix.longitude
      summerAnchor.gps.latitude summerAnchor.gps.longitude < 0.09897 := by
  have p1 := Real.pi_gt_d6
  have p2 := Real.pi_lt_d6
  have h : haversineDistance (90 : ℝ) 0 89.99911 0 = 6371 * (|(89.99911 : ℝ) - 90| * Real.pi / 180) :=
    haversineDistance_meridian 90 89.99911 0 (by rw [abs_le]; constructor <;> norm_num)
  have habs : |(89.99911 : ℝ) - 90| = 0.00089 := by
    rw [abs_of_nonpos] <;> norm_num
  show 0.09896 ≤ haversineDistance (90 : ℝ) 0 89.99911 0
    ∧ haversineDistance (90 : ℝ) 0 89.99911 0 < 0.09897
  rw [h, habs]
  constructor <;> nlinarith

theorem winter_lighting :
    calculateLightingScore summerModule.config summerAnchor.lighting
      (analyzeLighting winterEnv.image)
      (calcSolarElevation poleFix.latitude poleFix.longitude winterEnv.solarAt poleFix.altitude)
      = some 0.21 := by
  obtain ⟨_, _, hday⟩ := solar_pole_sea_level
  have hsol : (calcSolarElevation poleFix.latitude poleFix.longitude winterEnv.solarAt
      poleFix.altitude).isDaylight = false := hday
  have himg : analyzeLighting winterEnv.image = analyzeLighting (some whiteFrame) := rfl
  unfold calculateLightingScore
  rw [himg, analyzeLighting_white]
  simp only [hsol, summerModule, Module.new, Config.default, summerAnchor]
  norm_num
  rw [abs_of_pos (by norm_num : (0 : ℝ) < 7 / 15), abs_of_pos (by norm_num : (0 : ℝ) < 17 / 60),
    abs_of_pos (by norm_num : (0 : ℝ) < 11 / 60), max_eq_left (by norm_num),
    min_eq_right (by norm_num)]
  norm_num

theorem winter_eq_fusion :
    verifyEnhanced summerModule zeroSource winterEnv
      = verifyFusion summerModule zeroSource winterEnv summerAnchor poleFix
          (haversineDistance poleFix.latitude poleFix.longitude
            summerAnchor.gps.latitude summerAnchor.gps.longitude) 0.21 := by
  apply verifyEnhanced_eq_fusion summerModule zeroSource winterEnv
    { mode := "sbta", data := TemplateData.anchor summerAnchor, timestamp := 961588800000 } []
    summerAnchor poleFix 0.21
  · simp [summerModule, Module.new, Storage.getTemplates]
  · rfl
  · rfl
  · have h := winter_distance.2
    have hr : summerModule.config.geoFenceRadius = 0.1 := rfl
    rw [hr]
    intro hc
    linarith
  · exact winter_lighting

/-- The factor scores of the winter run. -/
theorem winter_scores :
    let s := verifyScores summerModule winterEnv summerAnchor poleFix
      (haversineDistance poleFix.latitude poleFix.longitude
        summerAnchor.gps.latitude summerAnchor.gps.longitude) 0.21
    (0 < s.location ∧ s.location ≤ 0.0104) ∧ s.solar = 0.15 ∧ s.lighting = 0.21
    ∧ s.neural = -1 ∧ s.time = 0.8 := by
  intro s
  obtain ⟨d1, d2⟩ := winter_distance
  obtain ⟨e1, e2, hday⟩ := solar_pole_sea_level
  refine ⟨?_, ?_, rfl, ?_, ?_⟩
  · show 0 < max 0 (1 - haversineDistance poleFix.latitude poleFix.longitude
        summerAnchor.gps.latitude summerAnchor.gps.longitude / summerModule.config.geoFenceRadius)
      ∧ max 0 (1 - haversineDistance poleFix.latitude poleFix.longitude
        summerAnchor.gps.latitude summerAnchor.gps.longitude / summerModule.config.geoFenceRadius)
        ≤ 0.0104
    have hr : summerModule.config.geoFenceRadius = 0.1 := rfl
    rw [hr]
    set d := haversineDistance poleFix.latitude poleFix.longitude
      summerAnchor.gps.latitude summerAnchor.gps.longitude
    have hq : d / 0.1 = d * 10 := by ring
    rw [hq]
    constructor
    · apply lt_max_of_lt_right; linarith
    · apply max_le <;> linarith
  · show calculateSolarScore summerAnchor.solar
      (calcSolarElevation 90 0 epochJ2000 0) (0 : Fin 24) (0 : Fin 60) = 0.15
    unfold calculateSolarScore
    have hel : summerAnchor.solar.elevation = 20 := rfl
    have hdl : summerAnchor.solar.isDaylight = true := rfl
    rw [hel, hdl, hday]
    have hdiff : |(20 : ℝ) - (calcSolarElevation 90 0 epochJ2000 0).elevation|
        = 20 - (calcSolarElevation 90 0 epochJ2000 0).elevation := abs_of_nonneg (by linarith)
    simp only [hdiff]
    rw [max_eq_left (by linarith)]
    norm_num
  · show neuralScore summerModule summerAnchor winterEnv.image = -1
    unfold neuralScore
    simp only [summerModule, Module.new, summerAnchor, Config.default, unitEngine,
      NeuralEngine.getEmbedding, winterEnv]
    simp [cosineSimilarity_opposite]
  · show (if (validateSystemTime summerModule.config winterEnv.timeCheckAt
        winterEnv.networkTime).isSynchronized then (1.0 : ℝ) else 0.8) = 0.8
    simp [validateSystemTime, winterEnv]


/-- The winter run reaches the fusion step with a negative weighted average and
a positive confidence multiplier. -/
theorem winter_run :
    (verifyEnhanced summerModule zeroSource winterEnv).1.error = none
    ∧ ∃ s qd, (verifyEnhanced summerModule zeroSource winterEnv).1.scores = some s
      ∧ (verifyEnhanced summerModule zeroSource winterEnv).1.quantum = some qd
      ∧ (verifyEnhanced summerModule zeroSource winterEnv).1.score
          = min 1.0 (weightedAverage s * qd.confidence)
      ∧ weightedAverage s < -0.02
      ∧ 0 < qd.confidence ∧ qd.confidence ≤ 0.95 := by
  rw [winter_eq_fusion]
  refine ⟨rfl, _, _, rfl, rfl, rfl, ?_, ?_, ?_⟩
  · obtain ⟨⟨_, l2⟩, h2, h3, h4, h5⟩ := winter_scores
    unfold weightedAverage
    rw [h2, h3, h4, h5]
    linarith
  · obtain ⟨_, h2, _, _, _⟩ := winter_scores
    have hcell := crystallize_zero_cell_one winterEnv.latticeAt
    have hq : summerModule.quantumLattice = QuantumLattice.new 256 := rfl
    have hpos := weighted_positive_of_cell
      ((QuantumLattice.new 256).crystallize zeroSource winterEnv.latticeAt 15).2.1.matrix
      (verifyScores summerModule winterEnv summerAnchor poleFix
        (haversineDistance poleFix.latitude poleFix.longitude
          summerAnchor.gps.latitude summerAnchor.gps.longitude) 0.21).values 1 hcell
      (by
        show 0 < (verifyScores summerModule winterEnv summerAnchor poleFix
          (haversineDistance poleFix.latitude poleFix.longitude
            summerAnchor.gps.latitude summerAnchor.gps.longitude) 0.21).solar
        rw [h2]; norm_num)
    have hlen : (((QuantumLattice.new 256).crystallize zeroSource winterEnv.latticeAt 15).2.1.matrix.length
        : ℝ) = 256 := by
      rw [crystallize_matrix_length]
      show (((List.replicate 256 0).length : ℕ) : ℝ) = 256
      rw [List.length_replicate]; norm_num
    rw [hq]
    show 0 < min (0.95 : ℝ) (((_ : ℕ) : ℝ) / ((_ : ℕ) : ℝ) * 1.5)
    rw [hlen]
    apply lt_min (by norm_num)
    exact mul_pos (div_pos (Nat.cast_pos.mpr hpos) (by norm_num)) (by norm_num)
  · exact min_le_left _ _

/-- C2, failing run: a verification that reaches the fusion step (inside the
geofence, embeddings `[1, 0]` against `[-1, 0]`) returns a negative score. -/
theorem verifyEnhanced_negative_score :
    (verifyEnhanced summerModule zeroSource winterEnv).1.error = none
    ∧ (verifyEnhanced summerModule zeroSource winterEnv).1.score < 0 := by
  obtain ⟨he, s, qd, _, _, hs, hw, hc, _⟩ := winter_run
  refine ⟨he, ?_⟩
  rw [hs]
  have : weightedAverage s * qd.confidence < 0 := mul_neg_of_neg_of_pos (by linarith) hc
  exact lt_of_le_of_lt (min_le_right _ _) this

/-- C5, failing run: in the winter run the score is
`min(1, weightedAverage * confidence)` as stated, but the weighted average is
negative and the bound `0 <= score <= 0.95 * weightedAverage` does not hold. -/
theorem verifyEnhanced_bound_fails :
    ∃ s qd, (verifyEnhanced summerModule zeroSource winterEnv).1.scores = some s
      ∧ (verifyEnhanced summerModule zeroSource winterEnv).1.quantum = some qd
      ∧ (verifyEnhanced summerModule zeroSource winterEnv).1.score
          = min 1.0 (weightedAverage s * qd.confidence)
      ∧ weightedAverage s < 0
      ∧ ¬ (0 ≤ (verifyEnhanced summerModule zeroSource winterEnv).1.score
          ∧ (verifyEnhanced summerModule zeroSource winterEnv).1.score
            ≤ 0.95 * weightedAverage s) := by
  obtain ⟨_, s, qd, h1, h2, hs, hw, hc, _⟩ := winter_run
  refine ⟨s, qd, h1, h2, hs, by linarith, ?_⟩
  rintro ⟨h0, _⟩
  rw [hs] at h0
  have : weightedAverage s * qd.confidence < 0 := mul_neg_of_neg_of_pos (by linarith) hc
  linarith [min_le_right (1.0 : ℝ) (weightedAverage s * qd.confidence)]

/-! ### Bounded draws from the entropy pool -/

theorem val32_eq (b1 b2 b3 b4 : Nat) (h1 : b1 < 256) (h2 : b2 < 256) (h3 : b3 < 256)
    (h4 : b4 < 256) :
    EntropyHarvester.val32 b1 b2 b3 b4 = b1 * 2 ^ 24 + b2 * 2 ^ 16 + b3 * 2 ^ 8 + b4
    ∧ EntropyHarvester.val32 b1 b2 b3 b4 < 2 ^ 32 := by
  have e1 : 2 ^ 8 * b3 + b4 = 2 ^ 8 * b3 ||| b4 := Nat.mul_add_lt_is_or (by omega) b3
  have e2 : 2 ^ 16 * b2 + (2 ^ 8 * b3 + b4) = 2 ^ 16 * b2 ||| (2 ^ 8 * b3 + b4) :=
    Nat.mul_add_lt_is_or (by omega) b2
  have e3 : 2 ^ 24 * b1 + (2 ^ 16 * b2 + (2 ^ 8 * b3 + b4))
      = 2 ^ 24 * b1 ||| (2 ^ 16 * b2 + (2 ^ 8 * b3 + b4)) :=
    Nat.mul_add_lt_is_or (by omega) b1
  have hor : (b1 <<< 24) ||| (b2 <<< 16) ||| (b3 <<< 8) ||| b4
      = b1 * 2 ^ 24 + b2 * 2 ^ 16 + b3 * 2 ^ 8 + b4 := by
    rw [Nat.shiftLeft_eq, Nat.shiftLeft_eq, Nat.shiftLeft_eq, Nat.or_assoc, Nat.or_assoc,
      Nat.mul_comm b3, ← e1, Nat.mul_comm b2, ← e2, Nat.mul_comm b1, ← e3]
    omega
  have hlt : b1 * 2 ^ 24 + b2 * 2 ^ 16 + b3 * 2 ^ 8 + b4 < 2 ^ 32 := by omega
  unfold EntropyHarvester.val32
  rw [hor]
  have h32 : (4294967296 : Nat) = 2 ^ 32 := by norm_num
  rw [h32, Nat.mod_eq_of_lt hlt]
  exact ⟨rfl, hlt⟩

theorem getD_lt_of_forall_mem (l : List Nat) (hl : ∀ x ∈ l, x < 256) (i : Nat) :
    l.getD i 0 < 256 := by
  rw [List.getD_eq_getElem?_getD]
  cases h : l[i]? with
  | none => simp
  | some x => exact hl x (List.getElem?_mem h)

theorem forall_mem_of_getD_lt (l : List Nat) (hl : ∀ i, l.getD i 0 < 256) :
    ∀ x ∈ l, x < 256 := by
  intro x hx
  obtain ⟨i, hi⟩ := List.mem_iff_getElem?.mp hx
  have := hl i
  rw [List.getD_eq_getElem?_getD, hi] at this
  exact this

theorem set_bytes (l : List Nat) (hl : ∀ x ∈ l, x < 256) (i v : Nat) (hv : v < 256) :
    ∀ x ∈ l.set i v, x < 256 := by
  intro x hx
  rcases List.mem_or_eq_of_mem_set hx with h | h
  · exact hl x h
  · rw [h]; exact hv

theorem xor_byte (a b : Nat) (ha : a < 256) (hb : b < 256) : Nat.xor a b < 256 := by
  have h : a ^^^ b < 2 ^ 8 := Nat.xor_lt_two_pow (by omega) (by omega)
  exact h

theorem mixTilt_bytes (pool : List Nat) (noise : Int) (hl : ∀ x ∈ pool, x < 256) :
    ∀ x ∈ EntropyHarvester.mixTilt pool noise, x < 256 := by
  unfold EntropyHarvester.mixTilt
  simp only
  have h0 := set_bytes pool hl 0 _ (xor_byte _ _ (getD_lt_of_forall_mem pool hl 0)
    (by omega : (noise % 256).toNat < 256))
  have h1 := set_bytes _ h0 1 _ (xor_byte _ _ (getD_lt_of_forall_mem _ h0 1)
    (by omega : ((noise / 256) % 256).toNat < 256))
  exact set_bytes _ h1 2 _ (xor_byte _ _ (getD_lt_of_forall_mem _ h1 2)
    (by omega : ((noise / 65536) % 256).toNat < 256))

theorem mixImage_bytes (pool data : List Nat) (hl : ∀ x ∈ pool, x < 256) :
    ∀ x ∈ EntropyHarvester.mixImage pool data, x < 256 := by
  unfold EntropyHarvester.mixImage
  by_cases hd : data.length > 0
  · rw [if_pos hd]
    dsimp only
    generalize (if data.length / 128 = 0 then 1 else data.length / 128) = step
    generalize (List.range 128) = idx
    induction idx generalizing pool with
    | nil => exact hl
    | cons i t ih =>
      simp only [List.foldl_cons]
      apply ih
      by_cases hp : i * step < data.length
      · rw [if_pos hp]
        exact set_bytes pool hl i _ (xor_byte _ _ (getD_lt_of_forall_mem pool hl i)
          (Nat.mod_lt _ (by norm_num)))
      · rw [if_neg hp]
        exact hl
  · rw [if_neg hd]
    exact hl

/-- Every byte of a freshly harvested pool is below 256. -/
theorem harvestEntropy_bytes (h : EntropyHarvester) (inp : HarvestInput) :
    ∀ x ∈ (h.harvestEntropy inp).entropyPool, x < 256 := by
  have hbase : ∀ x ∈ (List.range h.entropyPool.length).map (fun i => inp.random i % 256),
      x < 256 := by
    intro x hx
    obtain ⟨i, _, rfl⟩ := List.mem_map.mp hx
    exact Nat.mod_lt _ (by norm_num)
  unfold EntropyHarvester.harvestEntropy
  simp only
  cases inp.tilt with
  | none =>
    cases inp.image with
    | none => exact hbase
    | some data => exact mixImage_bytes _ data hbase
  | some noise =>
    cases inp.image with
    | none => exact mixTilt_bytes _ noise hbase
    | some data => exact mixImage_bytes _ data (mixTilt_bytes _ noise hbase)

theorem harvest_full_pool (h : EntropyHarvester) :
    h.harvestEntropy fullInput
      = { entropyPool := List.replicate h.entropyPool.length 255, poolCursor := 0 } := by
  unfold EntropyHarvester.harvestEntropy fullInput
  simp only
  congr 1
  apply List.ext_getElem
  · simp
  · intro i h1 h2
    simp

theorem harvest_full :
    fullHarvester = { entropyPool := List.replicate 4096 255, poolCursor := 0 } := by
  unfold fullHarvester
  rw [harvest_full_pool]
  have hl : EntropyHarvester.new.entropyPool.length = 4096 := by
    show (List.replicate 4096 0).length = 4096
    rw [List.length_replicate]
  rw [hl]

theorem val32_full : EntropyHarvester.val32 255 255 255 255 = 4294967295 := by
  have h := (val32_eq 255 255 255 255 (by norm_num) (by norm_num) (by norm_num)
    (by norm_num)).1
  rw [h]
  norm_num

theorem replicate_getD_full (n i : Nat) (hi : i < n) :
    (List.replicate n 255).getD i 0 = 255 := by
  rw [List.getD_eq_getElem?_getD]
  simp [List.getElem?_replicate, hi]

/-- Counterexample to C18: on a pool of bytes 255 the four bytes read give
`v = 2^32 - 1`, and `nextInteger(2^32 + 1)` returns `4294967296`, while
`floor(v * max / 2^32)` is `4294967295`: the exact product `2^32 - 2^-32` is
not a double and rounds up to `2^32` before `Math.floor`. -/
theorem nextInteger_rounds_up :
    (∀ src : EntropySource, (fullHarvester.nextInteger src 4294967297).1 = 4294967296)
    ∧ EntropyHarvester.val32 255 255 255 255 = 4294967295
    ∧ ⌊((4294967295 : ℕ) : ℚ) * ((4294967297 : ℕ) : ℚ) / 2 ^ 32⌋ = 4294967295 := by
  refine ⟨?_, val32_full, ?_⟩
  · intro src
    have hn : fullHarvester.needsRefresh = false := by
      rw [harvest_full]
      unfold EntropyHarvester.needsRefresh
      simp only [List.length_replicate]
      norm_num
    unfold EntropyHarvester.nextInteger
    simp only [hn, Bool.false_eq_true, if_false]
    rw [harvest_full]
    simp only [Nat.zero_add]
    rw [replicate_getD_full 4096 0 (by norm_num), replicate_getD_full 4096 1 (by norm_num),
      replicate_getD_full 4096 2 (by norm_num), replicate_getD_full 4096 3 (by norm_num),
      val32_full, fl_scale_top]
    have hf : ⌊(4294967296 : ℚ)⌋ = 4294967296 := by
      rw [Int.floor_eq_iff]
      constructor <;> norm_num
    rw [hf]
    rfl
  · rw [Int.floor_eq_iff]
    constructor <;> norm_num

/-- C18, amended: with a pool of bytes and `max >= 1`, `nextInteger(max)`
returns the floor of the double product `(v / 2^32) * max`, where
`v = b1*2^24 + b2*2^16 + b3*2^8 + b4 < 2^32` is built from the four bytes at
the cursor of the pool it reads (the refreshed pool when a refresh was due);
the result is below `max`, and it is `floor(v * max / 2^32)` whenever
`max <= 2^21` (the product is then a double). -/
theorem nextInteger_range (h : EntropyHarvester) (src : EntropySource) (max : Nat)
    (hbytes : ∀ x ∈ h.entropyPool, x < 256) (hmax : 1 ≤ max) :
    let h1 := if h.needsRefresh then h.harvestEntropy (src 0) else h
    let v : ℕ := h1.entropyPool.getD h1.poolCursor 0 * 2 ^ 24
      + h1.entropyPool.getD (h1.poolCursor + 1) 0 * 2 ^ 16
      + h1.entropyPool.getD (h1.poolCursor + 2) 0 * 2 ^ 8
      + h1.entropyPool.getD (h1.poolCursor + 3) 0
    v < 2 ^ 32
    ∧ ((h.nextInteger src max).1 : ℤ) = ⌊fl (fl ((v : ℚ) / 4294967296) * (max : ℚ))⌋
    ∧ (h.nextInteger src max).1 < max
    ∧ (max ≤ 2 ^ 21 → (h.nextInteger src max).1 = v * max / 2 ^ 32)
    ∧ (max ≤ 2 ^ 21 → ((h.nextInteger src max).1 : ℤ) = ⌊(v : ℚ) * (max : ℚ) / 2 ^ 32⌋) := by
  intro h1 v
  have hb1 : ∀ x ∈ h1.entropyPool, x < 256 := by
    show ∀ x ∈ (if h.needsRefresh then h.harvestEntropy (src 0) else h).entropyPool, x < 256
    split
    · exact harvestEntropy_bytes h (src 0)
    · exact hbytes
  obtain ⟨hv, hlt⟩ := val32_eq _ _ _ _ (getD_lt_of_forall_mem _ hb1 h1.poolCursor)
    (getD_lt_of_forall_mem _ hb1 (h1.poolCursor + 1))
    (getD_lt_of_forall_mem _ hb1 (h1.poolCursor + 2))
    (getD_lt_of_forall_mem _ hb1 (h1.poolCursor + 3))
  have hvlt : v < 2 ^ 32 := by
    have h2 := hlt
    rw [hv] at h2
    exact h2
  have hh : (if h.needsRefresh = true then
      (h.harvestEntropy (src 0), fun n => src (n + 1)) else (h, src)).1 = h1 := by
    show _ = (if h.needsRefresh then h.harvestEntropy (src 0) else h)
    split <;> rfl
  have hdef : (h.nextInteger src max).1
      = Int.toNat ⌊fl (fl ((v : ℚ) / 4294967296) * (max : ℚ))⌋ := by
    unfold EntropyHarvester.nextInteger
    simp only
    rw [hh, hv]
  have hx0 : (0 : ℚ) ≤ fl ((v : ℚ) / 4294967296) * (max : ℚ) := by
    have hq := fl_nonneg ((v : ℚ) / 4294967296) (div_nonneg (Nat.cast_nonneg v) (by norm_num))
    exact mul_nonneg hq (Nat.cast_nonneg max)
  have hexact : max ≤ 2 ^ 21 → (h.nextInteger src max).1 = v * max / 2 ^ 32 := by
    intro hm
    rw [hdef]
    apply floor_scale v max hvlt
    calc v * max ≤ v * 2 ^ 21 := Nat.mul_le_mul_left v hm
      _ < 2 ^ 32 * 2 ^ 21 := Nat.mul_lt_mul_of_pos_right hvlt (by norm_num)
      _ = 2 ^ 53 := by norm_num
  refine ⟨hvlt, ?_, ?_, hexact, ?_⟩
  · rw [hdef]
    exact Int.toNat_of_nonneg (Int.floor_nonneg.mpr (fl_nonneg _ hx0))
  · rw [hdef]
    exact floor_scale_lt v max hvlt hmax
  · intro hm
    rw [hexact hm]
    have hq : (v : ℚ) * (max : ℚ) / 2 ^ 32 = ((v * max : ℕ) : ℚ) / ((2 ^ 32 : ℕ) : ℚ) := by
      push_cast
      ring
    rw [hq, Rat.floor_natCast_div_natCast]
    norm_cast

/-- Witness for C18: a fresh harvester, an all-zero source, `max = 5`. -/
theorem nextInteger_range_witness :
    (∀ x ∈ EntropyHarvester.new.entropyPool, x < 256) ∧ 1 ≤ 5
    ∧ (EntropyHarvester.new.nextInteger zeroSource 5).1 < 5 :=
  ⟨fun x hx => by
      have h0 : x = 0 := List.eq_of_mem_replicate hx
      omega,
   by norm_num,
   (nextInteger_range EntropyHarvester.new zeroSource 5
      (fun x hx => by
        have h0 : x = 0 := List.eq_of_mem_replicate hx
        omega) (by norm_num)).2.2.1⟩

/-! ### The outcomes of enrollEnhanced -/

theorem calibrateSamples_ok_of_lt (env : CalibrateEnv) (n : Nat)
    (h : ∀ i, i < n → ∃ g, (env.sample i).gps = Except.ok g) :
    ∃ l, calibrateSamples env n = Except.ok l := by
  induction n with
  | zero => exact ⟨[], rfl⟩
  | succ n ih =>
    obtain ⟨l, hl⟩ := ih (fun i hi => h i (by omega))
    obtain ⟨g, hg⟩ := h n (by omega)
    unfold calibrateSamples
    rw [hl]
    simp only [hg]
    exact ⟨_, rfl⟩

theorem calibrateSamples_error (env : CalibrateEnv) (n : Nat) (msg : Message)
    (h : calibrateSamples env n = Except.error msg) :
    ∃ i, i < n ∧ (env.sample i).gps = Except.error msg := by
  induction n with
  | zero => simp [calibrateSamples] at h
  | succ n ih =>
    unfold calibrateSamples at h
    cases hprev : calibrateSamples env n with
    | error m =>
      rw [hprev] at h
      simp only [Except.error.injEq] at h
      obtain ⟨i, hi, he⟩ := ih (by rw [hprev, h])
      exact ⟨i, by omega, he⟩
    | ok acc =>
      rw [hprev] at h
      simp only at h
      cases hg : (env.sample n).gps with
      | error m =>
        rw [hg] at h
        simp only [Except.error.injEq] at h
        exact ⟨n, by omega, by rw [hg, h]⟩
      | ok g =>
        rw [hg] at h
        simp at h

/-- A failed GPS fix is raised by `enrollEnhanced` with nothing changed. -/
theorem enrollEnhanced_gps_error (md : Module) (src : EntropySource) (env : EnrollEnv)
    (msg : Message) (hgps : env.gps = Except.error msg) :
    enrollEnhanced md src env = (Except.error msg, md, src) := by
  unfold enrollEnhanced
  simp only [hgps]

/-- A fix worse than 50 m is raised with nothing changed. -/
theorem enrollEnhanced_coarse (md : Module) (src : EntropySource) (env : EnrollEnv)
    (gps : GeoFix) (hgps : env.gps = Except.ok gps) (hacc : gps.accuracy > 50) :
    enrollEnhanced md src env
      = (Except.error [Piece.text "GPS accuracy too low: ", Piece.num gps.accuracy,
          Piece.text "m (need <50m)"], md, src) := by
  unfold enrollEnhanced
  simp only [hgps]
  rw [if_pos hacc]

/-- A validity violation is raised with nothing changed. -/
theorem enrollEnhanced_invalid (md : Module) (src : EntropySource) (env : EnrollEnv)
    (gps : GeoFix) (hgps : env.gps = Except.ok gps) (hacc : ¬ gps.accuracy > 50)
    (hval : (validateEnrollmentConditions gps (analyzeLighting env.image)
      (calcSolarElevation gps.latitude gps.longitude env.solarAt gps.altitude)).isValid = false) :
    enrollEnhanced md src env
      = (Except.error (Piece.text "Enrollment failed: " ::
          (validateEnrollmentConditions gps (analyzeLighting env.image)
            (calcSolarElevation gps.latitude gps.longitude env.solarAt gps.altitude)).reason),
         md, src) := by
  unfold enrollEnhanced
  simp only [hgps]
  rw [if_neg hacc]
  simp only [hval, Bool.not_false, if_true]

/-- Past the checks the anchor is stored; what follows depends on calibration
only: the outcome, and the module with the anchor record appended. -/
theorem enrollEnhanced_valid (md : Module) (src : EntropySource) (env : EnrollEnv) (gps : GeoFix)
    (hgps : env.gps = Except.ok gps) (hacc : ¬ gps.accuracy > 50)
    (hval : (validateEnrollmentConditions gps (analyzeLighting env.image)
      (calcSolarElevation gps.latitude gps.longitude env.solarAt gps.altitude)).isValid = true) :
    (enrollEnhanced md src env).2.1.storage
        = md.storage.saveTemplate "sbta" (TemplateData.anchor
            (makeAnchor env gps (analyzeLighting env.image)
              (calcSolarElevation gps.latitude gps.longitude env.solarAt gps.altitude)
              (enrollEmbedding md env.image)
              (md.quantumLattice.crystallize src env.latticeAt 15).1)) env.savedAt
    ∧ (enrollEnhanced md src env).2.1.quantumLattice
        = (md.quantumLattice.crystallize src env.latticeAt 15).2.1
    ∧ (enrollEnhanced md src env).2.1.ai = md.ai
    ∧ (enrollEnhanced md src env).2.1.config = md.config
    ∧ (enrollEnhanced md src env).2.2 = (md.quantumLattice.crystallize src env.latticeAt 15).2.2
    ∧ ((∃ msg, calibrateSamples env.calibration md.config.calibrationSamples = Except.error msg
          ∧ (enrollEnhanced md src env).1 = Except.error msg)
       ∨ (∃ l, calibrateSamples env.calibration md.config.calibrationSamples = Except.ok l
          ∧ (enrollEnhanced md src env).1 = Except.ok
              { success := true,
                anchor := makeAnchor env gps (analyzeLighting env.image)
                  (calcSolarElevation gps.latitude gps.longitude env.solarAt gps.altitude)
                  (enrollEmbedding md env.image)
                  (md.quantumLattice.crystallize src env.latticeAt 15).1,
                confidence := 0.95,
                recommendations := ["Use in similar lighting conditions",
                  "Re-calibrate if traveling >10km",
                  "Verify periodically for seasonal changes"] })) := by
  unfold enrollEnhanced
  simp only [hgps]
  rw [if_neg hacc]
  simp only [hval, Bool.not_true, Bool.false_eq_true, if_false]
  unfold calibrate
  cases hc : calibrateSamples env.calibration md.config.calibrationSamples with
  | error msg =>
    exact ⟨rfl, rfl, rfl, rfl, rfl, Or.inl ⟨msg, rfl, rfl⟩⟩
  | ok l =>
    exact ⟨rfl, rfl, rfl, rfl, rfl, Or.inr ⟨l, rfl, rfl⟩⟩

theorem getTemplates_saveTemplate (st : Storage) (d : TemplateData) (now : Nat) :
    (st.saveTemplate "sbta" d now).getTemplates "sbta"
      = st.getTemplates "sbta" ++ [{ mode := "sbta", data := d, timestamp := now }] := by
  unfold Storage.saveTemplate Storage.getTemplates
  rw [List.filter_append]
  simp

theorem validation_edge :
    (validateEnrollmentConditions edgeFix (analyzeLighting (some grayFrame))
      (calcSolarElevation 90 0 epochJ2000 0)).isValid = true := by
  obtain ⟨e1, e2, e3⟩ := solar_pole_sea_level
  have habs : ¬ |(calcSolarElevation 90 0 epochJ2000 0).elevation| > 90 := by
    rw [not_lt, abs_le]; constructor <;> linarith
  unfold validateEnrollmentConditions
  rw [analyzeLighting_gray]
  simp only [e3, habs, edgeFix]
  norm_num

/-- C12: with a fix whose accuracy is worse than 50 m `enrollEnhanced` raises
"GPS accuracy too low: " followed by the accuracy value, and the module (anchor
store, calibration data, lattice) and the entropy source are as before; with an
accuracy of exactly 50 m and otherwise passing conditions the enrollment
succeeds with that fix. -/
theorem enrollEnhanced_accuracy_precondition (md : Module) (src : EntropySource)
    (env : EnrollEnv) (gps : GeoFix) (hgps : env.gps = Except.ok gps) :
    (gps.accuracy > 50 →
      enrollEnhanced md src env
        = (Except.error [Piece.text "GPS accuracy too low: ", Piece.num gps.accuracy,
            Piece.text "m (need <50m)"], md, src)
      ∧ (enrollEnhanced md src env).2.1.storage = md.storage
      ∧ (enrollEnhanced md src env).2.1.calibrationData = md.calibrationData)
    ∧ (gps.accuracy = 50 →
        (validateEnrollmentConditions gps (analyzeLighting env.image)
          (calcSolarElevation gps.latitude gps.longitude env.solarAt gps.altitude)).isValid = true →
        (∀ i, i < md.config.calibrationSamples →
          ∃ g, (env.calibration.sample i).gps = Except.ok g) →
        ∃ r, (enrollEnhanced md src env).1 = Except.ok r ∧ r.anchor.gps = gps) := by
  constructor
  · intro hacc
    have h := enrollEnhanced_coarse md src env gps hgps hacc
    rw [h]
    exact ⟨rfl, rfl, rfl⟩
  · intro h50 hval hcal
    have hacc : ¬ gps.accuracy > 50 := by rw [h50]; norm_num
    obtain ⟨_, _, _, _, _, hout⟩ := enrollEnhanced_valid md src env gps hgps hacc hval
    obtain ⟨l, hl⟩ := calibrateSamples_ok_of_lt env.calibration md.config.calibrationSamples hcal
    rcases hout with ⟨msg, hm, _⟩ | ⟨l2, _, hr⟩
    · rw [hl] at hm
      exact absurd hm (by simp)
    · exact ⟨_, hr, rfl⟩

/-- Witness for C12: the 60 m fix is refused, the 50 m fix is enrolled. -/
theorem enrollEnhanced_accuracy_precondition_witness :
    coarseFix.accuracy > 50
    ∧ enrollEnhanced freshModule zeroSource coarseEnv
        = (Except.error [Piece.text "GPS accuracy too low: ", Piece.num 60,
            Piece.text "m (need <50m)"], freshModule, zeroSource)
    ∧ edgeFix.accuracy = 50
    ∧ ∃ r, (enrollEnhanced freshModule zeroSource edgeEnv).1 = Except.ok r
        ∧ r.anchor.gps = edgeFix :=
  ⟨by norm_num [coarseFix],
   ((enrollEnhanced_accuracy_precondition freshModule zeroSource coarseEnv coarseFix rfl).1
      (by norm_num [coarseFix])).1,
   rfl,
   (enrollEnhanced_accuracy_precondition freshModule zeroSource edgeEnv edgeFix rfl).2 rfl
      validation_edge (fun _ _ => ⟨poleFix, rfl⟩)⟩

/-- C13: when the fix is accurate to 50 m or better, the validity checks pass
and the GPS answers in every calibration round, `enrollEnhanced` returns
`success = true`; the store afterwards is the store before with one record
appended, and the 'sbta' list is the list before plus that record, whose data
is the returned anchor. -/
theorem enrollEnhanced_persists_anchor (md : Module) (src : EntropySource) (env : EnrollEnv)
    (gps : GeoFix) (hgps : env.gps = Except.ok gps) (hacc : gps.accuracy ≤ 50)
    (hval : (validateEnrollmentConditions gps (analyzeLighting env.image)
      (calcSolarElevation gps.latitude gps.longitude env.solarAt gps.altitude)).isValid = true)
    (hcal : ∀ i, i < md.config.calibrationSamples →
      ∃ g, (env.calibration.sample i).gps = Except.ok g) :
    ∃ r, (enrollEnhanced md src env).1 = Except.ok r
      ∧ r.success = true
      ∧ (enrollEnhanced md src env).2.1.storage
          = md.storage ++ [{ mode := "sbta", data := TemplateData.anchor r.anchor,
                             timestamp := env.savedAt }]
      ∧ (enrollEnhanced md src env).2.1.storage.getTemplates "sbta"
          = md.storage.getTemplates "sbta"
            ++ [{ mode := "sbta", data := TemplateData.anchor r.anchor,
                  timestamp := env.savedAt }] := by
  obtain ⟨hst, _, _, _, _, hout⟩ := enrollEnhanced_valid md src env gps hgps (not_lt.mpr hacc) hval
  obtain ⟨l, hl⟩ := calibrateSamples_ok_of_lt env.calibration md.config.calibrationSamples hcal
  rcases hout with ⟨msg, hm, _⟩ | ⟨l2, _, hr⟩
  · rw [hl] at hm
    exact absurd hm (by simp)
  · refine ⟨_, hr, rfl, ?_, ?_⟩
    · rw [hst]; rfl
    · rw [hst, getTemplates_saveTemplate]

/-- Witness for C13: the enrollment at the pole into an empty store. -/
theorem enrollEnhanced_persists_anchor_witness :
    poleFix.accuracy ≤ 50
    ∧ ∃ r, (enrollEnhanced freshModule zeroSource enrollEnv).1 = Except.ok r
      ∧ r.success = true
      ∧ (enrollEnhanced freshModule zeroSource enrollEnv).2.1.storage
          = freshModule.storage ++ [{ mode := "sbta", data := TemplateData.anchor r.anchor,
                                      timestamp := enrollEnv.savedAt }]
      ∧ (enrollEnhanced freshModule zeroSource enrollEnv).2.1.storage.getTemplates "sbta"
          = freshModule.storage.getTemplates "sbta"
            ++ [{ mode := "sbta", data := TemplateData.anchor r.anchor,
                  timestamp := enrollEnv.savedAt }] :=
  ⟨by norm_num [poleFix],
   enrollEnhanced_persists_anchor freshModule zeroSource enrollEnv poleFix rfl
     (by norm_num [poleFix]) validation_pole (fun _ _ => ⟨poleFix, rfl⟩)⟩

/-! ### Errors of enrollEnhanced and the store -/

/-- Counterexample to C20: the enrollment whose GPS is lost during calibration
raises "GPS timeout", and the store that was empty before the call holds the
new anchor afterwards. -/
theorem enrollEnhanced_error_after_save :
    (enrollEnhanced freshModule zeroSource lostEnv).1 = Except.error [Piece.text "GPS timeout"]
    ∧ freshModule.storage.getTemplates "sbta" = []
    ∧ ((enrollEnhanced freshModule zeroSource lostEnv).2.1.storage.getTemplates "sbta").length = 1
    ∧ (enrollEnhanced freshModule zeroSource lostEnv).2.1.storage.getTemplates "sbta"
        ≠ freshModule.storage.getTemplates "sbta" := by
  obtain ⟨hst, _, _, _, _, hout⟩ :=
    enrollEnhanced_valid freshModule zeroSource lostEnv poleFix rfl
      (by norm_num [poleFix]) validation_pole
  have hfresh : freshModule.storage.getTemplates "sbta" = [] := rfl
  have hlen : ((enrollEnhanced freshModule zeroSource lostEnv).2.1.storage.getTemplates
      "sbta").length = 1 := by
    rw [hst, getTemplates_saveTemplate, hfresh]
    rfl
  refine ⟨?_, hfresh, hlen, ?_⟩
  · rcases hout with ⟨msg, hm, hr⟩ | ⟨l, hl, _⟩
    · rw [hr]
      have h3 : calibrateSamples lostEnv.calibration freshModule.config.calibrationSamples
          = Except.error [Piece.text "GPS timeout"] := rfl
      rw [h3] at hm
      simp only [Except.error.injEq] at hm
      rw [hm]
    · have h3 : calibrateSamples lostEnv.calibration freshModule.config.calibrationSamples
          = Except.error [Piece.text "GPS timeout"] := rfl
      rw [h3] at hl
      exact absurd hl (by simp)
  · intro h
    rw [h, hfresh] at hlen
    simp at hlen

/-- C20, amended: when `enrollEnhanced` raises, either it raised before the
save (GPS failure, accuracy precondition or validity violation) and the module
and the entropy source are as before, or the error is the GPS failure of a
calibration round and the 'sbta' list is the list before plus the new anchor. -/
theorem enrollEnhanced_error_store (md : Module) (src : EntropySource) (env : EnrollEnv)
    (msg : Message) (herr : (enrollEnhanced md src env).1 = Except.error msg) :
    ((enrollEnhanced md src env).2.1 = md ∧ (enrollEnhanced md src env).2.2 = src
      ∧ (enrollEnhanced md src env).2.1.storage.getTemplates "sbta"
          = md.storage.getTemplates "sbta")
    ∨ (∃ gps i, env.gps = Except.ok gps ∧ gps.accuracy ≤ 50
        ∧ i < md.config.calibrationSamples
        ∧ (env.calibration.sample i).gps = Except.error msg
        ∧ (enrollEnhanced md src env).2.1.storage.getTemplates "sbta"
            = md.storage.getTemplates "sbta"
              ++ [{ mode := "sbta",
                    data := TemplateData.anchor
                      (makeAnchor env gps (analyzeLighting env.image)
                        (calcSolarElevation gps.latitude gps.longitude env.solarAt gps.altitude)
                        (enrollEmbedding md env.image)
                        (md.quantumLattice.crystallize src env.latticeAt 15).1),
                    timestamp := env.savedAt }]) := by
  cases hgps : env.gps with
  | error m =>
    left
    rw [enrollEnhanced_gps_error md src env m hgps]
    exact ⟨rfl, rfl, rfl⟩
  | ok gps =>
    by_cases hacc : gps.accuracy > 50
    · left
      rw [enrollEnhanced_coarse md src env gps hgps hacc]
      exact ⟨rfl, rfl, rfl⟩
    · cases hval : (validateEnrollmentConditions gps (analyzeLighting env.image)
          (calcSolarElevation gps.latitude gps.longitude env.solarAt gps.altitude)).isValid with
      | false =>
        left
        rw [enrollEnhanced_invalid md src env gps hgps hacc hval]
        exact ⟨rfl, rfl, rfl⟩
      | true =>
        right
        obtain ⟨hst, _, _, _, _, hout⟩ := enrollEnhanced_valid md src env gps hgps hacc hval
        rcases hout with ⟨m, hm, hr⟩ | ⟨l, _, hr⟩
        · rw [hr] at herr
          simp only [Except.error.injEq] at herr
          subst herr
          obtain ⟨i, hi, he⟩ := calibrateSamples_error env.calibration _ m hm
          exact ⟨gps, i, rfl, not_lt.mp hacc, hi, he, by rw [hst, getTemplates_saveTemplate]⟩
        · rw [hr] at herr
          exact absurd herr (by simp)

/-- Witness for C20: the coarse fix is refused before the save. -/
theorem enrollEnhanced_error_store_witness :
    (enrollEnhanced freshModule zeroSource coarseEnv).1
      = Except.error [Piece.text "GPS accuracy too low: ", Piece.num 60,
          Piece.text "m (need <50m)"]
    ∧ (((enrollEnhanced freshModule zeroSource coarseEnv).2.1 = freshModule
        ∧ (enrollEnhanced freshModule zeroSource coarseEnv).2.2 = zeroSource
        ∧ (enrollEnhanced freshModule zeroSource coarseEnv).2.1.storage.getTemplates "sbta"
            = freshModule.storage.getTemplates "sbta")
      ∨ (∃ gps i, coarseEnv.gps = Except.ok gps ∧ gps.accuracy ≤ 50
        ∧ i < freshModule.config.calibrationSamples
        ∧ (coarseEnv.calibration.sample i).gps
            = Except.error [Piece.text "GPS accuracy too low: ", Piece.num 60,
                Piece.text "m (need <50m)"]
        ∧ (enrollEnhanced freshModule zeroSource coarseEnv).2.1.storage.getTemplates "sbta"
            = freshModule.storage.getTemplates "sbta"
              ++ [{ mode := "sbta",
                    data := TemplateData.anchor
                      (makeAnchor coarseEnv gps (analyzeLighting coarseEnv.image)
                        (calcSolarElevation gps.latitude gps.longitude coarseEnv.solarAt
                          gps.altitude)
                        (enrollEmbedding freshModule coarseEnv.image)
                        (freshModule.quantumLattice.crystallize zeroSource
                          coarseEnv.latticeAt 15).1),
                    timestamp := coarseEnv.savedAt }])) :=
  have h : (enrollEnhanced freshModule zeroSource coarseEnv).1
      = Except.error [Piece.text "GPS accuracy too low: ", Piece.num 60,
          Piece.text "m (need <50m)"] := by
    rw [enrollEnhanced_coarse freshModule zeroSource coarseEnv coarseFix rfl
      (by norm_num [coarseFix])]
    rfl
  ⟨h, enrollEnhanced_error_store freshModule zeroSource coarseEnv _ h⟩

/-! ### The two ways out of verifyEnhanced -/

/-- The two ways out of `verifyEnhanced`: the `catch` object for an error
raised in the `try` block, with module and source untouched, or the fusion
step on the first stored anchor, inside the geofence. -/
theorem verifyEnhanced_cases (md : Module) (src : EntropySource) (env : VerifyEnv) :
    (∃ msg, verifyTry md src env = Except.error msg
      ∧ verifyEnhanced md src env = (VerifyResult.failed msg, md, src))
    ∨ (∃ first rest anchor gps lighting,
        md.storage.getTemplates "sbta" = first :: rest
        ∧ first.data = TemplateData.anchor anchor
        ∧ env.gps = Except.ok gps
        ∧ ¬ haversineDistance gps.latitude gps.longitude
            anchor.gps.latitude anchor.gps.longitude > md.config.geoFenceRadius
        ∧ lighting ≤ 1
        ∧ verifyTry md src env
            = Except.ok (verifyFusion md src env anchor gps
                (haversineDistance gps.latitude gps.longitude
                  anchor.gps.latitude anchor.gps.longitude) lighting)
        ∧ verifyEnhanced md src env
            = verifyFusion md src env anchor gps
                (haversineDistance gps.latitude gps.longitude
                  anchor.gps.latitude anchor.gps.longitude) lighting) := by
  unfold verifyEnhanced verifyTry
  cases hst : md.storage.getTemplates "sbta" with
  | nil => exact Or.inl ⟨_, rfl, rfl⟩
  | cons first rest =>
    dsimp only
    cases hgps : env.gps with
    | error msg => exact Or.inl ⟨_, rfl, rfl⟩
    | ok gps =>
      dsimp only
      cases hdata : first.data with
      | face v => exact Or.inl ⟨_, rfl, rfl⟩
      | anchor anchor =>
        dsimp only
        by_cases hfar : haversineDistance gps.latitude gps.longitude
            anchor.gps.latitude anchor.gps.longitude > md.config.geoFenceRadius
        · simp only [if_pos hfar]
          exact Or.inl ⟨_, rfl, rfl⟩
        · simp only [if_neg hfar]
          cases hl : calculateLightingScore md.config anchor.lighting (analyzeLighting env.image)
              (calcSolarElevation gps.latitude gps.longitude env.solarAt gps.altitude) with
          | none => exact Or.inl ⟨_, rfl, rfl⟩
          | some lighting =>
            exact Or.inr ⟨first, rest, anchor, gps, lighting, rfl, hdata, rfl, hfar,
              calculateLightingScore_le_one _ _ _ _ _ hl, rfl, rfl⟩

theorem crystallize_size (q : QuantumLattice) (src : EntropySource) (now : Nat) (p : ℚ) :
    (q.crystallize src now p).2.1.size = q.size := rfl

/-- The lattice keeps its size and length through `verifyEnhanced`. -/
theorem verifyEnhanced_lattice (md : Module) (src : EntropySource) (env : VerifyEnv) :
    (verifyEnhanced md src env).2.1.quantumLattice.size = md.quantumLattice.size
    ∧ (verifyEnhanced md src env).2.1.quantumLattice.matrix.length
        = md.quantumLattice.matrix.length := by
  rcases verifyEnhanced_cases md src env with ⟨msg, _, h⟩ | ⟨_, _, anchor, gps, l, _, _, _, _, _, _, h⟩
  · rw [h]; exact ⟨rfl, rfl⟩
  · rw [h]
    exact ⟨rfl, crystallize_matrix_length md.quantumLattice src env.latticeAt 15⟩

/-- The lattice keeps its size and length through `enrollEnhanced`. -/
theorem enrollEnhanced_lattice (md : Module) (src : EntropySource) (env : EnrollEnv) :
    (enrollEnhanced md src env).2.1.quantumLattice.size = md.quantumLattice.size
    ∧ (enrollEnhanced md src env).2.1.quantumLattice.matrix.length
        = md.quantumLattice.matrix.length := by
  cases hgps : env.gps with
  | error m =>
    rw [enrollEnhanced_gps_error md src env m hgps]
    exact ⟨rfl, rfl⟩
  | ok gps =>
    by_cases hacc : gps.accuracy > 50
    · rw [enrollEnhanced_coarse md src env gps hgps hacc]
      exact ⟨rfl, rfl⟩
    · cases hval : (validateEnrollmentConditions gps (analyzeLighting env.image)
          (calcSolarElevation gps.latitude gps.longitude env.solarAt gps.altitude)).isValid with
      | false =>
        rw [enrollEnhanced_invalid md src env gps hgps hacc hval]
        exact ⟨rfl, rfl⟩
      | true =>
        obtain ⟨_, hq, _, _, _, _⟩ := enrollEnhanced_valid md src env gps hgps hacc hval
        rw [hq]
        exact ⟨rfl, crystallize_matrix_length md.quantumLattice src env.latticeAt 15⟩


/-! ### Verification without an anchor -/

/-- Counterexample to C11: with an empty store the error "No SBTA anchor
enrolled" is raised inside the `try` block, but the caller of `verify` gets a
returned object (`success = false`, `score = 0`, the message in its `error`
field), not a raised error. -/
theorem verify_no_anchor_returned :
    freshModule.storage.getTemplates "sbta" = []
    ∧ verifyTry freshModule zeroSource verifyEnv
        = Except.error [Piece.text "No SBTA anchor enrolled"]
    ∧ (verify freshModule zeroSource verifyEnv).1
        = Except.ok (VerifyResult.failed [Piece.text "No SBTA anchor enrolled"])
    ∧ (verify freshModule zeroSource verifyEnv).1
        ≠ Except.error [Piece.text "No SBTA anchor enrolled"] := by
  refine ⟨rfl, rfl, rfl, ?_⟩
  intro h
  have h2 : (verify freshModule zeroSource verifyEnv).1
      = Except.ok (VerifyResult.failed [Piece.text "No SBTA anchor enrolled"]) := rfl
  rw [h2] at h
  exact absurd h (by simp)

/-- C11, amended: when the store lists no 'sbta' anchor, the `try` block of
`verifyEnhanced` raises "No SBTA anchor enrolled" and the `catch` block turns
it into a returned object with `success = false`, `score = 0` and that message
in `error`; the result is the same for every GPS outcome, frame, clock reading
and entropy source, and the module (lattice included) and the source are left
as they were.  In general what `verifyEnhanced` returns is the result of its
`try` block, or the `catch` object of the error raised there. -/
theorem verify_no_anchor (md : Module) (src : EntropySource) (env : VerifyEnv)
    (hempty : md.storage.getTemplates "sbta" = []) :
    verifyTry md src env = Except.error [Piece.text "No SBTA anchor enrolled"]
    ∧ verify md src env
        = (Except.ok (VerifyResult.failed [Piece.text "No SBTA anchor enrolled"]), md, src)
    ∧ (verifyEnhanced md src env).1.success = false
    ∧ (verifyEnhanced md src env).1.score = 0
    ∧ (verifyEnhanced md src env).1.error = some [Piece.text "No SBTA anchor enrolled"]
    ∧ (∀ (s : EntropySource) (e : VerifyEnv), (verify md s e).1 = (verify md src env).1
        ∧ (verify md s e).2.1 = md ∧ (verify md s e).2.2 = s)
    ∧ (∀ (m : Module) (s : EntropySource) (e : VerifyEnv),
        verifyEnhanced m s e
          = match verifyTry m s e with
            | Except.ok r => r
            | Except.error msg => (VerifyResult.failed msg, m, s)) := by
  have hv : ∀ (s : EntropySource) (e : VerifyEnv), verifyEnhanced md s e
      = (VerifyResult.failed [Piece.text "No SBTA anchor enrolled"], md, s) := by
    intro s e
    unfold verifyEnhanced
    rw [hempty]
  have ht : verifyTry md src env = Except.error [Piece.text "No SBTA anchor enrolled"] := by
    unfold verifyTry
    rw [hempty]
  refine ⟨ht, ?_, ?_, ?_, ?_, ?_, ?_⟩
  · unfold verify
    rw [hv src env]
  · rw [hv src env]; rfl
  · rw [hv src env]; rfl
  · rw [hv src env]; rfl
  · intro s e
    unfold verify
    rw [hv s e, hv src env]
    exact ⟨rfl, rfl, rfl⟩
  · intro m s e
    rcases verifyEnhanced_cases m s e with ⟨msg, h1, h2⟩ | ⟨_, _, _, _, _, _, _, _, _, _, h1, h2⟩
    · rw [h1, h2]
    · rw [h1, h2]

/-- Witness for C11: a verification on the module of the constructor, whose
store is empty. -/
theorem verify_no_anchor_witness :
    freshModule.storage.getTemplates "sbta" = []
    ∧ verify freshModule zeroSource winterEnv
        = (Except.ok (VerifyResult.failed [Piece.text "No SBTA anchor enrolled"]),
            freshModule, zeroSource) :=
  ⟨rfl, (verify_no_anchor freshModule zeroSource winterEnv rfl).2.1⟩

/-! ### The colour balance of analyzeLighting -/

theorem sum_cast_nonneg (l : List Nat) (f : Nat → Nat) :
    0 ≤ (l.map (fun i => (f i : ℝ))).sum := by
  induction l with
  | nil => simp
  | cons a t ih =>
    rw [List.map_cons, List.sum_cons]
    have : (0 : ℝ) ≤ (f a : ℝ) := Nat.cast_nonneg _
    linarith

theorem sum_three_cast (l : List Nat) (f g h : Nat → Nat) :
    (l.map (fun i => (f i : ℝ))).sum + (l.map (fun i => (g i : ℝ))).sum
      + (l.map (fun i => (h i : ℝ))).sum
      = (((l.map (fun i => f i + g i + h i)).sum : ℕ) : ℝ) := by
  induction l with
  | nil => simp
  | cons a t ih =>
    simp only [List.map_cons, List.sum_cons, Nat.cast_add]
    rw [← ih]
    ring

/-- Counterexample to C15: for one black pixel the three fractions are 0, so
they do not sum to 1. -/
theorem analyzeLighting_black_balance :
    (analyzeLighting (some blackFrame)).colorBalance = some { r := 0, g := 0, b := 0 }
    ∧ ¬ ∃ cb, (analyzeLighting (some blackFrame)).colorBalance = some cb
        ∧ cb.r + cb.g + cb.b = 1 := by
  have h : (analyzeLighting (some blackFrame)).colorBalance = some { r := 0, g := 0, b := 0 } := by
    unfold analyzeLighting blackFrame
    simp only [colorIndices_pixel]
    simp
  refine ⟨h, ?_⟩
  rintro ⟨cb, hcb, hsum⟩
  rw [h] at hcb
  have e := Option.some.inj hcb
  rw [← e] at hsum
  norm_num at hsum

theorem colorIndices_inside (data : List Nat) (hgrid : data.length % 4 = 0) :
    ∀ i ∈ colorIndices data, i + 3 < data.length := by
  intro i hi
  unfold colorIndices at hi
  rw [List.mem_filter, List.mem_range] at hi
  have h1 := hi.1
  have h2 : i % 4 = 0 := by simpa using hi.2
  have h3 : i < data.length := lt_of_lt_of_le h1 (min_le_right _ _)
  omega

theorem filter_mod_four_length_le (n : Nat) :
    ((List.range n).filter (fun i => i % 4 = 0)).length ≤ (n + 3) / 4 := by
  induction n with
  | zero => simp
  | succ n ih =>
    rw [List.range_succ, List.filter_append, List.length_append]
    by_cases h : n % 4 = 0
    · have : ([n].filter (fun i => decide (i % 4 = 0))).length = 1 := by simp [h]
      rw [this]
      omega
    · have : ([n].filter (fun i => decide (i % 4 = 0))).length = 0 := by simp [h]
      rw [this]
      omega

theorem colorIndices_length (data : List Nat) : (colorIndices data).length ≤ 250 := by
  unfold colorIndices
  have h2 : min 1000 data.length ≤ 1000 := min_le_left _ _
  exact le_trans (filter_mod_four_length_le (min 1000 data.length)) (by omega)

theorem getD_le_of_forall_mem (l : List Nat) (hl : ∀ x ∈ l, x ≤ 255) (i : Nat) :
    l.getD i 0 ≤ 255 := by
  rw [List.getD_eq_getElem?_getD]
  cases h : l[i]? with
  | none => simp
  | some x => exact hl x (List.getElem?_mem h)

theorem colorSum_le (data : List Nat) (hbytes : ∀ x ∈ data, x ≤ 255) :
    ((colorIndices data).map
      (fun i => data.getD i 0 + data.getD (i + 1) 0 + data.getD (i + 2) 0)).sum ≤ 191250 := by
  have h := List.sum_le_card_nsmul ((colorIndices data).map
      (fun i => data.getD i 0 + data.getD (i + 1) 0 + data.getD (i + 2) 0)) 765 (by
    intro x hx
    obtain ⟨i, _, rfl⟩ := List.mem_map.mp hx
    have a := getD_le_of_forall_mem data hbytes i
    have b := getD_le_of_forall_mem data hbytes (i + 1)
    have c := getD_le_of_forall_mem data hbytes (i + 2)
    omega)
  rw [List.length_map, smul_eq_mul] at h
  have hl := colorIndices_length data
  calc _ ≤ (colorIndices data).length * 765 := h
    _ ≤ 250 * 765 := Nat.mul_le_mul_right 765 hl
    _ = 191250 := by norm_num

/-- C15, amended: for an RGBA grid (a byte array whose length is a multiple of
4, channel values 0..255) every read of the colour loop is inside the frame,
the three channel sums are integers that add up to at most 191250, and the
colour-balance fractions r, g, b are each in [0,1]; all three are 0 (sum 0)
when every channel read is 0, and otherwise they sum to 1 within `10^-15`
(exactly 1 on the real line; each quotient is rounded in doubles, and
`10/42 + 20/42 + 12/42` evaluates to `0.9999999999999999`). -/
theorem analyzeLighting_colorBalance (data : List Nat) (hgrid : data.length % 4 = 0)
    (hbytes : ∀ x ∈ data, x ≤ 255) :
    (∀ i ∈ colorIndices data, i + 3 < data.length)
    ∧ ((colorIndices data).map
        (fun i => data.getD i 0 + data.getD (i + 1) 0 + data.getD (i + 2) 0)).sum ≤ 191250
    ∧ ∃ cb, (analyzeLighting (some data)).colorBalance = some cb
      ∧ 0 ≤ cb.r ∧ cb.r ≤ 1 ∧ 0 ≤ cb.g ∧ cb.g ≤ 1 ∧ 0 ≤ cb.b ∧ cb.b ≤ 1
      ∧ (((colorIndices data).map
            (fun i => data.getD i 0 + data.getD (i + 1) 0 + data.getD (i + 2) 0)).sum = 0
          → cb.r = 0 ∧ cb.g = 0 ∧ cb.b = 0)
      ∧ (((colorIndices data).map
            (fun i => data.getD i 0 + data.getD (i + 1) 0 + data.getD (i + 2) 0)).sum ≠ 0
          → |cb.r + cb.g + cb.b - 1| ≤ 1 / 10 ^ 15) := by
  refine ⟨colorIndices_inside data hgrid, colorSum_le data hbytes, ?_⟩
  have hR := sum_cast_nonneg (colorIndices data) (fun i => data.getD i 0)
  have hG := sum_cast_nonneg (colorIndices data) (fun i => data.getD (i + 1) 0)
  have hB := sum_cast_nonneg (colorIndices data) (fun i => data.getD (i + 2) 0)
  have hS := sum_three_cast (colorIndices data) (fun i => data.getD i 0)
    (fun i => data.getD (i + 1) 0) (fun i => data.getD (i + 2) 0)
  simp only at hR hG hB hS
  refine ⟨_, rfl, ?_⟩
  simp only
  set sR := ((colorIndices data).map (fun i => (data.getD i 0 : ℝ))).sum with hsR
  set sG := ((colorIndices data).map (fun i => (data.getD (i + 1) 0 : ℝ))).sum with hsG
  set sB := ((colorIndices data).map (fun i => (data.getD (i + 2) 0 : ℝ))).sum with hsB
  set n := ((colorIndices data).map
    (fun i => data.getD i 0 + data.getD (i + 1) 0 + data.getD (i + 2) 0)).sum with hn
  by_cases hz : n = 0
  · have hs0 : sR + sG + sB = 0 := by rw [hS, hz]; simp
    have r0 : sR = 0 := by linarith
    have g0 : sG = 0 := by linarith
    have b0 : sB = 0 := by linarith
    rw [if_pos hs0, r0, g0, b0]
    refine ⟨by norm_num, by norm_num, by norm_num, by norm_num, by norm_num, by norm_num,
      fun _ => ⟨by norm_num, by norm_num, by norm_num⟩, fun h => absurd hz h⟩
  · have hpos : 0 < sR + sG + sB := by
      rw [hS]
      exact_mod_cast Nat.pos_of_ne_zero hz
    rw [if_neg (ne_of_gt hpos)]
    refine ⟨div_nonneg hR hpos.le, ?_, div_nonneg hG hpos.le, ?_, div_nonneg hB hpos.le, ?_,
      fun h => absurd h hz, fun _ => ?_⟩
    · rw [div_le_one hpos]; linarith
    · rw [div_le_one hpos]; linarith
    · rw [div_le_one hpos]; linarith
    · have h1 : sR / (sR + sG + sB) + sG / (sR + sG + sB) + sB / (sR + sG + sB) = 1 := by
        field_simp
      rw [h1]
      norm_num

/-- Witness for C15: the frame of one pixel `[10, 20, 12, 255]`. -/
theorem analyzeLighting_colorBalance_witness :
    [10, 20, 12, 255].length % 4 = 0 ∧ (∀ x ∈ [10, 20, 12, 255], x ≤ 255)
    ∧ ∃ cb, (analyzeLighting (some [10, 20, 12, 255])).colorBalance = some cb
      ∧ 0 ≤ cb.r ∧ cb.r ≤ 1 ∧ 0 ≤ cb.g ∧ cb.g ≤ 1 ∧ 0 ≤ cb.b ∧ cb.b ≤ 1 := by
  have hb : ∀ x ∈ [10, 20, 12, 255], x ≤ 255 := by decide
  obtain ⟨_, _, cb, h1, h2, h3, h4, h5, h6, h7, _⟩ :=
    analyzeLighting_colorBalance [10, 20, 12, 255] (by decide) hb
  exact ⟨by decide, hb, cb, h1, h2, h3, h4, h5, h6, h7⟩


/-! ### The luminance loop of analyzeLighting on more than 10000 pixels -/

/-- Among the indices below `4 * n`, `n` are multiples of 4. -/
theorem filter_mod_four_length (n : Nat) :
    ((List.range (4 * n)).filter (fun i => i % 4 = 0)).length = n := by
  induction n with
  | zero => rfl
  | succ n ih =>
    have e : 4 * (n + 1) = 4 * n + 1 + 1 + 1 + 1 := by ring
    rw [e, List.range_succ, List.range_succ, List.range_succ, List.range_succ]
    simp only [List.filter_append, List.length_append, ih]
    have h0 : (4 * n) % 4 = 0 := by omega
    have h1 : ¬ (4 * n + 1) % 4 = 0 := by omega
    have h2 : ¬ (4 * n + 1 + 1) % 4 = 0 := by omega
    have h3 : ¬ (4 * n + 1 + 1 + 1) % 4 = 0 := by omega
    simp [h0, h1, h2, h3]

theorem sum_map_const (l : List Nat) (f : Nat → ℝ) (c : ℝ) (h : ∀ i ∈ l, f i = c) :
    (l.map f).sum = (l.length : ℝ) * c := by
  induction l with
  | nil => simp
  | cons a t ih =>
    rw [List.map_cons, List.sum_cons, h a (List.mem_cons_self a t),
      ih (fun i hi => h i (List.mem_cons_of_mem a hi))]
    simp only [List.length_cons, Nat.cast_add, Nat.cast_one]
    ring

theorem getD_replicate_lt (n c i : Nat) (h : i < n) : (List.replicate n c).getD i 0 = c := by
  rw [List.getD_eq_getElem?_getD, List.getElem?_replicate, if_pos h]
  rfl

/-- A frame of 10001 pixels is sampled with stride 1. -/
theorem sampleStep_wall (c : Nat) : sampleStep (List.replicate 40004 c) = 1 := by
  unfold sampleStep
  simp only [List.length_replicate]
  have hfl : ⌊((40004 : ℕ) : ℚ) / 4 / min (((40004 : ℕ) : ℚ) / 4) 10000⌋ = 1 := by
    rw [Int.floor_eq_iff]
    have hm : min (((40004 : ℕ) : ℚ) / 4) 10000 = 10000 := by
      rw [min_eq_right]; norm_num
    rw [hm]
    constructor <;> norm_num
  rw [hfl]
  rfl

/-- The luminance loop visits all 10001 pixels of such a frame. -/
theorem sampleIndices_wall_length (c : Nat) :
    (sampleIndices (List.replicate 40004 c)).length = 10001 := by
  unfold sampleIndices
  rw [sampleStep_wall, List.length_replicate]
  exact filter_mod_four_length 10001

theorem luminanceAt_wall (c i : Nat) (h : i ∈ sampleIndices (List.replicate 40004 c)) :
    luminanceAt (List.replicate 40004 c) i = (c : ℝ) := by
  unfold sampleIndices at h
  rw [sampleStep_wall, List.length_replicate, List.mem_filter, List.mem_range] at h
  obtain ⟨hlt, hmod⟩ := h
  have hm : i % 4 = 0 := by simpa using hmod
  unfold luminanceAt
  rw [getD_replicate_lt _ _ _ hlt, getD_replicate_lt _ _ _ (by omega),
    getD_replicate_lt _ _ _ (by omega)]
  ring

/-- The two sums of the luminance loop and its divisor on a frame of 10001
equal pixels: 10001 terms are added and the divisor is 10000. -/
theorem analyzeLighting_wall (c : Nat) :
    (analyzeLighting (some (List.replicate 40004 c))).luminance = 10001 * (c : ℝ) / 10000
    ∧ (analyzeLighting (some (List.replicate 40004 c))).variance
        = 10001 * ((c : ℝ) * (c : ℝ)) / 10000
          - (10001 * (c : ℝ) / 10000) * (10001 * (c : ℝ) / 10000) := by
  have hs : ((sampleIndices (List.replicate 40004 c)).map
      (fun i => luminanceAt (List.replicate 40004 c) i)).sum = 10001 * (c : ℝ) := by
    rw [sum_map_const _ _ (c : ℝ) (fun i hi => luminanceAt_wall c i hi), sampleIndices_wall_length]
    norm_num
  have hq : ((sampleIndices (List.replicate 40004 c)).map
      (fun i => luminanceAt (List.replicate 40004 c) i
        * luminanceAt (List.replicate 40004 c) i)).sum = 10001 * ((c : ℝ) * (c : ℝ)) := by
    rw [sum_map_const _ _ ((c : ℝ) * (c : ℝ))
      (fun i hi => by rw [luminanceAt_wall c i hi]), sampleIndices_wall_length]
    norm_num
  have hm : min (((List.replicate 40004 c).length : ℝ) / 4) 10000 = 10000 := by
    rw [List.length_replicate, min_eq_right]
    norm_num
  have hlum : (analyzeLighting (some (List.replicate 40004 c))).luminance
      = ((sampleIndices (List.replicate 40004 c)).map
          (fun i => luminanceAt (List.replicate 40004 c) i)).sum
        / min (((List.replicate 40004 c).length : ℝ) / 4) 10000 := rfl
  have hvar : (analyzeLighting (some (List.replicate 40004 c))).variance
      = ((sampleIndices (List.replicate 40004 c)).map
          (fun i => luminanceAt (List.replicate 40004 c) i
            * luminanceAt (List.replicate 40004 c) i)).sum
          / min (((List.replicate 40004 c).length : ℝ) / 4) 10000
        - (analyzeLighting (some (List.replicate 40004 c))).luminance
          * (analyzeLighting (some (List.replicate 40004 c))).luminance := rfl
  rw [hvar, hlum, hs, hq, hm]
  exact ⟨rfl, rfl⟩

/-- C16, failing run: on a frame of 10001 white pixels the luminance loop
visits 10001 pixels, each of luminance 255, so their mean is 255; the returned
`luminance` is their sum divided by 10000, that is 255.0255, above the 0..255
scale. -/
theorem analyzeLighting_luminance_above_255 :
    (sampleIndices whiteWall).length = 10001
    ∧ (∀ i ∈ sampleIndices whiteWall, luminanceAt whiteWall i = 255)
    ∧ ((sampleIndices whiteWall).map (fun i => luminanceAt whiteWall i)).sum
        / ((sampleIndices whiteWall).length : ℝ) = 255
    ∧ (analyzeLighting (some whiteWall)).luminance = 255.0255
    ∧ (analyzeLighting (some whiteWall)).luminance > 255 := by
  have hl : (analyzeLighting (some whiteWall)).luminance = 255.0255 := by
    unfold whiteWall
    rw [(analyzeLighting_wall 255).1]
    norm_num
  have hs : ∀ i ∈ sampleIndices whiteWall, luminanceAt whiteWall i = 255 := by
    intro i hi
    unfold whiteWall at hi ⊢
    rw [luminanceAt_wall 255 i hi]
    norm_num
  refine ⟨sampleIndices_wall_length 255, hs, ?_, hl, ?_⟩
  · rw [sum_map_const _ _ (255 : ℝ) hs]
    have : (sampleIndices whiteWall).length = 10001 := sampleIndices_wall_length 255
    rw [this]
    norm_num
  · rw [hl]; norm_num

/-- C17, failing run: on a frame of 10001 equal gray pixels of level 200 (true
standard deviation 0, true mean 200) the returned variance is -4.0004, the
standard deviation is NaN, `isUniform` is false and the confidence is 0.9. -/
theorem analyzeLighting_gray_not_uniform :
    (∀ i ∈ sampleIndices grayWall, luminanceAt grayWall i = 200)
    ∧ (analyzeLighting (some grayWall)).luminance = 200.02
    ∧ (analyzeLighting (some grayWall)).variance = -4.0004
    ∧ (analyzeLighting (some grayWall)).stdDev = none
    ∧ (analyzeLighting (some grayWall)).isUniform = false
    ∧ (analyzeLighting (some grayWall)).confidence = some 0.9 := by
  have hs : ∀ i ∈ sampleIndices grayWall, luminanceAt grayWall i = 200 := by
    intro i hi
    unfold grayWall at hi ⊢
    rw [luminanceAt_wall 200 i hi]
    norm_num
  have hl : (analyzeLighting (some grayWall)).luminance = 200.02 := by
    unfold grayWall
    rw [(analyzeLighting_wall 200).1]
    norm_num
  have hv : (analyzeLighting (some grayWall)).variance = -4.0004 := by
    unfold grayWall
    rw [(analyzeLighting_wall 200).2]
    norm_num
  have hsd : (analyzeLighting (some grayWall)).stdDev
      = if 0 ≤ (analyzeLighting (some grayWall)).variance
        then some (Real.sqrt (analyzeLighting (some grayWall)).variance) else none := rfl
  have hsd2 : (analyzeLighting (some grayWall)).stdDev = none := by
    rw [hsd, hv, if_neg (by norm_num)]
  have hu : (analyzeLighting (some grayWall)).isUniform
      = match (analyzeLighting (some grayWall)).stdDev with
        | some sd => decide (sd < 10 ∧ (analyzeLighting (some grayWall)).luminance > 100)
        | none => false := rfl
  have hu2 : (analyzeLighting (some grayWall)).isUniform = false := by
    rw [hu, hsd2]
  have hc : (analyzeLighting (some grayWall)).confidence
      = some (if (analyzeLighting (some grayWall)).isUniform then 0.3 else 0.9) := rfl
  refine ⟨hs, hl, hv, hsd2, hu2, ?_⟩
  rw [hc, hu2]
  rfl

/-! ### The sun over the south pole at J2000.0 -/

/-- At latitude -90 the geocentric elevation is minus the declination. -/
theorem elGeocentric_south (dec ha : ℝ) (h : |dec| ≤ 90) : elGeocentric (-90) dec ha = -dec := by
  have hp := Real.pi_pos
  have h90 : toRadians (-90) = -(Real.pi / 2) := by unfold toRadians; ring
  have hb := abs_le.mp h
  have hr1 : -(Real.pi / 2) ≤ -toRadians dec := by unfold toRadians; nlinarith
  have hr2 : -toRadians dec ≤ Real.pi / 2 := by unfold toRadians; nlinarith
  have hneg : toDegrees (-toRadians dec) = -dec := by
    unfold toRadians toDegrees; field_simp; ring
  unfold elGeocentric
  simp only [h90, Real.sin_neg, Real.cos_neg, Real.sin_pi_div_two, Real.cos_pi_div_two,
    neg_mul, one_mul, zero_mul, add_zero]
  rw [← Real.sin_neg, min_eq_right (Real.sin_le_one _), max_eq_right (Real.neg_one_le_sin _),
    Real.arcsin_sin hr1 hr2, hneg]

/-- Between 21 and 23.45 degrees the refraction term is between 0 and 9 degrees. -/
theorem refraction_mid (el : ℝ) (h1 : 21 ≤ el) (h2 : el ≤ 23.45) :
    0 ≤ refraction el ∧ refraction el ≤ 9 := by
  have hp := Real.pi_pos
  have p2 := Real.pi_lt_d6
  have hq0 : 0 ≤ 10.3 / (el + 5.11) := by
    apply div_nonneg (by norm_num); linarith
  have hq1 : 10.3 / (el + 5.11) ≤ 1 := by
    rw [div_le_one (by linarith)]; linarith
  have ha0 : 0 < toRadians (el + 10.3 / (el + 5.11)) := by
    unfold toRadians
    have : 0 < el + 10.3 / (el + 5.11) := by linarith
    positivity
  have ha1 : toRadians (el + 10.3 / (el + 5.11)) < Real.pi / 2 := by
    unfold toRadians
    have : el + 10.3 / (el + 5.11) ≤ 24.45 := by linarith
    nlinarith
  have ht := Real.tan_pos_of_pos_of_lt_pi_div_two ha0 ha1
  unfold refraction
  rw [if_pos (by linarith)]
  simp only
  set tn := Real.tan (toRadians (el + 10.3 / (el + 5.11))) with htn
  have hden : 0 < tn + 0.0019279 := by linarith
  have hfrac0 : 0 ≤ 1.02 / (tn + 0.0019279) := div_nonneg (by norm_num) hden.le
  have hfrac1 : 1.02 / (tn + 0.0019279) ≤ 530 := by
    rw [div_le_iff₀ hden]; nlinarith
  constructor
  · have : (0 : ℝ) ≤ 1010 / 1010 * (283 / (273 + 10)) := by norm_num
    exact mul_nonneg (div_nonneg hfrac0 (by norm_num)) this
  · have e : (1010 : ℝ) / 1010 * (283 / (273 + 10)) = 1 := by norm_num
    rw [e, mul_one]
    rw [div_le_iff₀ (by norm_num)]
    linarith

/-- For an apparent angle between 21 and 33 degrees the parallax term is
positive and below one degree. -/
theorem parallax_mid (el refr : ℝ) (h1 : 21 ≤ el + refr) (h2 : el + refr ≤ 33) :
    0 ≤ parallax el refr ∧ parallax el refr ≤ 1 := by
  have hp := Real.pi_pos
  have hx0 : 0 ≤ toRadians (el + refr) := by
    unfold toRadians
    have : 0 ≤ el + refr := by linarith
    positivity
  have hx1 : toRadians (el + refr) ≤ Real.pi / 2 := by
    unfold toRadians; nlinarith
  have hs := Real.mul_le_sin hx0 hx1
  have hlow : (0.2 : ℝ) ≤ 2 / Real.pi * toRadians (el + refr) := by
    unfold toRadians
    have e : 2 / Real.pi * ((el + refr) * Real.pi / 180) = (el + refr) / 90 := by
      field_simp; ring
    rw [e, le_div_iff₀ (by norm_num)]
    linarith
  have hsin : (0.2 : ℝ) ≤ Real.sin (toRadians (el + refr)) := le_trans hlow hs
  unfold parallax ASTRONOMICAL_UNIT_KM
  constructor
  · apply div_nonneg (by norm_num); linarith
  · rw [div_le_iff₀ (by linarith)]
    have : (8.794 : ℝ) / (149597870.7 * 1000) ≤ 0.2 := by norm_num
    linarith

/-- The sun seen from the south pole at sea level at the epoch: between 20 and
33 degrees above the horizon, so it is daylight. -/
theorem solar_south_sea_level (lon : ℝ) :
    20 ≤ (calcSolarElevation (-90) lon epochJ2000 0).elevation
    ∧ (calcSolarElevation (-90) lon epochJ2000 0).elevation ≤ 33
    ∧ (calcSolarElevation (-90) lon epochJ2000 0).isDaylight = true := by
  obtain ⟨d1, d2, _, _⟩ := declination_epoch_bounds
  have habs : |calcSolarDeclination (apparentLongitude 0) (calcObliquityCorrection 0)| ≤ 90 := by
    rw [abs_le]; constructor <;> linarith
  have hel : (calcSolarElevation (-90) lon epochJ2000 0).elevation
      = -calcSolarDeclination (apparentLongitude 0) (calcObliquityCorrection 0)
        + refraction (-calcSolarDeclination (apparentLongitude 0) (calcObliquityCorrection 0))
        - parallax (-calcSolarDeclination (apparentLongitude 0) (calcObliquityCorrection 0))
            (refraction (-calcSolarDeclination (apparentLongitude 0) (calcObliquityCorrection 0)))
        + heightCorrection 0 := by
    unfold calcSolarElevation
    simp only [julianCentury_epoch]
    rw [elGeocentric_south _ _ habs]
  set dec := calcSolarDeclination (apparentLongitude 0) (calcObliquityCorrection 0) with hdec
  obtain ⟨r0, r1⟩ := refraction_mid (-dec) (by linarith) (by linarith)
  obtain ⟨q0, q1⟩ := parallax_mid (-dec) (refraction (-dec)) (by linarith) (by linarith)
  rw [heightCorrection_zero] at hel
  have hlo : 20 ≤ (calcSolarElevation (-90) lon epochJ2000 0).elevation := by rw [hel]; linarith
  have hhi : (calcSolarElevation (-90) lon epochJ2000 0).elevation ≤ 33 := by rw [hel]; linarith
  refine ⟨hlo, hhi, ?_⟩
  show decide ((calcSolarElevation (-90) lon epochJ2000 0).elevation > -0.833) = true
  rw [decide_eq_true_iff]
  linarith

theorem validation_south :
    (validateEnrollmentConditions southFix (analyzeLighting (some grayFrame))
      (calcSolarElevation (-90) 0 epochJ2000 0)).isValid = true := by
  obtain ⟨e1, e2, e3⟩ := solar_south_sea_level 0
  have habs : ¬ |(calcSolarElevation (-90) 0 epochJ2000 0).elevation| > 90 := by
    rw [not_lt, abs_le]; constructor <;> linarith
  unfold validateEnrollmentConditions
  rw [analyzeLighting_gray]
  simp only [e3, habs, southFix]
  norm_num

/-! ### Two enrollments and a verification -/

theorem pole_to_pole : haversineDistance (-90) 0 90 0 = 6371 * Real.pi := by
  have h := haversineDistance_meridian (-90) 90 0 (by rw [abs_le]; constructor <;> norm_num)
  have habs : |(90 : ℝ) - -90| = 180 := by
    rw [abs_of_nonneg] <;> norm_num
  rw [h, habs]
  ring

theorem south_to_south : haversineDistance (-90) 0 (-90) 0 = 0 := by
  have h := haversineDistance_meridian (-90) (-90) 0 (by rw [abs_le]; constructor <;> norm_num)
  rw [h]
  norm_num

/-- C14, failing run: an anchor A1 is enrolled at the north pole and then an
anchor A2 at the south pole, both successfully.  The 'sbta' list then holds two
records, A1 first.  A verification at the south pole, 0 km from A2, is compared
with A1 and fails with "Location mismatch" at 6371 * pi km. -/
theorem verifyEnhanced_reads_oldest_anchor :
    ∃ r1 r2,
      (enrollEnhanced freshModule zeroSource enrollEnv).1 = Except.ok r1
      ∧ r1.success = true
      ∧ (enrollEnhanced (enrollEnhanced freshModule zeroSource enrollEnv).2.1
          (enrollEnhanced freshModule zeroSource enrollEnv).2.2 southEnrollEnv).1 = Except.ok r2
      ∧ r2.success = true
      ∧ r1.anchor.gps = poleFix
      ∧ r2.anchor.gps = southFix
      ∧ (enrollEnhanced (enrollEnhanced freshModule zeroSource enrollEnv).2.1
          (enrollEnhanced freshModule zeroSource enrollEnv).2.2
          southEnrollEnv).2.1.storage.getTemplates "sbta"
          = [{ mode := "sbta", data := TemplateData.anchor r1.anchor, timestamp := 946728000000 },
             { mode := "sbta", data := TemplateData.anchor r2.anchor, timestamp := 946728000001 }]
      ∧ haversineDistance southFix.latitude southFix.longitude
          r2.anchor.gps.latitude r2.anchor.gps.longitude = 0
      ∧ haversineDistance southFix.latitude southFix.longitude
          r1.anchor.gps.latitude r1.anchor.gps.longitude = 6371 * Real.pi
      ∧ (verifyEnhanced
          (enrollEnhanced (enrollEnhanced freshModule zeroSource enrollEnv).2.1
            (enrollEnhanced freshModule zeroSource enrollEnv).2.2 southEnrollEnv).2.1
          (enrollEnhanced (enrollEnhanced freshModule zeroSource enrollEnv).2.1
            (enrollEnhanced freshModule zeroSource enrollEnv).2.2 southEnrollEnv).2.2
          southVerifyEnv).1
          = VerifyResult.failed
              [Piece.text "Location mismatch: ", Piece.fixed (6371 * Real.pi * 1000) 1,
               Piece.text "m (max: ", Piece.num (0.1 * 1000), Piece.text "m)"] := by
  obtain ⟨r1, h1, h2, h3, h4, h5, h6, h7⟩ := enroll_pole
  set md1 := (enrollEnhanced freshModule zeroSource enrollEnv).2.1 with hmd1
  set src1 := (enrollEnhanced freshModule zeroSource enrollEnv).2.2 with hsrc1
  obtain ⟨r2, k1, k2, k3, k4, k5, k6, k7⟩ := enrollEnhanced_ok md1 src1 southEnrollEnv
    southFix rfl (by norm_num [southFix]) validation_south (fun _ => ⟨southFix, rfl⟩)
  set md2 := (enrollEnhanced md1 src1 southEnrollEnv).2.1 with hmd2
  set src2 := (enrollEnhanced md1 src1 southEnrollEnv).2.2 with hsrc2
  have g1 : r1.anchor.gps = poleFix := by rw [h3]; rfl
  have g2 : r2.anchor.gps = southFix := by rw [k3]; rfl
  have hst : md2.storage.getTemplates "sbta"
      = [{ mode := "sbta", data := TemplateData.anchor r1.anchor, timestamp := 946728000000 },
         { mode := "sbta", data := TemplateData.anchor r2.anchor, timestamp := 946728000001 }] := by
    rw [k4, getTemplates_saveTemplate, h4]
    rfl
  have d2 : haversineDistance southFix.latitude southFix.longitude
      r2.anchor.gps.latitude r2.anchor.gps.longitude = 0 := by
    rw [g2]; exact south_to_south
  have d1 : haversineDistance southFix.latitude southFix.longitude
      r1.anchor.gps.latitude r1.anchor.gps.longitude = 6371 * Real.pi := by
    rw [g1]; exact pole_to_pole
  have hcfg : md2.config.geoFenceRadius = 0.1 := by rw [k7, h7]; rfl
  refine ⟨r1, r2, h1, h2, k1, k2, g1, g2, hst, d2, d1, ?_⟩
  have hfar : haversineDistance southFix.latitude southFix.longitude
      r1.anchor.gps.latitude r1.anchor.gps.longitude > md2.config.geoFenceRadius := by
    rw [d1, hcfg]
    have := Real.pi_gt_three
    nlinarith
  unfold verifyEnhanced
  rw [hst]
  have hg : southVerifyEnv.gps = Except.ok southFix := rfl
  simp only [hg]
  rw [if_pos hfar, d1, hcfg]

/-! ### The lighting and solar scores -/

/-- C21: when the anchor and the current profile both carry a colour balance,
`calculateLightingScore` returns `m1 * m2 * m3 * max(0.5, 1 - D)` with
`m1 = 0.7` if the daylight flag differs from `luminance > minLuminanceDay`,
`m2 = 0.8` if the light is artificial during daylight, `m3 = 0.6` if the sample
is uniform with luminance above 100 (each 1 otherwise) and `D` the L1 distance
of the two colour balances; the value lies in [0, 1]. -/
theorem calculateLightingScore_formula (cfg : Config) (anchorLighting : AnchorLighting)
    (currentLighting : LightingProfile) (currentSolar : SolarPosition) (ac cc : ColorBalance)
    (ha : anchorLighting.colorBalance = some ac) (hc : currentLighting.colorBalance = some cc) :
    calculateLightingScore cfg anchorLighting currentLighting currentSolar
      = some ((if currentSolar.isDaylight ≠ decide (currentLighting.luminance > cfg.minLuminanceDay)
                then 0.7 else 1)
              * (if currentLighting.isArtificial && currentSolar.isDaylight then 0.8 else 1)
              * (if currentLighting.isUniform && decide (currentLighting.luminance > 100)
                  then 0.6 else 1)
              * max 0.5 (1 - (|ac.r - cc.r| + |ac.g - cc.g| + |ac.b - cc.b|)))
    ∧ 0 ≤ (if currentSolar.isDaylight ≠ decide (currentLighting.luminance > cfg.minLuminanceDay)
                then (0.7 : ℝ) else 1)
              * (if currentLighting.isArtificial && currentSolar.isDaylight then 0.8 else 1)
              * (if currentLighting.isUniform && decide (currentLighting.luminance > 100)
                  then 0.6 else 1)
              * max 0.5 (1 - (|ac.r - cc.r| + |ac.g - cc.g| + |ac.b - cc.b|))
    ∧ (if currentSolar.isDaylight ≠ decide (currentLighting.luminance > cfg.minLuminanceDay)
                then (0.7 : ℝ) else 1)
              * (if currentLighting.isArtificial && currentSolar.isDaylight then 0.8 else 1)
              * (if currentLighting.isUniform && decide (currentLighting.luminance > 100)
                  then 0.6 else 1)
              * max 0.5 (1 - (|ac.r - cc.r| + |ac.g - cc.g| + |ac.b - cc.b|)) ≤ 1 := by
  set m1 : ℝ := if currentSolar.isDaylight ≠ decide (currentLighting.luminance > cfg.minLuminanceDay)
    then 0.7 else 1 with hm1
  set m2 : ℝ := if currentLighting.isArtificial && currentSolar.isDaylight then 0.8 else 1 with hm2
  set m3 : ℝ := if currentLighting.isUniform && decide (currentLighting.luminance > 100)
    then 0.6 else 1 with hm3
  set D := |ac.r - cc.r| + |ac.g - cc.g| + |ac.b - cc.b| with hD
  have a1 : 0 ≤ m1 ∧ m1 ≤ 1 := by rw [hm1]; split <;> norm_num
  have a2 : 0 ≤ m2 ∧ m2 ≤ 1 := by rw [hm2]; split <;> norm_num
  have a3 : 0 ≤ m3 ∧ m3 ≤ 1 := by rw [hm3]; split <;> norm_num
  have hD0 : 0 ≤ D := by rw [hD]; positivity
  have a4 : 0 ≤ max 0.5 (1 - D) ∧ max 0.5 (1 - D) ≤ 1 := by
    constructor
    · exact le_trans (by norm_num) (le_max_left _ _)
    · apply max_le (by norm_num); linarith
  have h12 : 0 ≤ m1 * m2 ∧ m1 * m2 ≤ 1 :=
    ⟨mul_nonneg a1.1 a2.1, mul_le_one₀ a1.2 a2.1 a2.2⟩
  have h123 : 0 ≤ m1 * m2 * m3 ∧ m1 * m2 * m3 ≤ 1 :=
    ⟨mul_nonneg h12.1 a3.1, mul_le_one₀ h12.2 a3.1 a3.2⟩
  have hlo : 0 ≤ m1 * m2 * m3 * max 0.5 (1 - D) := mul_nonneg h123.1 a4.1
  have hhi : m1 * m2 * m3 * max 0.5 (1 - D) ≤ 1 := mul_le_one₀ h123.2 a4.1 a4.2
  refine ⟨?_, hlo, hhi⟩
  have hval : calculateLightingScore cfg anchorLighting currentLighting currentSolar
      = some (min 1.0 (m1 * m2 * m3 * max 0.5 (1 - D))) := by
    unfold calculateLightingScore
    simp only [ha, hc]
    congr 2
    rw [hm1, hm2, hm3]
    split <;> split <;> split <;> ring
  have e : (1.0 : ℝ) = 1 := by norm_num
  rw [hval, e, min_eq_right hhi]

/-- Witness for C21: the white frame at the pole in the polar night against the
reddish summer anchor scores 0.7 * 1 * 0.6 * 0.5 = 0.21. -/
theorem calculateLightingScore_formula_witness :
    summerAnchor.lighting.colorBalance = some { r := 0.8, g := 0.05, b := 0.15 }
    ∧ (analyzeLighting (some whiteFrame)).colorBalance = some { r := 1 / 3, g := 1 / 3, b := 1 / 3 }
    ∧ ∃ s, calculateLightingScore Config.default summerAnchor.lighting
        (analyzeLighting (some whiteFrame)) (calcSolarElevation 90 0 epochJ2000 0) = some s
      ∧ 0 ≤ s ∧ s ≤ 1 := by
  have hc : (analyzeLighting (some whiteFrame)).colorBalance
      = some { r := 1 / 3, g := 1 / 3, b := 1 / 3 } := by
    rw [analyzeLighting_white]
  obtain ⟨h1, h2, h3⟩ := calculateLightingScore_formula Config.default summerAnchor.lighting
    (analyzeLighting (some whiteFrame)) (calcSolarElevation 90 0 epochJ2000 0)
    { r := 0.8, g := 0.05, b := 0.15 } { r := 1 / 3, g := 1 / 3, b := 1 / 3 } rfl hc
  exact ⟨rfl, hc, _, h1, h2, h3⟩

/-- C22, failing run: the time term of `calculateSolarScore` is read off the
device clock and never off `solarNoon`.  For every anchor and current solar
position, replacing the `solarNoon` of the position leaves the score
unchanged; with the device clock at 00:00 the time term is 0 and the score is
`0.6 * max(0, 1 - |elevation difference| / 15) + 0.3 * d`; with the clock at
12:00 the same inputs score 0.1 more.  So at 2000-01-01 12:00 UTC on the
Greenwich meridian, within minutes of solar noon, a device set to UTC-12 gets
the time term 0. -/
theorem calculateSolarScore_ignores_solarNoon (anchorSolar : AnchorSolar)
    (currentSolar : SolarPosition) (noon : Date) (hours : Fin 24) (minutes : Fin 60) :
    calculateSolarScore anchorSolar { currentSolar with solarNoon := noon } hours minutes
      = calculateSolarScore anchorSolar currentSolar hours minutes
    ∧ calculateSolarScore anchorSolar currentSolar 0 0
      = 0.6 * max 0 (1 - |anchorSolar.elevation - currentSolar.elevation| / 15)
        + 0.3 * (if anchorSolar.isDaylight = currentSolar.isDaylight then 1.0 else 0.5)
    ∧ calculateSolarScore anchorSolar currentSolar 12 0
      = calculateSolarScore anchorSolar currentSolar 0 0 + 0.1 := by
  have hf : ∀ (hours : Fin 24) (minutes : Fin 60),
      calculateSolarScore anchorSolar currentSolar hours minutes
      = 0.6 * max 0 (1 - |anchorSolar.elevation - currentSolar.elevation| / 15)
        + 0.3 * (if anchorSolar.isDaylight = currentSolar.isDaylight then 1.0 else 0.5)
        + 0.1 * (1 - |((hours : ℕ) : ℝ) * 60 + ((minutes : ℕ) : ℝ) - 720| / 720) := by
    intro hours minutes
    unfold calculateSolarScore
    ring
  have h0 : (((0 : Fin 24) : ℕ) : ℝ) = 0 := by simp
  have m0 : (((0 : Fin 60) : ℕ) : ℝ) = 0 := by simp
  have h12 : (((12 : Fin 24) : ℕ) : ℝ) = 12 := by
    have h : ((12 : Fin 24) : ℕ) = 12 := rfl
    rw [h]
    norm_num
  have t0 : (1 : ℝ) - |(0 : ℝ) * 60 + 0 - 720| / 720 = 0 := by
    have h : |(0 : ℝ) * 60 + 0 - 720| = 720 := by
      rw [abs_of_nonpos (by norm_num)]
      norm_num
    rw [h]
    norm_num
  have t12 : (1 : ℝ) - |(12 : ℝ) * 60 + 0 - 720| / 720 = 1 := by
    have h : (12 : ℝ) * 60 + 0 - 720 = 0 := by norm_num
    rw [h, abs_zero]
    norm_num
  refine ⟨rfl, ?_, ?_⟩
  · rw [hf, h0, m0, t0]
    ring
  · rw [hf, hf, h0, h12, m0, t0, t12]
    ring


/-! ### The neural factor and the enrollment conditions -/

/-- C23, failing run: with an engine whose embedding is `[0, 0]` against an
anchor embedding `[1, 0]`, vector match required and the engine ready, the
neural factor is the quotient `dot / (normA * normB)` with `dot = 0` and
`normA * normB = 0`: the source evaluates `0 / 0`, which is `NaN` and not a
number in [-1, 1].  The sibling `MathLibrary.cosineSimilarity` of the worker
source returns 0 on these vectors through its zero-norm guard, and 0 on
vectors of different lengths. -/
theorem neuralScore_zero_embedding :
    neuralScore nullModule unitAnchor winterEnv.image
      = cosineDot [0, 0] [1, 0] / (cosineNorm [0, 0] * cosineNorm [1, 0])
    ∧ cosineDot [0, 0] [1, 0] = 0
    ∧ cosineNorm [0, 0] * cosineNorm [1, 0] = 0
    ∧ MathLibrary.cosineSimilarity [0, 0] [1, 0] = 0
    ∧ MathLibrary.cosineSimilarity [1, 0, 0] [1, 0] = 0 := by
  refine ⟨rfl, ?_, ?_, ?_, ?_⟩
  · simp [cosineDot]
  · simp [cosineNorm]
  · simp [MathLibrary.cosineSimilarity]
  · simp [MathLibrary.cosineSimilarity]


/-! ### The hour angle -/

/-- Counterexample to C26: with a sidereal time of 0 and a right ascension of
180 the hour angle is -180, outside the half-open interval (-180, 180]. -/
theorem hourAngle_minus_180 :
    (0 : ℝ) ≤ 0 ∧ (0 : ℝ) < 360 ∧ (0 : ℝ) ≤ 180 ∧ (180 : ℝ) < 360
    ∧ hourAngle 0 180 = -180 ∧ ¬ (-180 < hourAngle 0 180) := by
  have h : hourAngle 0 180 = -180 := by
    unfold hourAngle
    norm_num
  refine ⟨le_refl _, by norm_num, by norm_num, by norm_num, h, ?_⟩
  rw [h]
  norm_num

/-- C26, amended: for a sidereal time and a right ascension in [0, 360) the
hour angle lies in the closed interval [-180, 180], equals `lmst - ra` up to
one turn of 360, and is -180 exactly when `lmst - ra = -180`; the hour angle
returned by `calcSolarElevation` is this value and is always in [-180, 180]. -/
theorem hourAngle_range (lmst ra : ℝ) (h1 : 0 ≤ lmst) (h2 : lmst < 360) (h3 : 0 ≤ ra)
    (h4 : ra < 360) :
    -180 ≤ hourAngle lmst ra ∧ hourAngle lmst ra ≤ 180
    ∧ (hourAngle lmst ra = lmst - ra ∨ hourAngle lmst ra = lmst - ra + 360
        ∨ hourAngle lmst ra = lmst - ra - 360)
    ∧ (hourAngle lmst ra = -180 ↔ lmst - ra = -180)
    ∧ (∀ (lat lon elevationM : ℝ) (date : Date),
        -180 ≤ (calcSolarElevation lat lon date elevationM).hourAngle
        ∧ (calcSolarElevation lat lon date elevationM).hourAngle ≤ 180) := by
  have key : ∀ a b : ℝ, 0 ≤ a → a < 360 → 0 ≤ b → b < 360 →
      -180 ≤ hourAngle a b ∧ hourAngle a b ≤ 180
      ∧ (hourAngle a b = a - b ∨ hourAngle a b = a - b + 360 ∨ hourAngle a b = a - b - 360)
      ∧ (hourAngle a b = -180 ↔ a - b = -180) := by
    intro a b a0 a1 b0 b1
    unfold hourAngle
    simp only
    by_cases c1 : a - b < -180
    · rw [if_pos c1, if_neg (by linarith)]
      refine ⟨by linarith, by linarith, Or.inr (Or.inl rfl), ?_⟩
      constructor <;> intro h <;> linarith
    · rw [if_neg c1]
      by_cases c2 : a - b > 180
      · rw [if_pos c2]
        refine ⟨by linarith, by linarith, Or.inr (Or.inr rfl), ?_⟩
        constructor <;> intro h <;> linarith
      · rw [if_neg c2]
        exact ⟨by linarith, by linarith, Or.inl rfl, Iff.rfl⟩
  obtain ⟨k1, k2, k3, k4⟩ := key lmst ra h1 h2 h3 h4
  refine ⟨k1, k2, k3, k4, ?_⟩
  intro lat lon elevationM date
  have hha : (calcSolarElevation lat lon date elevationM).hourAngle
      = hourAngle
          (normalizeDegrees ((18.697374558 + 24.06570982441908
            * (toJulian date - JULIAN_EPOCH_2000)) * 15 + lon))
          (calcSolarRightAscension (apparentLongitude (getJulianCentury (toJulian date)))
            (calcObliquityCorrection (getJulianCentury (toJulian date)))) := rfl
  rw [hha]
  obtain ⟨r1, r2⟩ := normalizeDegrees_range ((18.697374558 + 24.06570982441908
    * (toJulian date - JULIAN_EPOCH_2000)) * 15 + lon)
  have hra : calcSolarRightAscension (apparentLongitude (getJulianCentury (toJulian date)))
      (calcObliquityCorrection (getJulianCentury (toJulian date)))
      = normalizeDegrees (toDegrees (atan2
          (Real.cos (toRadians (calcObliquityCorrection (getJulianCentury (toJulian date))))
            * Real.sin (toRadians (apparentLongitude (getJulianCentury (toJulian date)))))
          (Real.cos (toRadians (apparentLongitude (getJulianCentury (toJulian date))))))) := rfl
  obtain ⟨s1, s2⟩ := normalizeDegrees_range (toDegrees (atan2
    (Real.cos (toRadians (calcObliquityCorrection (getJulianCentury (toJulian date))))
      * Real.sin (toRadians (apparentLongitude (getJulianCentury (toJulian date)))))
    (Real.cos (toRadians (apparentLongitude (getJulianCentury (toJulian date)))))))
  rw [← hra] at s1 s2
  obtain ⟨q1, q2, _, _⟩ := key _ _ r1 r2 s1 s2
  exact ⟨q1, q2⟩

/-- Witness for C26: a sidereal time of 10 against a right ascension of 350. -/
theorem hourAngle_range_witness :
    (0 : ℝ) ≤ 10 ∧ (10 : ℝ) < 360 ∧ (0 : ℝ) ≤ 350 ∧ (350 : ℝ) < 360
    ∧ -180 ≤ hourAngle 10 350 ∧ hourAngle 10 350 ≤ 180 :=
  ⟨by norm_num, by norm_num, by norm_num, by norm_num,
   (hourAngle_range 10 350 (by norm_num) (by norm_num) (by norm_num) (by norm_num)).1,
   (hourAngle_range 10 350 (by norm_num) (by norm_num) (by norm_num) (by norm_num)).2.1⟩

/-! ### The cursor of the entropy pool -/

theorem mixTilt_length (pool : List Nat) (noise : Int) :
    (EntropyHarvester.mixTilt pool noise).length = pool.length := by
  unfold EntropyHarvester.mixTilt
  simp

theorem mixImage_length (pool data : List Nat) :
    (EntropyHarvester.mixImage pool data).length = pool.length := by
  unfold EntropyHarvester.mixImage
  by_cases hd : data.length > 0
  · rw [if_pos hd]
    dsimp only
    generalize (if data.length / 128 = 0 then 1 else data.length / 128) = step
    generalize (List.range 128) = idx
    induction idx generalizing pool with
    | nil => rfl
    | cons i t ih =>
      rw [List.foldl_cons]
      by_cases hp : i * step < data.length
      · rw [if_pos hp, ih]
        simp
      · rw [if_neg hp, ih]
  · rw [if_neg hd]

theorem harvestEntropy_length (h : EntropyHarvester) (inp : HarvestInput) :
    (h.harvestEntropy inp).entropyPool.length = h.entropyPool.length := by
  unfold EntropyHarvester.harvestEntropy
  simp only
  cases inp.image with
  | none =>
    cases inp.tilt with
    | none => simp
    | some noise => simp [mixTilt_length]
  | some data =>
    cases inp.tilt with
    | none => simp [mixImage_length]
    | some noise => simp [mixImage_length, mixTilt_length]

theorem harvestEntropy_cursor (h : EntropyHarvester) (inp : HarvestInput) :
    (h.harvestEntropy inp).poolCursor = 0 := rfl

theorem needsRefresh_iff (h : EntropyHarvester) :
    h.needsRefresh = true ↔ h.entropyPool.length ≤ h.poolCursor + 4 := by
  unfold EntropyHarvester.needsRefresh
  rw [decide_eq_true_iff]
  omega

theorem nextInteger_refresh (h : EntropyHarvester) (src : EntropySource) (max : Nat)
    (hr : h.needsRefresh = true) :
    (h.nextInteger src max).2.2 = (fun n => src (n + 1))
    ∧ (h.nextInteger src max).2.1.poolCursor = 4
    ∧ (h.nextInteger src max).2.1.entropyPool = (h.harvestEntropy (src 0)).entropyPool := by
  unfold EntropyHarvester.nextInteger
  rw [hr]
  exact ⟨rfl, rfl, rfl⟩

theorem nextInteger_keep (h : EntropyHarvester) (src : EntropySource) (max : Nat)
    (hr : h.needsRefresh = false) :
    (h.nextInteger src max).2.2 = src
    ∧ (h.nextInteger src max).2.1.poolCursor = h.poolCursor + 4
    ∧ (h.nextInteger src max).2.1.entropyPool = h.entropyPool := by
  unfold EntropyHarvester.nextInteger
  rw [hr]
  exact ⟨rfl, rfl, rfl⟩

/-- While the cursor stays below `length - 4` the shuffle draws without refresh:
`k` draws move the cursor by `4 * k` and leave pool and source as they were. -/
theorem shuffle_no_refresh (k : Nat) (l : List Nat) (rng : EntropyHarvester)
    (s : EntropySource) (hk : rng.poolCursor + 4 * k ≤ rng.entropyPool.length - 4) :
    (QuantumLattice.shuffle k (l, rng, s)).2.1.poolCursor = rng.poolCursor + 4 * k
    ∧ (QuantumLattice.shuffle k (l, rng, s)).2.1.entropyPool = rng.entropyPool
    ∧ (QuantumLattice.shuffle k (l, rng, s)).2.2 = s := by
  induction k generalizing l rng with
  | zero => exact ⟨rfl, rfl, rfl⟩
  | succ k ih =>
    have hnr : rng.needsRefresh = false := by
      cases hb : rng.needsRefresh with
      | false => rfl
      | true =>
        have := (needsRefresh_iff rng).mp hb
        omega
    obtain ⟨n1, n2, n3⟩ := nextInteger_keep rng s (k + 2) hnr
    unfold QuantumLattice.shuffle
    simp only
    rw [n1]
    obtain ⟨i1, i2, i3⟩ := ih (QuantumLattice.swap l (k + 1) (rng.nextInteger s (k + 2)).1)
      (rng.nextInteger s (k + 2)).2.1 (by rw [n2, n3]; omega)
    rw [i1, i2, i3, n2, n3]
    exact ⟨by omega, rfl, rfl⟩

theorem shuffle_reachable (k : Nat) (l : List Nat) (rng : EntropyHarvester)
    (s : EntropySource) (hr : EntropyHarvester.Reachable rng) :
    EntropyHarvester.Reachable (QuantumLattice.shuffle k (l, rng, s)).2.1 := by
  induction k generalizing l rng s with
  | zero => exact hr
  | succ k ih =>
    unfold QuantumLattice.shuffle
    simp only
    exact ih _ _ _ (EntropyHarvester.Reachable.next rng s (k + 2) hr)

/-- The pool keeps its 4096 bytes and the cursor stays a multiple of 4 that is
at most 4092. -/
theorem reachable_invariant (h : EntropyHarvester) (hr : EntropyHarvester.Reachable h) :
    h.entropyPool.length = 4096 ∧ h.poolCursor % 4 = 0 ∧ h.poolCursor ≤ 4092 := by
  induction hr with
  | fresh =>
    refine ⟨?_, rfl, ?_⟩
    · show (List.replicate 4096 0).length = 4096
      rw [List.length_replicate]
    · show 0 ≤ 4092
      omega
  | harvest h inp _ ih =>
    rw [harvestEntropy_length, harvestEntropy_cursor]
    exact ⟨ih.1, rfl, by omega⟩
  | next h src max _ ih =>
    obtain ⟨i1, i2, i3⟩ := ih
    cases hb : h.needsRefresh with
    | true =>
      obtain ⟨_, n2, n3⟩ := nextInteger_refresh h src max hb
      rw [n2, n3, harvestEntropy_length]
      exact ⟨i1, rfl, by omega⟩
    | false =>
      obtain ⟨_, n2, n3⟩ := nextInteger_keep h src max hb
      rw [n2, n3]
      have hlt : ¬ h.entropyPool.length ≤ h.poolCursor + 4 := by
        intro hc
        have := (needsRefresh_iff h).mpr hc
        rw [hb] at this
        exact absurd this (by simp)
      exact ⟨i1, by omega, by omega⟩

/-- The generator of a crystallized lattice whose generator was reachable, with
`size - 1` draws fitting into one pool: the cursor stands at `4 * (size - 1)`,
one harvest reading was consumed, and the state is reachable. -/
theorem crystallize_rng (q : QuantumLattice) (src : EntropySource) (now : Nat) (p : ℚ)
    (hr : EntropyHarvester.Reachable q.rng) (hs : 4 * (q.size - 1) ≤ 4092) :
    (q.crystallize src now p).2.1.rng.poolCursor = 4 * (q.size - 1)
    ∧ (q.crystallize src now p).2.2 = (fun n => src (n + 1))
    ∧ EntropyHarvester.Reachable (q.crystallize src now p).2.1.rng := by
  obtain ⟨i1, _, _⟩ := reachable_invariant q.rng hr
  have hlen : (q.rng.harvestEntropy (src 0)).entropyPool.length = 4096 := by
    rw [harvestEntropy_length, i1]
  obtain ⟨s1, _, s3⟩ := shuffle_no_refresh (q.size - 1) (List.range q.size)
    (q.rng.harvestEntropy (src 0)) (fun n => src (n + 1))
    (by rw [hlen, harvestEntropy_cursor]; omega)
  have hreach := shuffle_reachable (q.size - 1) (List.range q.size)
    (q.rng.harvestEntropy (src 0)) (fun n => src (n + 1))
    (EntropyHarvester.Reachable.harvest q.rng (src 0) hr)
  rw [harvestEntropy_cursor] at s1
  refine ⟨?_, s3, hreach⟩
  rw [show (q.crystallize src now p).2.1.rng.poolCursor
      = (QuantumLattice.shuffle (q.size - 1) (List.range q.size,
          q.rng.harvestEntropy (src 0), fun n => src (n + 1))).2.1.poolCursor from rfl, s1]
  omega

/-- Counterexample to C27: after the 1023 draws of a 1024-cell crystallize the
cursor stands at 4092 with exactly 4 unread bytes in the 4096-byte pool, and
the next `nextInteger` refreshes the pool (the cursor comes back as 4) instead
of consuming them. -/
theorem nextInteger_refreshes_at_four_unread :
    EntropyHarvester.Reachable ((QuantumLattice.new 1024).crystallize zeroSource 0 15).2.1.rng
    ∧ ((QuantumLattice.new 1024).crystallize zeroSource 0 15).2.1.rng.entropyPool.length = 4096
    ∧ ((QuantumLattice.new 1024).crystallize zeroSource 0 15).2.1.rng.poolCursor = 4092
    ∧ ((QuantumLattice.new 1024).crystallize zeroSource 0 15).2.1.rng.needsRefresh = true
    ∧ (((QuantumLattice.new 1024).crystallize zeroSource 0 15).2.1.rng.nextInteger
        zeroSource 7).2.1.poolCursor = 4 := by
  have hq : EntropyHarvester.Reachable (QuantumLattice.new 1024).rng :=
    EntropyHarvester.Reachable.fresh
  have hsz : (QuantumLattice.new 1024).size = 1024 := rfl
  obtain ⟨c1, _, c3⟩ := crystallize_rng (QuantumLattice.new 1024) zeroSource 0 15 hq
    (by omega)
  rw [hsz] at c1
  obtain ⟨i1, _, _⟩ := reachable_invariant _ c3
  have hn : ((QuantumLattice.new 1024).crystallize zeroSource 0 15).2.1.rng.needsRefresh
      = true := by
    rw [needsRefresh_iff, i1, c1]
  exact ⟨c3, i1, c1, hn, (nextInteger_refresh _ zeroSource 7 hn).2.1⟩

/-- C27, amended: `nextInteger` refreshes the pool exactly when at most 4
unread bytes remain (`poolCursor >= length - 4`); it then consumes one harvest
reading and reads bytes 0..3 of the new pool.  Otherwise, with 5 or more unread
bytes, it reads at the cursor without refreshing. -/
theorem nextInteger_refresh_iff (h : EntropyHarvester) (src : EntropySource) (max : Nat) :
    (h.needsRefresh = true ↔ h.entropyPool.length ≤ h.poolCursor + 4)
    ∧ (h.entropyPool.length ≤ h.poolCursor + 4 →
        (h.nextInteger src max).2.2 = (fun n => src (n + 1))
        ∧ (h.nextInteger src max).2.1.poolCursor = 4
        ∧ (h.nextInteger src max).2.1.entropyPool = (h.harvestEntropy (src 0)).entropyPool)
    ∧ (h.poolCursor + 4 < h.entropyPool.length →
        (h.nextInteger src max).2.2 = src
        ∧ (h.nextInteger src max).2.1.poolCursor = h.poolCursor + 4
        ∧ (h.nextInteger src max).2.1.entropyPool = h.entropyPool) := by
  refine ⟨needsRefresh_iff h, ?_, ?_⟩
  · intro hc
    exact nextInteger_refresh h src max ((needsRefresh_iff h).mpr hc)
  · intro hc
    apply nextInteger_keep
    cases hb : h.needsRefresh with
    | false => rfl
    | true =>
      have := (needsRefresh_iff h).mp hb
      omega

/-- Witness for C27: a fresh harvester has 4096 unread bytes and reads at the
cursor; one with the cursor at 4092 refreshes. -/
theorem nextInteger_refresh_iff_witness :
    (EntropyHarvester.new.nextInteger zeroSource 7).2.1.poolCursor = 4
    ∧ (EntropyHarvester.new.nextInteger zeroSource 7).2.1.entropyPool
        = EntropyHarvester.new.entropyPool
    ∧ (({ entropyPool := List.replicate 4096 0, poolCursor := 4092 } :
          EntropyHarvester).nextInteger zeroSource 7).2.1.poolCursor = 4 := by
  have hl : (List.replicate 4096 0).length = 4096 := List.length_replicate _ _
  obtain ⟨_, _, h3⟩ := nextInteger_refresh_iff EntropyHarvester.new zeroSource 7
  obtain ⟨_, k2, _⟩ := nextInteger_refresh_iff
    { entropyPool := List.replicate 4096 0, poolCursor := 4092 } zeroSource 7
  obtain ⟨_, a2, a3⟩ := h3 (by
    show 0 + 4 < (List.replicate 4096 0).length
    rw [hl]; omega)
  obtain ⟨_, b2, _⟩ := k2 (by
    show (List.replicate 4096 0).length ≤ 4092 + 4
    rw [hl])
  exact ⟨a2, a3, b2⟩

/-- C30: every harvester state reachable from the constructor keeps a pool of
4096 bytes and a cursor that is a multiple of 4 and at most 4096 (indeed at
most 4092); the four bytes that `nextInteger` reads, after its refresh if one
is due, lie at indices below 4096; and a crystallize of a 256-cell lattice
with such a generator makes its 255 draws from one harvest: the cursor ends at
1020 and one harvest reading is consumed. -/
theorem reachable_cursor (h : EntropyHarvester) (hr : EntropyHarvester.Reachable h) :
    h.entropyPool.length = 4096 ∧ h.poolCursor % 4 = 0 ∧ h.poolCursor ≤ 4096
    ∧ (∀ (src : EntropySource),
        (if h.needsRefresh then h.harvestEntropy (src 0) else h).entropyPool.length = 4096
        ∧ (if h.needsRefresh then h.harvestEntropy (src 0) else h).poolCursor + 3 < 4096
        ∧ ∀ max, (h.nextInteger src max).2.1.poolCursor
            = (if h.needsRefresh then h.harvestEntropy (src 0) else h).poolCursor + 4)
    ∧ (∀ (q : QuantumLattice) (src : EntropySource) (now : Nat) (p : ℚ),
        q.rng = h → q.size = 256 →
        (q.crystallize src now p).2.1.rng.poolCursor = 4 * 255
        ∧ (q.crystallize src now p).2.2 = (fun n => src (n + 1))
        ∧ EntropyHarvester.Reachable (q.crystallize src now p).2.1.rng) := by
  obtain ⟨i1, i2, i3⟩ := reachable_invariant h hr
  refine ⟨i1, i2, by omega, ?_, ?_⟩
  · intro src
    cases hb : h.needsRefresh with
    | true =>
      simp only [if_true]
      rw [harvestEntropy_length, harvestEntropy_cursor]
      refine ⟨i1, by omega, ?_⟩
      intro max
      exact (nextInteger_refresh h src max hb).2.1
    | false =>
      simp only [Bool.false_eq_true, if_false]
      have hlt : ¬ h.entropyPool.length ≤ h.poolCursor + 4 := by
        intro hc
        have := (needsRefresh_iff h).mpr hc
        rw [hb] at this
        exact absurd this (by simp)
      refine ⟨i1, by omega, ?_⟩
      intro max
      exact (nextInteger_keep h src max hb).2.1
  · intro q src now p hq hs
    have hrq : EntropyHarvester.Reachable q.rng := by rw [hq]; exact hr
    obtain ⟨c1, c2, c3⟩ := crystallize_rng q src now p hrq (by omega)
    rw [hs] at c1
    exact ⟨c1, c2, c3⟩

/-- Witness for C30: the harvester of the constructor. -/
theorem reachable_cursor_witness :
    EntropyHarvester.new.entropyPool.length = 4096
    ∧ EntropyHarvester.new.poolCursor % 4 = 0
    ∧ ((QuantumLattice.new 256).crystallize zeroSource 0 15).2.1.rng.poolCursor = 4 * 255 :=
  ⟨(reachable_cursor EntropyHarvester.new EntropyHarvester.Reachable.fresh).1,
   (reachable_cursor EntropyHarvester.new EntropyHarvester.Reachable.fresh).2.1,
   ((reachable_cursor EntropyHarvester.new EntropyHarvester.Reachable.fresh).2.2.2.2
      (QuantumLattice.new 256) zeroSource 0 15 rfl rfl).1⟩

/-! ### Sunrise and sunset in the polar night -/

/-- At latitude 89 at the epoch the quotient `cosH` of `calcHourAngle` has a
positive divisor and exceeds 1: the sun does not rise. -/
theorem cosH_lat89_epoch :
    0 < Real.cos (toRadians 89) * Real.cos (toRadians
        (calcSolarDeclination (apparentLongitude 0) (calcObliquityCorrection 0)))
    ∧ (Real.cos (toRadians 90.833) - Real.sin (toRadians 89) * Real.sin (toRadians
        (calcSolarDeclination (apparentLongitude 0) (calcObliquityCorrection 0))))
      / (Real.cos (toRadians 89) * Real.cos (toRadians
        (calcSolarDeclination (apparentLongitude 0) (calcObliquityCorrection 0)))) > 1 := by
  have hp := Real.pi_pos
  have p1 := Real.pi_gt_d6
  have p2 := Real.pi_lt_d6
  obtain ⟨d1, d2, s1, s2⟩ := declination_epoch_bounds
  set dec := calcSolarDeclination (apparentLongitude 0) (calcObliquityCorrection 0) with hdec
  set sd := Real.sin (toRadians dec) with hsd
  -- cos 89 = sin 1
  have h89 : toRadians 89 = Real.pi / 2 - Real.pi / 180 := by unfold toRadians; ring
  have hc89 : Real.cos (toRadians 89) = Real.sin (Real.pi / 180) := by
    rw [h89, Real.cos_pi_div_two_sub]
  have hs89 : Real.sin (toRadians 89) = Real.cos (Real.pi / 180) := by
    rw [h89, Real.sin_pi_div_two_sub]
  have hsin1_pos : 0 < Real.sin (Real.pi / 180) :=
    Real.sin_pos_of_pos_of_lt_pi (by positivity) (by linarith)
  have hsin1_le : Real.sin (Real.pi / 180) ≤ Real.pi / 180 :=
    Real.sin_le (by positivity)
  have hcos1 : 1 - (Real.pi / 180) ^ 2 / 2 ≤ Real.cos (Real.pi / 180) :=
    Real.one_sub_sq_div_two_le_cos
  have hcos1' : (0.99 : ℝ) ≤ Real.cos (Real.pi / 180) := by
    have : (Real.pi / 180) ^ 2 ≤ 0.01 := by
      have h0 : Real.pi / 180 ≤ 0.1 := by linarith
      have h1 : 0 ≤ Real.pi / 180 := by positivity
      nlinarith
    linarith
  -- cos 90.833 = -sin 0.833
  have hz : toRadians 90.833 = 0.833 * Real.pi / 180 + Real.pi / 2 := by unfold toRadians; ring
  have hcz : Real.cos (toRadians 90.833) = -Real.sin (0.833 * Real.pi / 180) := by
    rw [hz, Real.cos_add_pi_div_two]
  have hsz : Real.sin (0.833 * Real.pi / 180) ≤ 0.833 * Real.pi / 180 :=
    Real.sin_le (by positivity)
  have hcz' : (-0.015 : ℝ) ≤ Real.cos (toRadians 90.833) := by
    rw [hcz]
    have : 0.833 * Real.pi / 180 ≤ 0.015 := by linarith
    linarith
  -- cos dec in (0, 1]
  have hcd_pos : 0 < Real.cos (toRadians dec) := by
    apply Real.cos_pos_of_mem_Ioo
    constructor
    · unfold toRadians; nlinarith
    · unfold toRadians; nlinarith
  have hcd_le : Real.cos (toRadians dec) ≤ 1 := Real.cos_le_one _
  rw [hc89, hs89]
  have hden_pos : 0 < Real.sin (Real.pi / 180) * Real.cos (toRadians dec) :=
    mul_pos hsin1_pos hcd_pos
  refine ⟨hden_pos, ?_⟩
  rw [gt_iff_lt, lt_div_iff₀ hden_pos, one_mul]
  have hden_le : Real.sin (Real.pi / 180) * Real.cos (toRadians dec) ≤ 0.018 := by
    have : Real.sin (Real.pi / 180) ≤ 0.018 := by linarith
    nlinarith
  have hnum : (0.35 : ℝ) ≤ Real.cos (toRadians 90.833) - Real.cos (Real.pi / 180) * sd := by
    have : (0.99 : ℝ) * 0.37 ≤ Real.cos (Real.pi / 180) * (-sd) := by
      apply mul_le_mul hcos1' (by linarith) (by norm_num) (by linarith)
    nlinarith
  linarith

/-- C25, failing run: at latitude 89 north on 2000-01-01 `cosH` exceeds 1 (the
sun does not rise), sunrise and sunset are `null`, and `daylightMinutes` is
1440. -/
theorem calcSunriseSunset_polar_night_1440 :
    (Real.cos (toRadians 90.833) - Real.sin (toRadians 89) * Real.sin (toRadians
        (calcSolarDeclination (apparentLongitude 0) (calcObliquityCorrection 0))))
      / (Real.cos (toRadians 89) * Real.cos (toRadians
        (calcSolarDeclination (apparentLongitude 0) (calcObliquityCorrection 0)))) > 1
    ∧ calcHourAngle 89
        (calcSolarDeclination (apparentLongitude 0) (calcObliquityCorrection 0)) 90.833 = none
    ∧ (calcSunriseSunset 89 0 epochJ2000).sunrise = none
    ∧ (calcSunriseSunset 89 0 epochJ2000).sunset = none
    ∧ (calcSunriseSunset 89 0 epochJ2000).daylightMinutes = 1440 := by
  obtain ⟨hden, hcos⟩ := cosH_lat89_epoch
  have hha : calcHourAngle 89
      (calcSolarDeclination (apparentLongitude 0) (calcObliquityCorrection 0)) 90.833 = none := by
    unfold calcHourAngle
    simp only
    rw [if_neg (ne_of_gt hden), if_pos hcos]
  have hss : calcSunriseSunset 89 0 epochJ2000
      = { sunrise := none, sunset := none, solarNoon := none,
          daylightMinutes := if (89 : ℝ) > 0 then 1440 else 0 } := by
    unfold calcSunriseSunset
    simp only [julianCentury_epoch]
    have hd : calcSolarDeclination
        (calcGeomMeanLongSun 0 + calcSunEqOfCenter 0 (calcGeomMeanAnomalySun 0) - 0.00569
          - 0.00478 * Real.sin (toRadians (125.04 - 1934.136 * 0)))
        (calcObliquityCorrection 0)
        = calcSolarDeclination (apparentLongitude 0) (calcObliquityCorrection 0) := rfl
    rw [hd, hha]
  refine ⟨hcos, hha, ?_, ?_, ?_⟩
  · rw [hss]
  · rw [hss]
  · rw [hss]
    norm_num

/-! ### The shuffle is a permutation -/

theorem nextInteger_lt (h : EntropyHarvester) (src : EntropySource) (max : Nat)
    (hbytes : ∀ x ∈ h.entropyPool, x < 256) (hmax : 1 ≤ max) :
    (h.nextInteger src max).1 < max := by
  have hb1 : ∀ x ∈ (if h.needsRefresh then h.harvestEntropy (src 0) else h).entropyPool,
      x < 256 := by
    split
    · exact harvestEntropy_bytes h (src 0)
    · exact hbytes
  set h1 := (if h.needsRefresh then h.harvestEntropy (src 0) else h) with hh1
  obtain ⟨_, hlt⟩ := val32_eq _ _ _ _ (getD_lt_of_forall_mem _ hb1 h1.poolCursor)
    (getD_lt_of_forall_mem _ hb1 (h1.poolCursor + 1))
    (getD_lt_of_forall_mem _ hb1 (h1.poolCursor + 2))
    (getD_lt_of_forall_mem _ hb1 (h1.poolCursor + 3))
  have hh : (if h.needsRefresh = true then
      (h.harvestEntropy (src 0), fun n => src (n + 1)) else (h, src)).1 = h1 := by
    rw [hh1]
    split <;> rfl
  unfold EntropyHarvester.nextInteger
  simp only
  rw [hh]
  exact floor_scale_lt _ max hlt hmax

theorem nextInteger_bytes (h : EntropyHarvester) (src : EntropySource) (max : Nat)
    (hbytes : ∀ x ∈ h.entropyPool, x < 256) :
    ∀ x ∈ (h.nextInteger src max).2.1.entropyPool, x < 256 := by
  cases hb : h.needsRefresh with
  | true =>
    rw [(nextInteger_refresh h src max hb).2.2]
    exact harvestEntropy_bytes h (src 0)
  | false =>
    rw [(nextInteger_keep h src max hb).2.2]
    exact hbytes

/-- Exchanging two entries of a list gives a permutation of it. -/
theorem swap_perm (a : List Nat) (i j : Nat) : (QuantumLattice.swap a i j).Perm a := by
  unfold QuantumLattice.swap
  cases hi : a[i]? with
  | none => exact List.Perm.refl a
  | some x =>
    cases hj : a[j]? with
    | none => exact List.Perm.refl a
    | some y =>
      simp only
      have hil : i < a.length := (List.getElem?_eq_some_iff.mp hi).1
      have hjl : j < a.length := (List.getElem?_eq_some_iff.mp hj).1
      have hx : a[i] = x := (List.getElem?_eq_some_iff.mp hi).2
      have hy : a[j] = y := (List.getElem?_eq_some_iff.mp hj).2
      rw [List.perm_iff_count]
      intro b
      have hjl2 : j < (a.set i y).length := by rw [List.length_set]; exact hjl
      rw [List.count_set x b (a.set i y) j hjl2, List.count_set y b a i hil]
      have hget : (a.set i y)[j] = y := by
        rw [List.getElem_set]
        split
        · rfl
        · exact hy
      rw [hget, hx]
      have hmem : x ∈ a := by rw [← hx]; exact List.getElem_mem hil
      have hcount : (if (x == b) = true then 1 else 0) ≤ List.count b a := by
        split
        · rename_i hxb
          have : x = b := by simpa using hxb
          rw [← this]
          exact List.count_pos_iff.mpr hmem
        · omega
      generalize (if (x == b) = true then 1 else 0) = ex at hcount ⊢
      generalize (if (y == b) = true then 1 else 0) = ey
      omega

/-- The Fisher-Yates loop returns a permutation of the list it was given. -/
theorem shuffle_perm (k : Nat) (l : List Nat) (rng : EntropyHarvester) (s : EntropySource) :
    (QuantumLattice.shuffle k (l, rng, s)).1.Perm l := by
  induction k generalizing l rng s with
  | zero => exact List.Perm.refl l
  | succ k ih =>
    unfold QuantumLattice.shuffle
    simp only
    exact (ih _ _ _).trans (swap_perm l (k + 1) _)

/-- Every index the Fisher-Yates loop exchanges with lies in the list: the
draw for position `i` is at most `i`. -/
theorem shuffle_draw_le (i : Nat) (rng : EntropyHarvester) (s : EntropySource)
    (hbytes : ∀ x ∈ rng.entropyPool, x < 256) :
    (rng.nextInteger s (i + 1)).1 ≤ i := by
  have := nextInteger_lt rng s (i + 1) hbytes (by omega)
  omega

/-- After `c` steps the activation loop has written 1 at the positions listed
in the first `c` indices and left 0 elsewhere. -/
theorem activate_spec (n : Nat) (indices : List Nat) (hlt : ∀ k ∈ indices, k < n) (c : Nat)
    (hc : c ≤ indices.length) :
    (List.range c).foldl
      (fun m i => match indices[i]? with
        | some k => m.set k 1
        | none => m)
      (List.replicate n 0)
      = (List.range n).map (fun k => if k ∈ indices.take c then 1 else 0) := by
  induction c with
  | zero => 
    simp only [List.range_zero, List.foldl_nil, List.take_zero, List.not_mem_nil, if_false]
    apply List.ext_getElem
    · simp
    · intro i h1 h2
      simp
  | succ c ih =>
    rw [List.range_succ, List.foldl_append, ih (by omega)]
    simp only [List.foldl_cons, List.foldl_nil]
    have hcl : c < indices.length := by omega
    have hk : indices[c]? = some indices[c] := List.getElem?_eq_getElem hcl
    rw [hk]
    simp only
    have hkn : indices[c] < n := hlt _ (List.getElem_mem hcl)
    apply List.ext_getElem?
    intro j
    rw [List.getElem?_set]
    have htake : indices.take (c + 1) = indices.take c ++ [indices[c]] := by
      rw [List.take_succ, hk]
      rfl
    by_cases hj : indices[c] = j
    · rw [if_pos hj, if_pos (by rw [List.length_map, List.length_range]; exact hkn)]
      rw [List.getElem?_map, List.getElem?_range (by rw [← hj]; exact hkn)]
      simp only [Option.map_some']
      rw [if_pos]
      rw [htake, List.mem_append]
      right
      simp [hj]
    · rw [if_neg hj]
      rw [List.getElem?_map, List.getElem?_map]
      by_cases hjn : j < n
      · rw [List.getElem?_range hjn]
        simp only [Option.map_some']
        have hiff : (j ∈ List.take (c + 1) indices) ↔ (j ∈ List.take c indices) := by
          rw [htake, List.mem_append]
          constructor
          · rintro (h | h)
            · exact h
            · simp at h
              exact absurd h.symm hj
          · intro h
            exact Or.inl h
        simp only [hiff]
      · rw [List.getElem?_eq_none (by rw [List.length_range]; omega)]
        rfl

/-- The number of indices below `n` that occur in a duplicate-free list of
indices below `n` is the length of that list. -/
theorem countP_mem_range (n : Nat) (S : List Nat) (hnd : S.Nodup) (hlt : ∀ k ∈ S, k < n) :
    (List.range n).countP (fun k => decide (k ∈ S)) = S.length := by
  rw [List.countP_eq_length_filter]
  apply List.Perm.length_eq
  rw [List.perm_ext_iff_of_nodup ((List.nodup_range n).filter _) hnd]
  intro a
  rw [List.mem_filter, List.mem_range, decide_eq_true_iff]
  constructor
  · rintro ⟨_, h⟩
    exact h
  · intro h
    exact ⟨hlt a h, h⟩

/-- The matrix left by `crystallize`, cell by cell: 1 at the first
`activeCount` shuffled indices, 0 elsewhere. -/
theorem crystallize_matrix (q : QuantumLattice) (src : EntropySource) (now : Nat) (p : ℚ)
    (hlen : q.matrix.length = q.size) (hsize : q.size < 2 ^ 53) (hp0 : 0 ≤ p) (hp1 : p ≤ 100) :
    (⌊fl (fl (p / 100) * (q.size : ℚ))⌋).toNat ≤ q.size
    ∧ (q.crystallize src now p).2.1.matrix
      = (List.range q.size).map (fun k =>
          if k ∈ (QuantumLattice.shuffle (q.size - 1)
              (List.range q.size, q.rng.harvestEntropy (src 0), fun n => src (n + 1))).1.take
                (⌊fl (fl (p / 100) * (q.size : ℚ))⌋).toNat
          then 1 else 0) := by
  have hperm := shuffle_perm (q.size - 1) (List.range q.size) (q.rng.harvestEntropy (src 0))
    (fun n => src (n + 1))
  have hc : (⌊fl (fl (p / 100) * (q.size : ℚ))⌋).toNat ≤ q.size := by
    have h1 := activeCount_le p q.size hsize hp0 hp1
    omega
  refine ⟨hc, ?_⟩
  have hm : (q.crystallize src now p).2.1.matrix
      = (List.range (⌊fl (fl (p / 100) * (q.size : ℚ))⌋).toNat).foldl
          (fun m i => match (QuantumLattice.shuffle (q.size - 1)
              (List.range q.size, q.rng.harvestEntropy (src 0), fun n => src (n + 1))).1[i]? with
            | some k => m.set k 1
            | none => m)
          (List.replicate q.matrix.length 0) := rfl
  rw [hm, hlen]
  apply activate_spec
  · intro k hk
    exact List.mem_range.mp (hperm.mem_iff.mp hk)
  · rw [hperm.length_eq, List.length_range]
    exact hc

/-- C28: for `0 <= p <= 100` on a lattice whose matrix has `size` cells
(`size` below `2^53`, as every typed-array length is), every draw of the
Fisher-Yates loop for position `i` is at most `i`, the shuffled index array is
a permutation of `0..size-1`, `activeNodes` is the floor of the double product
`(p / 100) * size` and lies in `[0, size]`, and after `crystallize(p)` every
cell is 0 or 1, exactly `activeNodes` cells are 1 and the other
`size - activeNodes` cells are 0. -/
theorem crystallize_exact (q : QuantumLattice) (src : EntropySource) (now : Nat) (p : ℚ)
    (hlen : q.matrix.length = q.size) (hsize : q.size < 2 ^ 53) (hp0 : 0 ≤ p) (hp1 : p ≤ 100) :
    (∀ (rng : EntropyHarvester) (s : EntropySource) (i : Nat),
        (∀ x ∈ rng.entropyPool, x < 256) → (rng.nextInteger s (i + 1)).1 ≤ i)
    ∧ (QuantumLattice.shuffle (q.size - 1)
        (List.range q.size, q.rng.harvestEntropy (src 0), fun n => src (n + 1))).1.Perm
          (List.range q.size)
    ∧ (q.crystallize src now p).1.activeNodes = ⌊fl (fl (p / 100) * (q.size : ℚ))⌋
    ∧ 0 ≤ (q.crystallize src now p).1.activeNodes
    ∧ (q.crystallize src now p).1.activeNodes ≤ (q.size : ℤ)
    ∧ (q.crystallize src now p).2.1.matrix.length = q.size
    ∧ (∀ x ∈ (q.crystallize src now p).2.1.matrix, x = 0 ∨ x = 1)
    ∧ (((q.crystallize src now p).2.1.matrix.countP (fun x => x == 1) : ℕ) : ℤ)
        = (q.crystallize src now p).1.activeNodes
    ∧ (((q.crystallize src now p).2.1.matrix.countP (fun x => x == 0) : ℕ) : ℤ)
        = (q.size : ℤ) - (q.crystallize src now p).1.activeNodes := by
  have hperm := shuffle_perm (q.size - 1) (List.range q.size) (q.rng.harvestEntropy (src 0))
    (fun n => src (n + 1))
  obtain ⟨hc, hm⟩ := crystallize_matrix q src now p hlen hsize hp0 hp1
  set idx := (QuantumLattice.shuffle (q.size - 1)
    (List.range q.size, q.rng.harvestEntropy (src 0), fun n => src (n + 1))).1 with hidx
  set c := (⌊fl (fl (p / 100) * (q.size : ℚ))⌋).toNat with hcdef
  have hact : (q.crystallize src now p).1.activeNodes = ⌊fl (fl (p / 100) * (q.size : ℚ))⌋ := rfl
  have hfl0 : 0 ≤ ⌊fl (fl (p / 100) * (q.size : ℚ))⌋ := activeCount_nonneg p q.size hp0
  have hcast : ((c : ℕ) : ℤ) = ⌊fl (fl (p / 100) * (q.size : ℚ))⌋ := Int.toNat_of_nonneg hfl0
  have hnd : (idx.take c).Nodup :=
    ((hperm.nodup_iff).mpr (List.nodup_range q.size)).sublist (List.take_sublist c idx)
  have hlt : ∀ k ∈ idx.take c, k < q.size := by
    intro k hk
    exact List.mem_range.mp (hperm.mem_iff.mp (List.mem_of_mem_take hk))
  have htl : (idx.take c).length = c := by
    rw [List.length_take, hperm.length_eq, List.length_range]
    omega
  have hones : (q.crystallize src now p).2.1.matrix.countP (fun x => x == 1) = c := by
    have h1 : (List.range q.size).countP (fun k => decide (k ∈ idx.take c)) = c := by
      rw [countP_mem_range q.size (idx.take c) hnd hlt, htl]
    rw [hm, List.countP_map]
    refine Eq.trans ?_ h1
    apply List.countP_congr
    intro k _
    simp only [Function.comp, beq_iff_eq, decide_eq_true_eq]
    constructor
    · intro h
      by_contra hn
      rw [if_neg hn] at h
      omega
    · intro h
      rw [if_pos h]
  have hcells : ∀ x ∈ (q.crystallize src now p).2.1.matrix, x = 0 ∨ x = 1 := by
    intro x hx
    rw [hm] at hx
    obtain ⟨k, _, rfl⟩ := List.mem_map.mp hx
    split
    · exact Or.inr rfl
    · exact Or.inl rfl
  have hlen2 : (q.crystallize src now p).2.1.matrix.length = q.size := by
    rw [hm, List.length_map, List.length_range]
  have hzeros : (q.crystallize src now p).2.1.matrix.countP (fun x => x == 0) = q.size - c := by
    have hsplit := List.length_eq_countP_add_countP (p := fun x => x == 1)
      (q.crystallize src now p).2.1.matrix
    have hcongr : (q.crystallize src now p).2.1.matrix.countP (fun x => x == 0)
        = (q.crystallize src now p).2.1.matrix.countP (fun a => decide ¬ ((a == 1) = true)) := by
      apply List.countP_congr
      intro x hx
      rcases hcells x hx with h | h <;> simp [h]
    rw [hcongr]
    rw [hlen2, hones] at hsplit
    omega
  refine ⟨fun rng s i hb => shuffle_draw_le i rng s hb, hperm, hact, ?_, ?_, hlen2, hcells,
    ?_, ?_⟩
  · rw [hact]; exact hfl0
  · rw [hact, ← hcast]; exact_mod_cast hc
  · rw [hones, hact, hcast]
  · rw [hzeros, hact, ← hcast]
    omega

/-- Witness for C28: the module's lattice crystallized at 15 percent has 38
cells at 1 and 218 at 0. -/
theorem crystallize_exact_witness :
    (QuantumLattice.new 256).matrix.length = (QuantumLattice.new 256).size
    ∧ (QuantumLattice.new 256).size < 2 ^ 53
    ∧ (0 : ℚ) ≤ 15 ∧ (15 : ℚ) ≤ 100
    ∧ ((((QuantumLattice.new 256).crystallize zeroSource 0 15).2.1.matrix.countP
        (fun x => x == 1) : ℕ) : ℤ)
        = ((QuantumLattice.new 256).crystallize zeroSource 0 15).1.activeNodes
    ∧ ((QuantumLattice.new 256).crystallize zeroSource 0 15).1.activeNodes = 38 := by
  have hl : (QuantumLattice.new 256).matrix.length = (QuantumLattice.new 256).size := by
    show (List.replicate 256 0).length = 256
    rw [List.length_replicate]
  have hs : (QuantumLattice.new 256).size < 2 ^ 53 := by
    show 256 < 2 ^ 53
    norm_num
  obtain ⟨_, _, h3, _, _, _, _, h8, _⟩ := crystallize_exact (QuantumLattice.new 256) zeroSource 0 15
    hl hs (by norm_num) (by norm_num)
  refine ⟨hl, hs, by norm_num, by norm_num, h8, ?_⟩
  rw [h3]
  exact floor_fifteen

/-! ### The lattice decision does not depend on the entropy -/

/-- With positive factors the positive entries of the weighted lattice are the
cells at 1. -/
theorem weightedLattice_positive_count (lattice : List Nat) (factors : List ℝ)
    (hcells : ∀ x ∈ lattice, x = 0 ∨ x = 1) (hne : factors ≠ [])
    (hpos : ∀ f ∈ factors, 0 < f) :
    ((weightedLattice lattice factors).filter (fun v => decide (v > 0))).length
      = lattice.countP (fun x => x == 1) := by
  rw [← List.countP_eq_length_filter]
  unfold weightedLattice
  rw [List.countP_map]
  have h : lattice.countP (fun x => x == 1)
      = lattice.enum.countP ((fun x => x == 1) ∘ Prod.snd) := by
    rw [← List.countP_map, List.enum_map_snd]
  rw [h]
  apply List.countP_congr
  intro e he
  have hmem : e.2 ∈ lattice := List.getElem?_mem (List.mem_enum_iff_getElem?.mp he)
  have hlen : 0 < factors.length := List.length_pos.mpr hne
  have hidx : e.1 % factors.length < factors.length := Nat.mod_lt _ hlen
  have hf : 0 < factors.getD (e.1 % factors.length) 0 := by
    rw [List.getD_eq_getElem?_getD, List.getElem?_eq_getElem hidx]
    exact hpos _ (List.getElem_mem hidx)
  simp only [Function.comp, decide_eq_true_eq, gt_iff_lt, beq_iff_eq]
  rcases hcells e.2 hmem with h0 | h1
  · rw [h0]
    simp
  · rw [h1]
    simp only [Nat.cast_one, one_mul, iff_true]
    exact hf

/-- C29: on a 256-cell lattice with 256 matrix cells and a non-empty factor
vector whose entries are all positive, `generateQuantumDecision` returns
coherence 38/256, confidence 57/256 and threshold `0.7 + 0.2 * 38/256`, whatever
the entropy source and the clock: two runs agree on the three values. -/
theorem generateQuantumDecision_constant (q : QuantumLattice) (src1 src2 : EntropySource)
    (now1 now2 : Nat) (factors : List ℝ) (hsize : q.size = 256)
    (hlen : q.matrix.length = 256) (hne : factors ≠ []) (hpos : ∀ f ∈ factors, 0 < f) :
    (generateQuantumDecision q src1 now1 factors).1.coherence = 38 / 256
    ∧ (generateQuantumDecision q src1 now1 factors).1.confidence = 57 / 256
    ∧ (generateQuantumDecision q src1 now1 factors).1.decisionThreshold = 0.7 + 0.2 * (38 / 256)
    ∧ (generateQuantumDecision q src1 now1 factors).1.activeNodes = 38
    ∧ (generateQuantumDecision q src2 now2 factors).1.coherence
        = (generateQuantumDecision q src1 now1 factors).1.coherence
    ∧ (generateQuantumDecision q src2 now2 factors).1.confidence
        = (generateQuantumDecision q src1 now1 factors).1.confidence
    ∧ (generateQuantumDecision q src2 now2 factors).1.decisionThreshold
        = (generateQuantumDecision q src1 now1 factors).1.decisionThreshold := by
  have key : ∀ (src : EntropySource) (now : Nat),
      (generateQuantumDecision q src now factors).1.activeNodes = 38
      ∧ (generateQuantumDecision q src now factors).1.coherence = 38 / 256
      ∧ (generateQuantumDecision q src now factors).1.confidence = 57 / 256
      ∧ (generateQuantumDecision q src now factors).1.decisionThreshold
          = 0.7 + 0.2 * (38 / 256) := by
    intro src now
    obtain ⟨hc, hm⟩ := crystallize_matrix q src now 15 (by rw [hlen, hsize]) (by rw [hsize]; norm_num)
      (by norm_num) (by norm_num)
    have hperm := shuffle_perm (q.size - 1) (List.range q.size) (q.rng.harvestEntropy (src 0))
      (fun n => src (n + 1))
    have hcells : ∀ x ∈ (q.crystallize src now 15).2.1.matrix, x = 0 ∨ x = 1 := by
      intro x hx
      rw [hm] at hx
      obtain ⟨k, _, rfl⟩ := List.mem_map.mp hx
      split
      · exact Or.inr rfl
      · exact Or.inl rfl
    have hfl : (⌊fl (fl ((15 : ℚ) / 100) * (q.size : ℚ))⌋).toNat = 38 := by
      rw [hsize]; exact floor_fifteen_percent
    have hones : (q.crystallize src now 15).2.1.matrix.countP (fun x => x == 1) = 38 := by
      have hnd : ((QuantumLattice.shuffle (q.size - 1) (List.range q.size,
          q.rng.harvestEntropy (src 0), fun n => src (n + 1))).1.take 38).Nodup :=
        ((hperm.nodup_iff).mpr (List.nodup_range q.size)).sublist (List.take_sublist _ _)
      have hlt : ∀ k ∈ (QuantumLattice.shuffle (q.size - 1) (List.range q.size,
          q.rng.harvestEntropy (src 0), fun n => src (n + 1))).1.take 38, k < q.size := by
        intro k hk
        exact List.mem_range.mp (hperm.mem_iff.mp (List.mem_of_mem_take hk))
      have htl : ((QuantumLattice.shuffle (q.size - 1) (List.range q.size,
          q.rng.harvestEntropy (src 0), fun n => src (n + 1))).1.take 38).length = 38 := by
        rw [List.length_take, hperm.length_eq, List.length_range, hsize]
        rfl
      have h1 := countP_mem_range q.size _ hnd hlt
      rw [htl] at h1
      rw [hm, hfl, List.countP_map]
      refine Eq.trans ?_ h1
      apply List.countP_congr
      intro k _
      simp only [Function.comp, beq_iff_eq, decide_eq_true_eq]
      constructor
      · intro h
        by_contra hn
        rw [if_neg hn] at h
        omega
      · intro h
        rw [if_pos h]
    have hl : (q.crystallize src now 15).2.1.matrix.length = 256 := by
      rw [crystallize_matrix_length, hlen]
    have han : (generateQuantumDecision q src now factors).1.activeNodes = 38 := by
      show ((weightedLattice (q.crystallize src now 15).2.1.matrix factors).filter
        (fun v => decide (v > 0))).length = 38
      rw [weightedLattice_positive_count _ _ hcells hne hpos, hones]
    have hcoh : (generateQuantumDecision q src now factors).1.coherence = 38 / 256 := by
      show (((weightedLattice (q.crystallize src now 15).2.1.matrix factors).filter
        (fun v => decide (v > 0))).length : ℝ)
          / (((q.crystallize src now 15).2.1.matrix.length : ℕ) : ℝ) = 38 / 256
      rw [weightedLattice_positive_count _ _ hcells hne hpos, hones, hl]
      norm_num
    have hconf : (generateQuantumDecision q src now factors).1.confidence
        = min 0.95 ((generateQuantumDecision q src now factors).1.coherence * 1.5) := rfl
    have hthr : (generateQuantumDecision q src now factors).1.decisionThreshold
        = 0.7 + (generateQuantumDecision q src now factors).1.coherence * 0.2 := rfl
    refine ⟨han, hcoh, ?_, ?_⟩
    · rw [hconf, hcoh, min_eq_right (by norm_num)]
      norm_num
    · rw [hthr, hcoh]
      ring
  obtain ⟨a1, a2, a3, a4⟩ := key src1 now1
  obtain ⟨_, b2, b3, b4⟩ := key src2 now2
  exact ⟨a2, a3, a4, a1, by rw [a2, b2], by rw [a3, b3], by rw [a4, b4]⟩

/-- Witness for C29: the module's lattice with five factors of 0.5, for the
all-zero source and for a source of bytes 255. -/
theorem generateQuantumDecision_constant_witness :
    (QuantumLattice.new 256).size = 256
    ∧ (QuantumLattice.new 256).matrix.length = 256
    ∧ (generateQuantumDecision (QuantumLattice.new 256) zeroSource 0
        [0.5, 0.5, 0.5, 0.5, 0.5]).1.coherence = 38 / 256
    ∧ (generateQuantumDecision (QuantumLattice.new 256)
        (fun _ => { random := fun _ => 255, tilt := none, image := none }) 1
        [0.5, 0.5, 0.5, 0.5, 0.5]).1.coherence
        = (generateQuantumDecision (QuantumLattice.new 256) zeroSource 0
            [0.5, 0.5, 0.5, 0.5, 0.5]).1.coherence := by
  have hl : (QuantumLattice.new 256).matrix.length = 256 := by
    show (List.replicate 256 0).length = 256
    rw [List.length_replicate]
  have hpos : ∀ f ∈ ([0.5, 0.5, 0.5, 0.5, 0.5] : List ℝ), 0 < f := by
    intro f hf
    simp only [List.mem_cons, List.mem_singleton, List.not_mem_nil, or_false, or_self] at hf
    rw [hf]; norm_num
  obtain ⟨h1, _, _, _, h5, _, _⟩ := generateQuantumDecision_constant (QuantumLattice.new 256)
    zeroSource (fun _ => { random := fun _ => 255, tilt := none, image := none }) 0 1
    [0.5, 0.5, 0.5, 0.5, 0.5] rfl hl (by simp) hpos
  exact ⟨rfl, hl, h1, h5⟩

end

end SBTA
